import Mathlib

/-!
# Verification of the DSPCompiler MIDI engine (`Fretless.c`, `DeMIDI.c`)

This file shallowly embeds the gesture-to-MIDI encoder `Fretless.c` and the
inbound byte decoder `DeMIDI.c` into Lean and proves/refutes the frozen claims
about them.

Modelling conventions:

* C `int` fields and values are modelled as `ℤ`; machine overflow is irrelevant
  at the magnitudes the library manipulates (notes < 128, bends < 16384,
  counters bounded by 16).
* C `float` values are modelled as exact rationals `ℚ`.  All concrete float
  computations appearing in the claims are exact in binary floating point as
  well, so the rational model agrees with the C behaviour on them.  Because the
  standard `ℚ` arithmetic operations of core Lean are `irreducible` (which
  blocks kernel evaluation in `decide`), the embedding spells them with the
  reducible variants `qadd`, `qsub`, `qmul`, `qdiv`, `qneg` defined below; each
  is proved equal to the corresponding standard operation (`qadd_eq` …), so
  symbolic proofs may freely rewrite to ordinary field arithmetic.
* C arrays are modelled as total functions out of `ℤ`.  All in-range behaviour
  is identical to the C arrays; reads or writes outside the C bounds (which in
  C would be undefined behaviour) simply hit unconstrained function values.
  Invariants proved below keep every index of every executed trace in range.
* The injected callbacks (`midiPutch`, `midiFlush`, `fail`, `passed`, `logger`)
  are modelled as event accumulators inside the context: `emitted` is the list
  of bytes handed to `midiPutch`, and `fails`, `flushes`, `passedCount`,
  `logs` count the respective callback invocations.  The C `fail` callback is
  allowed to return (its return type is `int`), in which case execution
  continues; the embedding therefore records the failure and continues, exactly
  like the source.
* `FretlessCommon.h` is not part of the sources.  Modelled from the spec:
  `FINGERMAX = 16` (spec: "fixed-size array of size `FINGER_MAX` (= 16 in the
  reference)"), `NOBODY` is the `NONE` sentinel for finger ids, which must lie
  outside `[0, FINGERMAX)` for the range checks of `Fretless.c` to behave as
  documented; we use `-1`.  `TRUE`/`FALSE` are the usual C `1`/`0`.
-/

/-! ## Reducible rational arithmetic

`Rat.add` and friends are `irreducible` in core Lean, so terms built from them
do not evaluate inside `decide`.  The embedding uses the following equivalents,
built from `mkRat`, which do evaluate.  Each is proved equal to the standard
operation so that symbolic reasoning can use ordinary field lemmas.
-/

def qadd (a b : ℚ) : ℚ := mkRat (a.num * b.den + b.num * a.den) (a.den * b.den)

def qneg (a : ℚ) : ℚ := mkRat (-a.num) a.den

def qsub (a b : ℚ) : ℚ := qadd a (qneg b)

def qmul (a b : ℚ) : ℚ := mkRat (a.num * b.num) (a.den * b.den)

def qdiv (a b : ℚ) : ℚ :=
  if 0 ≤ b.num then mkRat (a.num * (b.den : ℤ)) (a.den * b.num.toNat)
  else mkRat (-(a.num * (b.den : ℤ))) (a.den * (-b.num).toNat)

/-- C cast of a float to `int`: truncation toward zero. -/
def cTrunc (q : ℚ) : ℤ := if 0 ≤ q then q.floor else -((qneg q).floor)

/-! ## Constants (`Fretless.c` lines 67-68, 120-125; `FretlessCommon.h` modelled from the spec) -/

/-- Modelled from the spec: `FretlessCommon.h` is not in the sources; `NOBODY`
is its `NONE` sentinel for finger ids, outside `[0, FINGERMAX)`. -/
def NOBODY : ℤ := -1

/-- Modelled from the spec: `FINGER_MAX (= 16 in the reference)`. -/
def FINGERMAX : ℤ := 16

def CHANNELMAX : ℤ := 16

def POLYMAX : ℤ := 16

def NOTEMAX : ℤ := 128

def MIDI_ON : ℤ := 0x90

def MIDI_BEND : ℤ := 0xE0

def BENDCENTER : ℤ := 8192

def CTXSTATE_INIT : ℤ := 0

def CTXSTATE_BOOTED : ℤ := 1

/-! ## Data model (`Fretless.c` lines 72-184)

C `TRUE`/`FALSE` are `1`/`0`; flag fields are kept as `ℤ` because the source
mixes `== TRUE` comparisons with C truthiness tests (`if(...isOn)`). -/

structure Fretless_fingerState where
  isOn : ℤ
  isSupressed : ℤ
  samplePhase : ℚ
  channel : ℤ
  note : ℤ
  bend : ℤ
  velocity : ℤ
  polyGroup : ℤ
  nextFingerInPolyGroup : ℤ
  prevFingerInPolyGroup : ℤ
  nextFingerInChannel : ℤ
  prevFingerInChannel : ℤ
  visitingPolyGroup : ℤ
  deriving DecidableEq

structure Fretless_channelState where
  lastBend : ℤ
  lastAftertouch : ℤ
  currentFingerInChannel : ℤ
  useCount : ℤ
  deriving DecidableEq

/-- The context (`struct Fretless_context`).  Arrays are total functions out of
`ℤ`; the injected callbacks are event accumulators (`emitted` = bytes handed to
`midiPutch`; `fails`, `flushes`, `passedCount`, `logs` count invocations of
`fail`, `midiFlush`, `passed`, `logger`). -/
structure Fretless_context where
  fingers : ℤ → Fretless_fingerState
  channels : ℤ → Fretless_channelState
  polys : ℤ → ℤ
  ctxState : ℤ
  lastAllocatedChannel : ℤ
  fingersDownCount : ℤ
  noteChannelDownCount : ℤ → ℤ → ℤ
  noteChannelDownRawBalance : ℤ → ℤ → ℤ
  channelBase : ℤ
  channelSpan : ℤ
  channelBendSemis : ℤ
  supressBends : ℤ
  emitted : List ℤ
  fails : ℕ
  flushes : ℕ
  passedCount : ℕ
  logs : ℕ

/-! ## State-manipulation helpers (callback accumulators and array writes) -/

def addFail (st : Fretless_context) : Fretless_context := { st with fails := st.fails + 1 }

def addLog (st : Fretless_context) : Fretless_context := { st with logs := st.logs + 1 }

def addPassed (st : Fretless_context) : Fretless_context :=
  { st with passedCount := st.passedCount + 1 }

def emitList (st : Fretless_context) (bs : List ℤ) : Fretless_context :=
  { st with emitted := st.emitted ++ bs }

def updFinger (st : Fretless_context) (f : ℤ)
    (g : Fretless_fingerState → Fretless_fingerState) : Fretless_context :=
  { st with fingers := Function.update st.fingers f (g (st.fingers f)) }

def updChannel (st : Fretless_context) (c : ℤ)
    (g : Fretless_channelState → Fretless_channelState) : Fretless_context :=
  { st with channels := Function.update st.channels c (g (st.channels c)) }

def updPoly (st : Fretless_context) (p v : ℤ) : Fretless_context :=
  { st with polys := Function.update st.polys p v }

/-- Write one cell of a 2-dimensional table. -/
def upd2 (g : ℤ → ℤ → ℤ) (n c v : ℤ) : ℤ → ℤ → ℤ :=
  fun n' c' => if n' = n ∧ c' = c then v else g n' c'

def addDownCount (st : Fretless_context) (n c d : ℤ) : Fretless_context :=
  { st with
    noteChannelDownCount := upd2 st.noteChannelDownCount n c (st.noteChannelDownCount n c + d) }

def addRawBalance (st : Fretless_context) (n c d : ℤ) : Fretless_context :=
  { st with
    noteChannelDownRawBalance :=
      upd2 st.noteChannelDownRawBalance n c (st.noteChannelDownRawBalance n c + d) }

def setCtxStateBooted (st : Fretless_context) : Fretless_context :=
  { st with ctxState := CTXSTATE_BOOTED }

def setBendSemisField (st : Fretless_context) (v : ℤ) : Fretless_context :=
  { st with channelBendSemis := v }

def bumpFingersDownCount (st : Fretless_context) (d : ℤ) : Fretless_context :=
  { st with fingersDownCount := st.fingersDownCount + d }

def setLastAllocatedChannel (st : Fretless_context) (c : ℤ) : Fretless_context :=
  { st with lastAllocatedChannel := c }

/-- The self test's clamp of a negative `noteChannelDownRawBalance` cell to 0. -/
def clampRawBalance (st : Fretless_context) (n c : ℤ) : Fretless_context :=
  { st with noteChannelDownRawBalance := upd2 st.noteChannelDownRawBalance n c 0 }

/-- `[0, 1, …, n-1]` as integers; the index lists of the C `for` loops. -/
def intRange (n : ℕ) : List ℤ := (List.range n).map Int.ofNat

/-! ## `Fretless_init` (lines 194-220) and `Fretless_reset_FingerState` (lines 227-242) -/

/-- `Fretless_init`: `fretlessAlloc` returns uninitialized memory, so the
contents of all arrays and non-hint fields are indeterminate; the embedding
takes them from the `garbage` parameter.  Only the fields the source assigns
are set.  The callback accumulators start empty (they model the fresh injected
callbacks, not memory). -/
def Fretless_init (garbage : Fretless_context) : Fretless_context :=
  { garbage with
    ctxState := CTXSTATE_INIT
    channelSpan := 8
    channelBase := 0
    channelBendSemis := 2
    supressBends := 0
    emitted := []
    fails := 0
    flushes := 0
    passedCount := 0
    logs := 0 }

def Fretless_reset_FingerState : Fretless_fingerState :=
  { isOn := 0
    samplePhase := 0
    channel := 0
    note := 0
    velocity := 0
    bend := BENDCENTER
    nextFingerInPolyGroup := NOBODY
    prevFingerInPolyGroup := NOBODY
    nextFingerInChannel := NOBODY
    prevFingerInChannel := NOBODY
    isSupressed := 0
    visitingPolyGroup := NOBODY
    polyGroup := NOBODY }

/-! ## Hint setters (lines 244-331) -/

def Fretless_setMidiHintSupressBends (st : Fretless_context) (supressBends : ℤ) :
    Fretless_context :=
  { st with supressBends := supressBends }

def Fretless_setMidiHintChannelBase (st : Fretless_context) (base : ℤ) : Fretless_context :=
  let st := if base < 0 ∨ base ≥ CHANNELMAX then addFail st else st
  let st := { st with channelBase := base }
  if st.channelBase + st.channelSpan > FINGERMAX then
    { st with channelSpan := FINGERMAX - st.channelBase }
  else st

def Fretless_getMidiHintChannelBase (st : Fretless_context) : ℤ := st.channelBase

def Fretless_setMidiHintChannelSpan (st : Fretless_context) (span : ℤ) : Fretless_context :=
  let st := if span < 1 ∨ span > CHANNELMAX then addFail st else st
  let st := { st with channelSpan := span }
  if st.channelBase + st.channelSpan > FINGERMAX then
    { st with channelSpan := FINGERMAX - st.channelBase }
  else st

def Fretless_getMidiHintChannelSpan (st : Fretless_context) : ℤ := st.channelSpan

/-- The six RPN control-change messages (pitch-bend range) emitted per channel
by `Fretless_setMidiHintChannelBendSemis` (lines 302-324). -/
def rpnBytes (channel semitones : ℤ) : List ℤ :=
  [0xB0 + channel, 101, 0,
   0xB0 + channel, 100, 0,
   0xB0 + channel, 6, semitones,
   0xB0 + channel, 38, 0,
   0xB0 + channel, 101, 127,
   0xB0 + channel, 100, 127]

def Fretless_setMidiHintChannelBendSemis (st : Fretless_context) (semitones : ℤ) :
    Fretless_context :=
  let st := if semitones < 1 ∨ semitones > 24 then addFail st else st
  let st := setBendSemisField st semitones
  if st.ctxState = CTXSTATE_BOOTED then
    (intRange st.channelSpan.toNat).foldl
      (fun acc c => emitList acc (rpnBytes (acc.channelBase + c) semitones)) st
  else st

def Fretless_getMidiHintChannelBendSemis (st : Fretless_context) : ℤ := st.channelBendSemis

/-! ## `Fretless_boot` (lines 347-390)

The reset loops over the fixed index ranges (`for(c=0;c<CHANNELMAX;c++)` …)
are modelled as range-guarded function overwrites: entries inside the loop
range get the reset value, entries outside keep their previous (garbage)
value, exactly as in the source. -/

def Fretless_bootReset (st : Fretless_context) : Fretless_context :=
  { st with
    channels := fun c =>
      if 0 ≤ c ∧ c < CHANNELMAX then
        { lastBend := BENDCENTER, useCount := 0, currentFingerInChannel := NOBODY,
          lastAftertouch := 0 }
      else st.channels c
    noteChannelDownCount := fun n c =>
      if (0 ≤ c ∧ c < CHANNELMAX) ∧ (0 ≤ n ∧ n < NOTEMAX) then 0
      else st.noteChannelDownCount n c
    noteChannelDownRawBalance := fun n c =>
      if (0 ≤ c ∧ c < CHANNELMAX) ∧ (0 ≤ n ∧ n < NOTEMAX) then 0
      else st.noteChannelDownRawBalance n c
    fingers := fun f =>
      if 0 ≤ f ∧ f < FINGERMAX then Fretless_reset_FingerState else st.fingers f
    polys := fun p => if 0 ≤ p ∧ p < POLYMAX then NOBODY else st.polys p
    fingersDownCount := 0
    lastAllocatedChannel := 0 }

/-- The hint consistency checks of `Fretless_boot` (lines 381-387). -/
def Fretless_bootChecks (st : Fretless_context) : Fretless_context :=
  let st := if st.channelSpan = 0 then addFail st else st
  let st := if st.channelBase < 0 then addFail st else st
  let st := if st.channelBase ≥ CHANNELMAX then addFail st else st
  if st.channelSpan + st.channelBase ≥ CHANNELMAX then addFail st else st

def Fretless_boot (st : Fretless_context) : Fretless_context :=
  let st := Fretless_bootReset st
  let st := Fretless_bootChecks st
  let st := setCtxStateBooted st
  Fretless_setMidiHintChannelBendSemis st st.channelBendSemis

/-! ## Pitch mapper (lines 392-433) -/

def Fretless_limitVal (low val high : ℤ) : ℤ :=
  if val < low then low else if val > high then high else val

def Fretless_fnoteToNoteBendPair (st : Fretless_context) (fnote : ℚ) : ℤ × ℤ :=
  let note := cTrunc (qadd fnote (mkRat 1 2))
  let floatBend := qsub fnote ((note : ℚ))
  let bend := cTrunc (qadd ((BENDCENTER : ℚ))
    (qdiv (qmul floatBend ((BENDCENTER : ℚ))) ((st.channelBendSemis : ℚ))))
  (note, bend)

def Fretless_fnoteBendFromExisting (st : Fretless_context) (fnote : ℚ)
    (fs : Fretless_fingerState) : ℤ × ℤ :=
  let note := fs.note
  let floatBend := qsub fnote ((note : ℚ))
  let bend := cTrunc (qadd ((BENDCENTER : ℚ))
    (qdiv (qmul floatBend ((BENDCENTER : ℚ))) ((st.channelBendSemis : ℚ))))
  if bend < 0 ∨ bend ≥ 2 * BENDCENTER then Fretless_fnoteToNoteBendPair st fnote
  else (note, bend)

/-- `lo = n & 0x7f`, `hi = (n >> 7) & 0x7f`.  For every integer `n` (two's
complement), `n & 0x7f = n.emod 128` and the arithmetic shift `n >> 7` is
`n.ediv 128`, so the translation is exact. -/
def Fretless_numTo7BitNums (n : ℤ) : ℤ × ℤ :=
  (Int.emod n 128, Int.emod (Int.ediv n 128) 128)

/-! ## Channel allocator (lines 445-528) -/

inductive AllocHit where
  | negFail (channel : ℤ)
  | found (channel : ℤ)
  deriving DecidableEq

/-- The scanned channel for inner-loop index `s`:
`channel = (last+1+s - base) % span + base` with C's truncating `%`. -/
def allocScanChannel (st : Fretless_context) (s : ℤ) : ℤ :=
  Int.tmod (st.lastAllocatedChannel + 1 + s - st.channelBase) st.channelSpan + st.channelBase

/-- One pass of the inner `for(s=0; s<span; s++)` loop of
`Fretless_allocChannel` at a fixed `lowUsedCount`: the first scanned channel
with negative `useCount` aborts (the source `fail`s and returns `0`); the
first one whose `useCount` equals `lowUsedCount` is the hit. -/
def Fretless_allocScan (st : Fretless_context) (lowUsedCount : ℤ) :
    List ℤ → Option AllocHit
  | [] => none
  | s :: rest =>
    let channel := allocScanChannel st s
    if (st.channels channel).useCount < 0 then some (AllocHit.negFail channel)
    else if (st.channels channel).useCount = lowUsedCount then some (AllocHit.found channel)
    else Fretless_allocScan st lowUsedCount rest

def spanIdxList (st : Fretless_context) : List ℤ := intRange st.channelSpan.toNat

/-- The outer `for(lowUsedCount=0; TRUE; lowUsedCount++)` loop, bounded by
fuel.  The source loop is unbounded; it terminates exactly when some scanned
channel's `useCount` equals the running `lowUsedCount`, which happens no later
than the maximum scanned `useCount` when all scanned counts are nonnegative.
`allocFuel` below exceeds that bound, so on every state the source terminates
on, the fuelled loop returns the same hit; fuel exhaustion (only possible when
the source would loop forever, e.g. `channelSpan ≤ 0`) is mapped to the
function's trailing unreachable `fail`/`return 0`. -/
def Fretless_allocLoop (st : Fretless_context) (lowUsedCount : ℤ) :
    ℕ → Option AllocHit
  | 0 => none
  | fuel + 1 =>
    match Fretless_allocScan st lowUsedCount (spanIdxList st) with
    | some h => some h
    | none => Fretless_allocLoop st (lowUsedCount + 1) fuel

def allocFuel (st : Fretless_context) : ℕ :=
  (((spanIdxList st).map
    (fun s => (st.channels (allocScanChannel st s)).useCount)).foldr max 0).toNat + 1

def Fretless_allocChannel (st : Fretless_context) (finger : ℤ) : Fretless_context × ℤ :=
  match Fretless_allocLoop st 0 (allocFuel st) with
  | some (AllocHit.negFail _) => (addFail st, 0)
  | none => (addFail st, 0)
  | some (AllocHit.found channel) =>
    let st := updChannel st channel (fun ch => { ch with useCount := ch.useCount + 1 })
    let currentFingerInChannel := (st.channels channel).currentFingerInChannel
    let st :=
      if currentFingerInChannel ≠ NOBODY then
        let st :=
          if (st.fingers currentFingerInChannel).nextFingerInChannel ≠ NOBODY then addFail st
          else st
        let st := updFinger st currentFingerInChannel
          (fun fs => { fs with nextFingerInChannel := finger })
        updFinger st finger (fun fs => { fs with prevFingerInChannel := currentFingerInChannel })
      else st
    let st := updChannel st channel (fun ch => { ch with currentFingerInChannel := finger })
    let st := setLastAllocatedChannel st channel
    (st, channel)

def Fretless_freeChannel (st : Fretless_context) (finger : ℤ) : Fretless_context :=
  let channel := (st.fingers finger).channel
  let st := updChannel st channel (fun ch => { ch with useCount := ch.useCount - 1 })
  let st := if (st.channels channel).useCount < 0 then addFail st else st
  let prevFinger := (st.fingers finger).prevFingerInChannel
  let nextFinger := (st.fingers finger).nextFingerInChannel
  let currentFinger := (st.channels channel).currentFingerInChannel
  let st :=
    if prevFinger ≠ NOBODY then
      updFinger st prevFinger (fun fs => { fs with nextFingerInChannel := nextFinger })
    else st
  let st :=
    if nextFinger ≠ NOBODY then
      updFinger st nextFinger (fun fs => { fs with prevFingerInChannel := prevFinger })
    else st
  let st := updFinger st finger (fun fs => { fs with prevFingerInChannel := NOBODY })
  let st := updFinger st finger (fun fs => { fs with nextFingerInChannel := NOBODY })
  if currentFinger = finger then
    updChannel st channel (fun ch => { ch with currentFingerInChannel := prevFinger })
  else st

/-! ## Note tie, bend and aftertouch emission (lines 531-594) -/

def Fretless_noteTie (st : Fretless_context) (fs : Fretless_fingerState) : Fretless_context :=
  let lsb := (Fretless_numTo7BitNums 1223).1
  let msb := (Fretless_numTo7BitNums 1223).2
  emitList st
    [0xB0 + fs.channel, 0x63, msb,
     0xB0 + fs.channel, 0x62, lsb,
     0xB0 + fs.channel, 0x06, fs.note]

def Fretless_setCurrentBend (st : Fretless_context) (finger : ℤ) : Fretless_context :=
  let fs := st.fingers finger
  if (st.channels fs.channel).lastBend ≠ fs.bend ∧
     (st.channels fs.channel).currentFingerInChannel = finger ∧
     fs.isOn ≠ 0 ∧ st.supressBends = 0 then
    let st := updChannel st fs.channel (fun ch => { ch with lastBend := fs.bend })
    let lo := (Fretless_numTo7BitNums fs.bend).1
    let hi := (Fretless_numTo7BitNums fs.bend).2
    emitList st [MIDI_BEND + fs.channel, lo, hi]
  else st

def Fretless_setCurrentAftertouch (st : Fretless_context) (finger : ℤ) (velocity : ℚ) :
    Fretless_context :=
  let st := updFinger st finger
    (fun fs => { fs with velocity := Fretless_limitVal 1 (cTrunc (qmul velocity 127)) 127 })
  let fs := st.fingers finger
  if (st.channels fs.channel).lastAftertouch ≠ fs.velocity ∧
     (st.channels fs.channel).currentFingerInChannel = finger ∧
     fs.isOn ≠ 0 ∧ st.supressBends = 0 then
    let st := updChannel st fs.channel (fun ch => { ch with lastAftertouch := fs.velocity })
    emitList st [0xD0 + fs.channel, fs.velocity]
  else st

/-! ## Polyphony linker (lines 596-646) -/

def Fretless_link (st : Fretless_context) (finger : ℤ) : Fretless_context × ℤ :=
  let polyGroup := (st.fingers finger).polyGroup
  let fingerToTurnOff := st.polys polyGroup
  let st :=
    if fingerToTurnOff ≠ NOBODY then
      let st := updFinger st fingerToTurnOff (fun fs => { fs with isSupressed := 1 })
      let st := updFinger st fingerToTurnOff
        (fun fs => { fs with nextFingerInPolyGroup := finger })
      updFinger st finger (fun fs => { fs with prevFingerInPolyGroup := fingerToTurnOff })
    else st
  let st := updFinger st finger (fun fs => { fs with polyGroup := polyGroup })
  let st := updPoly st polyGroup finger
  (st, fingerToTurnOff)

def Fretless_unlink (st : Fretless_context) (finger : ℤ) : Fretless_context × ℤ :=
  let polyGroup := (st.fingers finger).polyGroup
  let currentFinger := st.polys polyGroup
  let prevFinger := (st.fingers finger).prevFingerInPolyGroup
  let nextFinger := (st.fingers finger).nextFingerInPolyGroup
  let st :=
    if prevFinger ≠ NOBODY then
      updFinger st prevFinger (fun fs => { fs with nextFingerInPolyGroup := nextFinger })
    else st
  let st :=
    if nextFinger ≠ NOBODY then
      updFinger st nextFinger (fun fs => { fs with prevFingerInPolyGroup := prevFinger })
    else st
  let stOn :=
    if finger = currentFinger then
      let st := updPoly st polyGroup prevFinger
      let fingerToTurnOn := prevFinger
      let st :=
        if fingerToTurnOn ≠ NOBODY then
          updFinger st fingerToTurnOn (fun fs => { fs with isSupressed := 0 })
        else st
      (st, fingerToTurnOn)
    else (st, NOBODY)
  let st := stOn.1
  let st := updFinger st finger (fun fs => { fs with prevFingerInPolyGroup := NOBODY })
  let st := updFinger st finger (fun fs => { fs with nextFingerInPolyGroup := NOBODY })
  let st := updFinger st finger (fun fs => { fs with polyGroup := NOBODY })
  (st, stOn.2)

/-! ## The check macros (lines 127-149)

`STATECHECK`, `FINGERCHECK`, `POLYCHECK`, `FNOTECHECK` are C macros invoking
the `fail` callback on a violated precondition; execution continues
afterwards.  The public entry points below are each factored as
checks-then-body, mirroring the macro-prefix structure of the source. -/

def STATECHECK (st : Fretless_context) : Fretless_context :=
  if st.ctxState ≠ CTXSTATE_BOOTED then addFail st else st

def FINGERCHECK (st : Fretless_context) (finger : ℤ) : Fretless_context :=
  if finger < 0 ∨ finger ≥ FINGERMAX then addFail st else st

def POLYCHECK (st : Fretless_context) (polyGroup : ℤ) : Fretless_context :=
  if polyGroup < 0 ∨ polyGroup ≥ POLYMAX then addFail st else st

/-- `fnote < -0.5 || fnote >= 127.5` (`-0.5 = mkRat (-1) 2`, `127.5 = mkRat 255 2`). -/
def FNOTECHECK (st : Fretless_context) (fnote : ℚ) : Fretless_context :=
  if fnote < mkRat (-1) 2 ∨ mkRat 255 2 ≤ fnote then addFail st else st

/-! ## `Fretless_beginDown` (lines 649-662) and `Fretless_endDown` (lines 665-732) -/

def Fretless_beginDownBody (st : Fretless_context) (finger : ℤ) : Fretless_context :=
  let st := if (st.fingers finger).isOn = 1 then addFail st else st
  let st := updFinger st finger (fun fs => { fs with isOn := 1 })
  let ac := Fretless_allocChannel st finger
  updFinger ac.1 finger (fun fs => { fs with channel := ac.2 })

def Fretless_beginDown (st : Fretless_context) (finger : ℤ) : Fretless_context :=
  Fretless_beginDownBody (FINGERCHECK (STATECHECK st) finger) finger

/-- `Fretless_endDown`, lines 671-682: the `isOn` precondition check and the
recording of velocity, poly group, note, bend and the two counters. -/
def Fretless_endDownSetup (st : Fretless_context) (finger : ℤ) (fnote : ℚ) (polyGroup : ℤ)
    (velocity : ℚ) : Fretless_context :=
  let st := if (st.fingers finger).isOn = 0 then addFail st else st
  let st := updFinger st finger
    (fun fs => { fs with velocity := Fretless_limitVal 1 (cTrunc (qmul velocity 127)) 127 })
  let st := updFinger st finger (fun fs => { fs with polyGroup := polyGroup })
  let nb := Fretless_fnoteToNoteBendPair st fnote
  let st := updFinger st finger (fun fs => { fs with note := nb.1, bend := nb.2 })
  let st := bumpFingersDownCount st 1
  addDownCount st (st.fingers finger).note (st.fingers finger).channel 1

/-- `Fretless_endDown`, lines 684-694: the pre-emptive zero-velocity Note-On
when more than one finger resides on (note, channel). -/
def Fretless_endDownPreemptOff (st : Fretless_context) (finger : ℤ) : Fretless_context :=
  if (st.fingers finger).isSupressed = 0 then
    if st.noteChannelDownCount (st.fingers finger).note (st.fingers finger).channel > 1 then
      let st := emitList st [MIDI_ON + (st.fingers finger).channel, (st.fingers finger).note, 0]
      addRawBalance st (st.fingers finger).note (st.fingers finger).channel (-1)
    else st
  else st

/-- `Fretless_endDown`, lines 704-723: turn off the finger suppressed by the
link, optionally preceded by the note-tie NRPN when `legato == 2`. -/
def Fretless_endDownTurnOff (st : Fretless_context) (fingerTurningOff legato : ℤ) :
    Fretless_context :=
  if fingerTurningOff ≠ NOBODY then
    let st := if (st.fingers fingerTurningOff).isOn = 0 then addFail st else st
    let st := if (st.fingers fingerTurningOff).isSupressed = 0 then addFail st else st
    let st := if legato = 2 then Fretless_noteTie st (st.fingers fingerTurningOff) else st
    let st := emitList st
      [MIDI_ON + (st.fingers fingerTurningOff).channel, (st.fingers fingerTurningOff).note, 0]
    addRawBalance st (st.fingers fingerTurningOff).note (st.fingers fingerTurningOff).channel
      (-1)
  else st

/-- `Fretless_endDown`, lines 724-731: the Note-On for this finger and the
ledger increment with its doubled-note diagnostic. -/
def Fretless_endDownEmitOn (st : Fretless_context) (finger : ℤ) : Fretless_context :=
  let st := emitList st
    [MIDI_ON + (st.fingers finger).channel, (st.fingers finger).note,
      (st.fingers finger).velocity]
  let st := addRawBalance st (st.fingers finger).note (st.fingers finger).channel 1
  if st.noteChannelDownRawBalance (st.fingers finger).note (st.fingers finger).channel > 1 then
    addLog st
  else st

def Fretless_endDownBody (st : Fretless_context) (finger : ℤ) (fnote : ℚ) (polyGroup : ℤ)
    (velocity : ℚ) (legato : ℤ) : Fretless_context :=
  let st := Fretless_endDownSetup st finger fnote polyGroup velocity
  let st := Fretless_endDownPreemptOff st finger
  let lk := Fretless_link st finger
  let st := lk.1
  let fingerTurningOff := lk.2
  let st := Fretless_setCurrentBend st finger
  let st :=
    if finger ≠ (st.channels (st.fingers finger).channel).currentFingerInChannel then addFail st
    else st
  let st := Fretless_endDownTurnOff st fingerTurningOff legato
  Fretless_endDownEmitOn st finger

def Fretless_endDown (st : Fretless_context) (finger : ℤ) (fnote : ℚ) (polyGroup : ℤ)
    (velocity : ℚ) (legato : ℤ) : Fretless_context :=
  Fretless_endDownBody
    (FNOTECHECK (POLYCHECK (FINGERCHECK (STATECHECK st) finger) polyGroup) fnote)
    finger fnote polyGroup velocity legato

/-! ## Self test (lines 881-980)

The nested `for` loops become explicit recursions over the integer index
lists; the running `passed` flag and the evolving context are threaded
through, exactly as in the source. -/

def selfNoteLoop (c : ℤ) (acc0 : Fretless_context × Bool) (l : List ℤ) :
    Fretless_context × Bool :=
  l.foldl (fun acc n =>
    let acc := if acc.1.noteChannelDownCount n c ≠ 0 then (addFail acc.1, false) else acc
    if acc.1.noteChannelDownRawBalance n c ≠ 0 then
      if acc.1.noteChannelDownRawBalance n c < 0 then
        (addLog (clampRawBalance acc.1 n c), acc.2)
      else (addFail acc.1, false)
    else acc) acc0

def selfChanLoop (acc0 : Fretless_context × Bool) (l : List ℤ) : Fretless_context × Bool :=
  l.foldl (fun acc c =>
    let acc := if (acc.1.channels c).useCount ≠ 0 then (addFail acc.1, false) else acc
    let acc := selfNoteLoop c acc (intRange 128)
    if (acc.1.channels c).currentFingerInChannel ≠ NOBODY then (addFail acc.1, false)
    else acc) acc0

def selfPolyLoop (acc0 : Fretless_context × Bool) (l : List ℤ) : Fretless_context × Bool :=
  l.foldl (fun acc p => if acc.1.polys p ≠ NOBODY then (addFail acc.1, false) else acc) acc0

def selfFingerLoop (acc0 : Fretless_context × Bool) (l : List ℤ) : Fretless_context × Bool :=
  l.foldl (fun acc f =>
    let acc := if (acc.1.fingers f).isOn ≠ 0 then (addFail acc.1, false) else acc
    let acc :=
      if (acc.1.fingers f).nextFingerInChannel ≠ NOBODY then (addFail acc.1, false) else acc
    if (acc.1.fingers f).prevFingerInChannel ≠ NOBODY then (addFail acc.1, false)
    else acc) acc0

def Fretless_flush (st : Fretless_context) : Fretless_context :=
  { st with flushes := st.flushes + 1 }

/-- The brute-force all-notes-off sweep of the recovery branch: for each note,
emit a zero-velocity Note-On on each of the 16 channels, then flush. -/
def recoveryChanLoop (n : ℤ) (st0 : Fretless_context) (l : List ℤ) : Fretless_context :=
  l.foldl (fun st c => emitList st [MIDI_ON + c, n, 0]) st0

def recoveryNoteLoop (st0 : Fretless_context) (l : List ℤ) : Fretless_context :=
  l.foldl (fun st n => Fretless_flush (recoveryChanLoop n st (intRange 16))) st0

def Fretless_selfTest (st : Fretless_context) : Fretless_context :=
  let acc := (st, true)
  let acc :=
    if acc.1.fingersDownCount = 0 then
      let acc := selfChanLoop acc (intRange 16)
      let acc := selfPolyLoop acc (intRange 16)
      selfFingerLoop acc (intRange 16)
    else acc
  let acc := if acc.1.fingersDownCount < 0 then (addFail acc.1, false) else acc
  if acc.2 then addPassed acc.1
  else Fretless_boot (recoveryNoteLoop acc.1 (intRange 128))

/-! ## `Fretless_up` (lines 737-820) -/

/-- `Fretless_up`, lines 754-770: the zero-velocity Note-On when the finger
was audible and its (note, channel) count reached zero, preceded by the
note-tie NRPN when a revealed finger exists and `legato > 0`. -/
def Fretless_upOffEmit (st : Fretless_context) (finger fingerWasSupressed fingerToTurnOn
    legato : ℤ) : Fretless_context :=
  if fingerWasSupressed = 0 then
    if st.noteChannelDownCount (st.fingers finger).note (st.fingers finger).channel = 0 then
      let st :=
        if fingerToTurnOn ≠ NOBODY ∧ legato > 0 then Fretless_noteTie st (st.fingers finger)
        else st
      let st := emitList st [MIDI_ON + (st.fingers finger).channel, (st.fingers finger).note, 0]
      addRawBalance st (st.fingers finger).note (st.fingers finger).channel (-1)
    else st
  else st

/-- `Fretless_up`, lines 772-797: re-voice the finger revealed by the unlink:
force its bend to be re-sent, adopt the leaving finger's velocity, emit its
Note-On and adjust the ledger. -/
def Fretless_upReveal (st : Fretless_context) (finger fingerToTurnOn oldVelocity : ℤ) :
    Fretless_context :=
  if fingerToTurnOn ≠ NOBODY then
    let st := if (st.fingers fingerToTurnOn).isOn = 0 then addFail st else st
    let st := if (st.fingers fingerToTurnOn).isSupressed = 1 then addFail st else st
    let st := updChannel st (st.fingers fingerToTurnOn).channel
      (fun ch => { ch with lastBend := -1 })
    let st := Fretless_setCurrentBend st fingerToTurnOn
    let st := updFinger st fingerToTurnOn (fun fs => { fs with velocity := oldVelocity })
    let st := emitList st
      [MIDI_ON + (st.fingers fingerToTurnOn).channel, (st.fingers fingerToTurnOn).note,
        (st.fingers fingerToTurnOn).velocity]
    let st := addRawBalance st (st.fingers fingerToTurnOn).note
      (st.fingers fingerToTurnOn).channel 1
    if st.noteChannelDownRawBalance (st.fingers finger).note (st.fingers finger).channel > 1
    then addLog st
    else st
  else st

/-- `Fretless_up`, lines 799-819: the final consistency checks, the finger
teardown (channel free and slot reset) and the quiescence self test. -/
def Fretless_upFinish (st : Fretless_context) (finger : ℤ) : Fretless_context :=
  let st :=
    if st.noteChannelDownCount (st.fingers finger).note (st.fingers finger).channel < 0 then
      addFail st
    else st
  let st := bumpFingersDownCount st (-1)
  let st := if st.fingersDownCount < 0 then addFail st else st
  let st := updFinger st finger (fun fs => { fs with isOn := 0 })
  let st := Fretless_freeChannel st finger
  let st := updFinger st finger (fun _ => Fretless_reset_FingerState)
  if st.fingersDownCount ≤ 0 then Fretless_selfTest st else st

def Fretless_upBody (st : Fretless_context) (finger legato : ℤ) : Fretless_context :=
  let st := if (st.fingers finger).isOn = 0 then addFail st else st
  let oldVelocity := (st.fingers finger).velocity
  let fingerWasSupressed := (st.fingers finger).isSupressed
  let ul := Fretless_unlink st finger
  let st := ul.1
  let fingerToTurnOn := ul.2
  let st := addDownCount st (st.fingers finger).note (st.fingers finger).channel (-1)
  let st := Fretless_upOffEmit st finger fingerWasSupressed fingerToTurnOn legato
  let st := Fretless_upReveal st finger fingerToTurnOn oldVelocity
  Fretless_upFinish st finger

def Fretless_up (st : Fretless_context) (finger legato : ℤ) : Fretless_context :=
  Fretless_upBody (FINGERCHECK st finger) finger legato

/-! ## `Fretless_express` (lines 823-835) and `Fretless_move` (lines 837-871) -/

def Fretless_expressBody (st : Fretless_context) (finger key : ℤ) (val : ℚ) :
    Fretless_context :=
  let st := if (st.fingers finger).isOn = 0 then addFail st else st
  emitList st
    [0xB0 + (st.fingers finger).channel, Int.tmod key 127, Int.tmod (cTrunc (qmul val 127)) 127]

def Fretless_express (st : Fretless_context) (finger key : ℤ) (val : ℚ) : Fretless_context :=
  Fretless_expressBody (FINGERCHECK st finger) finger key val

def Fretless_moveBody (st : Fretless_context) (finger : ℤ) (fnote : ℚ) (velocity : ℚ)
    (polyGroup : ℤ) : ℚ × Fretless_context :=
  let st := if (st.fingers finger).isOn = 0 then addFail st else st
  let nb := Fretless_fnoteBendFromExisting st fnote (st.fingers finger)
  let existingPolyGroup := (st.fingers finger).polyGroup
  let st :=
    if 0 ≤ polyGroup ∧ polyGroup < FINGERMAX then
      updFinger st finger (fun fs => { fs with visitingPolyGroup := polyGroup })
    else st
  let st :=
    if nb.1 = (st.fingers finger).note then
      let st := updFinger st finger (fun fs => { fs with bend := nb.2 })
      let st := Fretless_setCurrentAftertouch st finger velocity
      Fretless_setCurrentBend st finger
    else
      let st := Fretless_noteTie st (st.fingers finger)
      let st := Fretless_up st finger 1
      let st := Fretless_beginDown st finger
      Fretless_endDown st finger fnote existingPolyGroup velocity 1
  (fnote, st)

def Fretless_move (st : Fretless_context) (finger : ℤ) (fnote : ℚ) (velocity : ℚ)
    (polyGroup : ℤ) : ℚ × Fretless_context :=
  Fretless_moveBody (FNOTECHECK (FINGERCHECK st finger) fnote) finger fnote velocity polyGroup

/-! ## Small observers (lines 435-443) -/

def Fretless_getChannelOccupancy (st : Fretless_context) (channel : ℤ) : ℤ :=
  (st.channels channel).useCount

def Fretless_getChannelBend (st : Fretless_context) (channel : ℤ) : ℚ :=
  qdiv (((st.channels channel).lastBend - 8192 : ℤ) : ℚ) ((8192 : ℚ))

/-! ## Inbound decoder `DeMIDI.c`

The decoder's state lives in file-scope globals, which C zero-initializes
(except `midiPitchBendSemis = 2` and `expectState = S_EXPECT_STATUS = 0`);
`DeMIDI_initialState` mirrors that.  The injected `rawEngine` callback is
modelled by the `calls` accumulator; `printf` diagnostics by the `logs`
counter.  `DeMIDI_putch` takes the wire byte value in `[0, 256)`: the source
receives a (signed) `char`, but every mask it applies (`c & 0x80`,
`(c & 0x00F0) >> 4`, `c & 0x0F`, `c & 0x7F`) depends only on the low 8 bits,
so sign extension cancels; the masks are rendered with `ediv`/`emod`, which
agree with the C bit operations on this byte range. -/

def S_EXPECT_STATUS : ℤ := 0

def S_ON_BYTE_NOTE : ℤ := 1

def S_ON_BYTE_VOL : ℤ := 2

def S_OFF_BYTE_NOTE : ℤ := 3

def S_OFF_BYTE_VOL : ℤ := 4

def S_BEND_LO : ℤ := 5

def S_BEND_HI : ℤ := 6

def S_RPN_LO : ℤ := 7

def S_RPN_HI : ℤ := 8

def S_NRPN_LO_KEY : ℤ := 9

def S_NRPN_HI_KEY : ℤ := 10

def S_RPN_VAL : ℤ := 11

def S_RPN_LO_KEY : ℤ := 12

def S_RPN_HI_KEY : ℤ := 13

def S_CH_PRESS : ℤ := 14

def S_RPN_11 : ℤ := 15

/-- One invocation of the injected engine callback
`rawEngine(midiChannel, doNoteAttack, pitch, volVal, midiExprParm, midiExpr)`. -/
structure EngineCall where
  midiChannel : ℤ
  doNoteAttack : ℤ
  pitch : ℚ
  volVal : ℚ
  midiExprParm : ℤ
  midiExpr : ℤ
  deriving DecidableEq

structure DeMIDI_state where
  expectState : ℤ
  midiStatus : ℤ
  midiChannel : ℤ
  midiNote : ℤ → ℤ
  midiVol : ℤ → ℤ
  midiBend : ℤ → ℤ
  doNoteAttack : ℤ
  midiExprParm : ℤ
  midiExpr : ℤ
  midiPitchBendSemis : ℤ
  nrpnKeyLo : ℤ
  nrpnKeyHi : ℤ
  rpnKeyLo : ℤ
  rpnKeyHi : ℤ
  rpnVal : ℤ
  expectNoteTie : ℤ
  isRegistered : ℤ
  calls : List EngineCall
  logs : ℕ

def DeMIDI_initialState : DeMIDI_state :=
  { expectState := S_EXPECT_STATUS
    midiStatus := 0
    midiChannel := 0
    midiNote := fun _ => 0
    midiVol := fun _ => 0
    midiBend := fun _ => 0
    doNoteAttack := 0
    midiExprParm := 0
    midiExpr := 0
    midiPitchBendSemis := 2
    nrpnKeyLo := 0
    nrpnKeyHi := 0
    rpnKeyLo := 0
    rpnKeyHi := 0
    rpnVal := 0
    expectNoteTie := 0
    isRegistered := 0
    calls := []
    logs := 0 }

def computePitch (d : DeMIDI_state) (channel : ℤ) : ℚ :=
  qadd (qmul 1 ((d.midiNote channel : ℤ) : ℚ))
    (qdiv (((d.midiPitchBendSemis * (d.midiBend channel - 8192) : ℤ)) : ℚ) 8192)

def computeVol (d : DeMIDI_state) (channel : ℤ) : ℚ :=
  qdiv (((d.midiVol channel : ℤ)) : ℚ) 127

def engineCall (d : DeMIDI_state) (channel attack : ℤ) (pitch vol : ℚ) (parm expr : ℤ) :
    DeMIDI_state :=
  { d with calls := d.calls ++ [⟨channel, attack, pitch, vol, parm, expr⟩] }

def DeMIDI_putch (d : DeMIDI_state) (c : ℤ) : DeMIDI_state :=
  let d :=
    if d.expectState = S_EXPECT_STATUS then
      { d with midiBend := fun i => if 0 ≤ i ∧ i < FINGERMAX then 8192 else d.midiBend i }
    else d
  if Int.emod (Int.ediv c 128) 2 ≠ 0 then
    let d := { d with
      midiStatus := Int.emod (Int.ediv c 16) 16
      midiChannel := Int.emod c 16 }
    if d.midiStatus = 0x08 then { d with expectState := S_OFF_BYTE_NOTE }
    else if d.midiStatus = 0x09 then { d with expectState := S_ON_BYTE_NOTE }
    else if d.midiStatus = 0x0B then { d with expectState := S_RPN_LO }
    else if d.midiStatus = 0x0D then { d with expectState := S_CH_PRESS }
    else if d.midiStatus = 0x0E then { d with expectState := S_BEND_LO }
    else { d with logs := d.logs + 1 }
  else
    let data := Int.emod c 128
    if d.expectState = S_ON_BYTE_NOTE then
      { d with midiNote := Function.update d.midiNote d.midiChannel data,
               expectState := S_ON_BYTE_VOL }
    else if d.expectState = S_ON_BYTE_VOL then
      let d := { d with midiVol := Function.update d.midiVol d.midiChannel data,
                        expectState := S_ON_BYTE_NOTE }
      engineCall d d.midiChannel d.doNoteAttack (computePitch d d.midiChannel)
        (computeVol d d.midiChannel) d.midiExprParm d.midiExpr
    else if d.expectState = S_OFF_BYTE_NOTE then
      { d with midiNote := Function.update d.midiNote d.midiChannel data,
               expectState := S_OFF_BYTE_NOTE }
    else if d.expectState = S_OFF_BYTE_VOL then
      let d := { d with midiVol := Function.update d.midiVol d.midiChannel 0,
                        expectState := S_OFF_BYTE_NOTE }
      engineCall d d.midiChannel d.doNoteAttack (computePitch d d.midiChannel) 0
        d.midiExprParm d.midiExpr
    else if d.expectState = S_BEND_LO then
      { d with midiBend := Function.update d.midiBend d.midiChannel data,
               expectState := S_BEND_HI }
    else if d.expectState = S_BEND_HI then
      let d := { d with
        midiBend := Function.update d.midiBend d.midiChannel
          (data * 128 + d.midiBend d.midiChannel),
        expectState := S_BEND_LO }
      engineCall d d.midiChannel d.doNoteAttack (computePitch d d.midiChannel)
        (computeVol d d.midiChannel) d.midiExprParm d.midiExpr
    else if d.expectState = S_RPN_LO then
      if data = 0x63 then { d with expectState := S_NRPN_LO_KEY }
      else if data = 0x62 then { d with expectState := S_NRPN_HI_KEY }
      else if data = 101 then { d with expectState := S_RPN_LO_KEY }
      else if data = 100 then { d with expectState := S_RPN_HI_KEY }
      else if data = 0x06 then { d with expectState := S_RPN_VAL }
      else if data = 11 then { d with expectState := S_RPN_11 }
      else d
    else if d.expectState = S_NRPN_LO_KEY then
      { d with isRegistered := 0, nrpnKeyLo := data }
    else if d.expectState = S_NRPN_HI_KEY then
      { d with isRegistered := 0, nrpnKeyHi := data }
    else if d.expectState = S_RPN_VAL then
      let d := { d with rpnVal := data }
      if d.isRegistered ≠ 0 ∧ d.rpnKeyLo = 0 ∧ d.rpnKeyHi = 0 then
        { d with midiPitchBendSemis := d.rpnVal }
      else if d.isRegistered = 0 ∧ d.nrpnKeyLo = 9 ∧ d.nrpnKeyHi = 71 then
        engineCall d d.midiChannel 1 0 0 0 0
      else d
    else if d.expectState = S_CH_PRESS then
      if d.midiVol d.midiChannel ≠ 0 then
        let d := { d with midiVol := Function.update d.midiVol d.midiChannel data }
        engineCall d d.midiChannel 0 (computePitch d d.midiChannel)
          (computeVol d d.midiChannel) d.midiExprParm d.midiExpr
      else d
    else if d.expectState = S_RPN_LO_KEY then
      { d with isRegistered := 1, rpnKeyLo := data }
    else if d.expectState = S_RPN_HI_KEY then
      { d with isRegistered := 1, rpnKeyHi := data }
    else if d.expectState = S_RPN_11 then
      { d with midiExprParm := 11, midiExpr := data }
    else { d with logs := d.logs + 1 }

def DeMIDI_run (d : DeMIDI_state) (bytes : List ℤ) : DeMIDI_state :=
  bytes.foldl DeMIDI_putch d

/-! ## Concrete contexts and claim-side notions -/

/-- A concrete all-clean memory image, used as the `garbage` parameter of
`Fretless_init` in concrete executions (the traces below never read a field
that `Fretless_boot` has not yet overwritten, so the choice is immaterial
there). -/
def garbage0 : Fretless_context :=
  { fingers := fun _ => Fretless_reset_FingerState
    channels := fun _ => { lastBend := 8192, lastAftertouch := 0,
                           currentFingerInChannel := NOBODY, useCount := 0 }
    polys := fun _ => NOBODY
    ctxState := 0
    lastAllocatedChannel := 0
    fingersDownCount := 0
    noteChannelDownCount := fun _ _ => 0
    noteChannelDownRawBalance := fun _ _ => 0
    channelBase := 0
    channelSpan := 8
    channelBendSemis := 2
    supressBends := 0
    emitted := []
    fails := 0
    flushes := 0
    passedCount := 0
    logs := 0 }

/-- A memory image for calling the library before `boot` (claim C5):
`fretlessAlloc` returns indeterminate memory, and this is one possible
content: finger 0 appears "on" at note 60 on channel 3 in poly group 2, the
corresponding counters are consistent enough that `Fretless_up`'s internal
checks all pass, and `fingersDownCount = 2` keeps the self test from
running. -/
def preBootGarbage : Fretless_context :=
  { garbage0 with
    fingers := fun i =>
      if i = 0 then
        { Fretless_reset_FingerState with
          isOn := 1
          channel := 3
          note := 60
          velocity := 64
          polyGroup := 2 }
      else Fretless_reset_FingerState
    channels := fun c =>
      if c = 3 then
        { lastBend := 8192, lastAftertouch := 0, currentFingerInChannel := 0, useCount := 1 }
      else { lastBend := 8192, lastAftertouch := 0, currentFingerInChannel := NOBODY,
             useCount := 0 }
    polys := fun p => if p = 2 then 0 else NOBODY
    fingersDownCount := 2
    noteChannelDownCount := fun n c => if n = 60 ∧ c = 3 then 1 else 0
    noteChannelDownRawBalance := fun n c => if n = 60 ∧ c = 3 then 1 else 0 }

/-- Overwrite the four user hints of a context.  `Fretless_init` leaves the
hints at their defaults and the setters only store (plus clamp/check) these
fields, so a "context with hints h" is exactly this. -/
def withHints (st : Fretless_context) (base span semis sb : ℤ) : Fretless_context :=
  { st with channelBase := base, channelSpan := span, channelBendSemis := semis,
            supressBends := sb }

/-- Chunk a wire-byte stream into MIDI messages: a byte with the high bit set
starts a message, whose length is determined by its status nibble (2 bytes for
program change `0xC` and channel pressure `0xD`, 3 bytes otherwise); stray
data bytes outside a message are skipped.  This is the standard MIDI 1.0
framing, used to interpret what the encoder "emits". -/
def midiMessages : List ℤ → List (List ℤ)
  | [] => []
  | b :: rest =>
    if b < 128 then midiMessages rest
    else if Int.ediv b 16 = 12 ∨ Int.ediv b 16 = 13 then
      match rest with
      | [] => [[b]]
      | d1 :: rest' => [b, d1] :: midiMessages rest'
    else
      match rest with
      | [] => [[b]]
      | [d1] => [[b, d1]]
      | d1 :: d2 :: rest' => [b, d1, d2] :: midiMessages rest'

/-- The Note-On messages of a byte stream, as (channel, note, velocity). -/
def noteOnEvents (bs : List ℤ) : List (ℤ × ℤ × ℤ) :=
  (midiMessages bs).filterMap (fun m =>
    match m with
    | [s, n, v] => if Int.ediv s 16 = 9 then some (Int.emod s 16, n, v) else none
    | _ => none)

def fingerIds : Finset ℤ := Finset.Icc 0 15

/-- The number of fingers that claim (note, channel) in the sense of claim C3
(spec P2/I7): on, not suppressed, with matching note and channel. -/
def claimDownCount (st : Fretless_context) (n c : ℤ) : ℤ :=
  ((fingerIds.filter (fun f => (st.fingers f).isOn ≠ 0 ∧ (st.fingers f).isSupressed = 0 ∧
    (st.fingers f).note = n ∧ (st.fingers f).channel = c)).card : ℤ)

/-- The number of fingers that claim (note, channel) counting suppressed
fingers as well, restricted to fingers whose `endDown` has completed
(`velocity ≠ 0`: `endDown` stores a velocity clamped into `[1,127]` and only
`Fretless_reset_FingerState` zeroes it again). -/
def downFingerCount (st : Fretless_context) (n c : ℤ) : ℤ :=
  ((fingerIds.filter (fun f => (st.fingers f).isOn ≠ 0 ∧ (st.fingers f).velocity ≠ 0 ∧
    (st.fingers f).note = n ∧ (st.fingers f).channel = c)).card : ℤ)

/-- States reachable through the documented per-finger gesture protocol
(`Fretless.h`: `beginDown → express* → endDown → (move|express)* → up`),
starting from a fresh boot with in-range hints (`boot` accepts exactly
`base ≥ 0`, `span ≥ 1`, `base + span ≤ 15`; semis in `[1,24]` per the
setter's check).  The per-finger phase is read off the state itself:
off = `isOn = 0`, begun = `isOn = 1 ∧ velocity = 0` (after `beginDown`,
before `endDown`), down = `isOn = 1 ∧ velocity ≠ 0`. -/
inductive Fretless_Reachable : Fretless_context → Prop where
  | boot (g : Fretless_context) (base span semis sb : ℤ)
      (hbase : 0 ≤ base) (hspan : 1 ≤ span) (hsum : base + span ≤ 15)
      (hsem1 : 1 ≤ semis) (hsem2 : semis ≤ 24) :
      Fretless_Reachable (Fretless_boot (withHints (Fretless_init g) base span semis sb))
  | beginDown (st : Fretless_context) (f : ℤ) (h : Fretless_Reachable st)
      (hf : 0 ≤ f ∧ f < 16) (hoff : (st.fingers f).isOn = 0) :
      Fretless_Reachable (Fretless_beginDown st f)
  | endDown (st : Fretless_context) (f : ℤ) (fnote : ℚ) (pg : ℤ) (v : ℚ) (legato : ℤ)
      (h : Fretless_Reachable st) (hf : 0 ≤ f ∧ f < 16)
      (hbegun : (st.fingers f).isOn = 1 ∧ (st.fingers f).velocity = 0)
      (hpg : 0 ≤ pg ∧ pg < 16)
      (hnote : mkRat (-1) 2 ≤ fnote ∧ fnote < mkRat 255 2) :
      Fretless_Reachable (Fretless_endDown st f fnote pg v legato)
  | up (st : Fretless_context) (f legato : ℤ) (h : Fretless_Reachable st)
      (hf : 0 ≤ f ∧ f < 16)
      (hdown : (st.fingers f).isOn = 1 ∧ (st.fingers f).velocity ≠ 0) :
      Fretless_Reachable (Fretless_up st f legato)
  | move (st : Fretless_context) (f : ℤ) (fnote v : ℚ) (pg : ℤ)
      (h : Fretless_Reachable st) (hf : 0 ≤ f ∧ f < 16)
      (hdown : (st.fingers f).isOn = 1 ∧ (st.fingers f).velocity ≠ 0)
      (hnote : mkRat (-1) 2 ≤ fnote ∧ fnote < mkRat 255 2) :
      Fretless_Reachable (Fretless_move st f fnote v pg).2
  | express (st : Fretless_context) (f key : ℤ) (val : ℚ) (h : Fretless_Reachable st)
      (hf : 0 ≤ f ∧ f < 16) (hon : (st.fingers f).isOn = 1) :
      Fretless_Reachable (Fretless_express st f key val)

/-! ## Observables and abbreviations for the bend-emission analysis -/

/-- The number of MIDI pitch-bend status bytes (`0xE0 + channel`, `channel`
in `[0,16)`) in an emitted byte list. -/
def bendStatusCount (bs : List ℤ) : ℕ :=
  bs.countP (fun b => decide (MIDI_BEND ≤ b ∧ b < 0xF0))

/-- The bend the source computes for `fnote` relative to a reference `note`:
`BENDCENTER + (fnote - note)*BENDCENTER/channelBendSemis` truncated to int —
the shared subexpression of `Fretless_fnoteToNoteBendPair` (with the rounded
note) and `Fretless_fnoteBendFromExisting` (with the finger's note). -/
def bendCandidate (st : Fretless_context) (fnote : ℚ) (note : ℤ) : ℤ :=
  cTrunc (qadd ((BENDCENTER : ℚ))
    (qdiv (qmul (qsub fnote ((note : ℚ))) ((BENDCENTER : ℚ))) ((st.channelBendSemis : ℚ))))

/-- The guard of `Fretless_setCurrentBend` is off for finger `f`: a call to it
now would emit no pitch-bend bytes for this finger. -/
def bendGuardOff (st : Fretless_context) (f : ℤ) : Prop :=
  (st.channels ((st.fingers f).channel)).lastBend = (st.fingers f).bend ∨
  (st.channels ((st.fingers f).channel)).currentFingerInChannel ≠ f ∨
  (st.fingers f).isOn = 0 ∨ st.supressBends ≠ 0

/-- The public hints and the sign of `lastAllocatedChannel` survive a state
transformation: the relation threaded through `Fretless_up`'s call tree
(including the self test's recovery re-boot) to justify re-allocating a
channel afterwards. -/
def hintsSame (a b : Fretless_context) : Prop :=
  b.channelBase = a.channelBase ∧ b.channelSpan = a.channelSpan ∧
  b.channelBendSemis = a.channelBendSemis ∧ b.supressBends = a.supressBends ∧
  (0 ≤ a.lastAllocatedChannel → 0 ≤ b.lastAllocatedChannel)

/-! ## Concrete executions referenced by individual claims -/

/-- The booted context of claim C1: hints `channelBase = 2`, `channelSpan = 2`. -/
def c1Boot : Fretless_context :=
  Fretless_boot (Fretless_setMidiHintChannelSpan
    (Fretless_setMidiHintChannelBase (Fretless_init garbage0) 2) 2)

/-- The booted context of claim C2 (scenario S1): hints `channelBase = 0`,
`channelSpan = 2`, `bendSemis = 2`, `suppressBends = false`. -/
def c2Boot : Fretless_context :=
  Fretless_boot (Fretless_setMidiHintChannelSpan (Fretless_init garbage0) 2)

/-- The decoder state of claim C6 after feeding the S6 byte sequence. -/
def c6Decoded : DeMIDI_state :=
  DeMIDI_run DeMIDI_initialState [0x90, 0x3C, 0x64, 0xE0, 0x00, 0x50, 0x80, 0x3C, 0x00]

/-- The hinted (not yet booted) context of claim C7: `channelSpan = 16` on
the default `channelBase = 0`. -/
def c7Hinted : Fretless_context :=
  Fretless_setMidiHintChannelSpan (Fretless_init garbage0) 16


/-! # Theorems

Everything below is proof; the program embedding is complete above. -/

/-! ## Bridges from the reducible rational operations to the standard ones -/

theorem qadd_eq (a b : ℚ) : qadd a b = a + b := by
  have ha : ((a.den : ℤ)) ≠ 0 := by exact_mod_cast a.den_ne_zero
  have hb : ((b.den : ℤ)) ≠ 0 := by exact_mod_cast b.den_ne_zero
  rw [qadd, Rat.mkRat_eq_divInt]
  conv_rhs => rw [← Rat.num_divInt_den a, ← Rat.num_divInt_den b]
  rw [Rat.divInt_add_divInt _ _ ha hb]
  push_cast
  rfl

theorem qneg_eq (a : ℚ) : qneg a = -a := by
  rw [qneg, Rat.mkRat_eq_divInt, Rat.neg_def]

theorem qsub_eq (a b : ℚ) : qsub a b = a - b := by
  rw [qsub, qadd_eq, qneg_eq, sub_eq_add_neg]

theorem qmul_eq (a b : ℚ) : qmul a b = a * b := by
  rw [qmul, Rat.mkRat_eq_divInt]
  conv_rhs => rw [← Rat.num_divInt_den a, ← Rat.num_divInt_den b]
  rw [Rat.divInt_mul_divInt']
  push_cast
  rfl

theorem qdiv_eq (a b : ℚ) : qdiv a b = a / b := by
  rw [Rat.div_def', qdiv]
  split
  · rename_i hpos
    rw [Rat.mkRat_eq_divInt]
    push_cast [Int.toNat_of_nonneg hpos]
    rfl
  · rename_i hneg
    push_neg at hneg
    rw [Rat.mkRat_eq_divInt]
    push_cast [Int.toNat_of_nonneg (by omega : (0:ℤ) ≤ -b.num)]
    rw [show (a.den : ℤ) * -b.num = -((a.den : ℤ) * b.num) by ring, Rat.divInt_neg,
      neg_neg]

theorem cTrunc_eq_floor {q : ℚ} (h : 0 ≤ q) : cTrunc q = ⌊q⌋ := by
  rw [cTrunc, if_pos h]
  rfl

theorem cTrunc_nonneg_bounds {q : ℚ} {a b : ℤ} (h0 : 0 ≤ q) (ha : (a : ℚ) ≤ q)
    (hb : q < (b : ℚ)) : a ≤ cTrunc q ∧ cTrunc q < b := by
  rw [cTrunc_eq_floor h0]
  exact ⟨Int.le_floor.mpr ha, Int.floor_lt.mpr hb⟩


/-! ## Fail-count monotonicity

`fails` only ever grows: every state transformer either preserves the fail
count or increments it (`addFail`).  The combinators below track this through
the operation bodies without unfolding unrelated structure. -/

def failsLE (a b : Fretless_context) : Prop := a.fails ≤ b.fails

theorem failsLE_refl (a : Fretless_context) : failsLE a a := le_refl _

theorem failsLE_ite (p : Prop) [Decidable p] {a b c : Fretless_context} (hb : failsLE a b)
    (hc : failsLE a c) : failsLE a (if p then b else c) := by
  split
  · exact hb
  · exact hc

theorem failsLE_addFail {a b : Fretless_context} (h : failsLE a b) : failsLE a (addFail b) :=
  le_trans h (by simp [failsLE, addFail])

theorem failsLE_addLog {a b : Fretless_context} (h : failsLE a b) : failsLE a (addLog b) := h

theorem failsLE_emitList {a b : Fretless_context} (bs : List ℤ) (h : failsLE a b) :
    failsLE a (emitList b bs) := h

theorem failsLE_updFinger {a b : Fretless_context} (f g) (h : failsLE a b) :
    failsLE a (updFinger b f g) := h

theorem failsLE_updChannel {a b : Fretless_context} (c g) (h : failsLE a b) :
    failsLE a (updChannel b c g) := h

theorem failsLE_updPoly {a b : Fretless_context} (p v) (h : failsLE a b) :
    failsLE a (updPoly b p v) := h

theorem failsLE_addDownCount {a b : Fretless_context} (n c d) (h : failsLE a b) :
    failsLE a (addDownCount b n c d) := h

theorem failsLE_addRawBalance {a b : Fretless_context} (n c d) (h : failsLE a b) :
    failsLE a (addRawBalance b n c d) := h

theorem failsLE_bumpFingersDownCount {a b : Fretless_context} (d) (h : failsLE a b) :
    failsLE a (bumpFingersDownCount b d) := h

theorem failsLE_setLastAllocatedChannel {a b : Fretless_context} (c) (h : failsLE a b) :
    failsLE a (setLastAllocatedChannel b c) := h

theorem failsLE_noteTie {a b : Fretless_context} (fs) (h : failsLE a b) :
    failsLE a (Fretless_noteTie b fs) := h

theorem failsLE_setCurrentBend {a b : Fretless_context} (f) (h : failsLE a b) :
    failsLE a (Fretless_setCurrentBend b f) := by
  simp only [Fretless_setCurrentBend]
  exact failsLE_ite _ (failsLE_emitList _ (failsLE_updChannel _ _ h)) h

theorem failsLE_link {a b : Fretless_context} (f) (h : failsLE a b) :
    failsLE a (Fretless_link b f).1 := by
  simp only [Fretless_link]
  exact failsLE_updPoly _ _ (failsLE_updFinger _ _ (failsLE_ite _
    (failsLE_updFinger _ _ (failsLE_updFinger _ _ (failsLE_updFinger _ _ h))) h))

theorem failsLE_allocChannel {a b : Fretless_context} (f) (h : failsLE a b) :
    failsLE a (Fretless_allocChannel b f).1 := by
  simp only [Fretless_allocChannel]
  cases Fretless_allocLoop b 0 (allocFuel b) with
  | none => exact failsLE_addFail h
  | some hit =>
    cases hit with
    | negFail c => exact failsLE_addFail h
    | found c =>
      refine failsLE_setLastAllocatedChannel _ (failsLE_updChannel _ _ (failsLE_ite _ ?_
        (failsLE_updChannel _ _ h)))
      exact failsLE_updFinger _ _ (failsLE_updFinger _ _
        (failsLE_ite _ (failsLE_addFail (failsLE_updChannel _ _ h))
          (failsLE_updChannel _ _ h)))

theorem failsLE_STATECHECK {a b : Fretless_context} (h : failsLE a b) :
    failsLE a (STATECHECK b) := by
  simp only [STATECHECK]
  exact failsLE_ite _ (failsLE_addFail h) h

theorem failsLE_FINGERCHECK {a b : Fretless_context} (f) (h : failsLE a b) :
    failsLE a (FINGERCHECK b f) := by
  simp only [FINGERCHECK]
  exact failsLE_ite _ (failsLE_addFail h) h

theorem failsLE_POLYCHECK {a b : Fretless_context} (pg) (h : failsLE a b) :
    failsLE a (POLYCHECK b pg) := by
  simp only [POLYCHECK]
  exact failsLE_ite _ (failsLE_addFail h) h

theorem failsLE_FNOTECHECK {a b : Fretless_context} (fnote) (h : failsLE a b) :
    failsLE a (FNOTECHECK b fnote) := by
  simp only [FNOTECHECK]
  exact failsLE_ite _ (failsLE_addFail h) h

theorem failsLE_beginDownBody {a b : Fretless_context} (f) (h : failsLE a b) :
    failsLE a (Fretless_beginDownBody b f) := by
  simp only [Fretless_beginDownBody]
  exact failsLE_updFinger _ _ (failsLE_allocChannel _ (failsLE_updFinger _ _
    (failsLE_ite _ (failsLE_addFail h) h)))

theorem failsLE_endDownSetup {a b : Fretless_context} (f : ℤ) (fnote : ℚ) (pg : ℤ) (v : ℚ)
    (h : failsLE a b) : failsLE a (Fretless_endDownSetup b f fnote pg v) := by
  simp only [Fretless_endDownSetup]
  exact failsLE_addDownCount _ _ _ (failsLE_bumpFingersDownCount _ (failsLE_updFinger _ _
    (failsLE_updFinger _ _ (failsLE_updFinger _ _ (failsLE_ite _ (failsLE_addFail h) h)))))

theorem failsLE_endDownPreemptOff {a b : Fretless_context} (f : ℤ) (h : failsLE a b) :
    failsLE a (Fretless_endDownPreemptOff b f) := by
  simp only [Fretless_endDownPreemptOff]
  exact failsLE_ite _ (failsLE_ite _ (failsLE_addRawBalance _ _ _ (failsLE_emitList _ h)) h) h

theorem failsLE_endDownTurnOff {a b : Fretless_context} (off lg : ℤ) (h : failsLE a b) :
    failsLE a (Fretless_endDownTurnOff b off lg) := by
  simp only [Fretless_endDownTurnOff]
  refine failsLE_ite _ ?_ h
  exact failsLE_addRawBalance _ _ _ (failsLE_emitList _ (failsLE_ite _
    (failsLE_noteTie _ (failsLE_ite _ (failsLE_addFail (failsLE_ite _ (failsLE_addFail h) h))
      (failsLE_ite _ (failsLE_addFail h) h)))
    (failsLE_ite _ (failsLE_addFail (failsLE_ite _ (failsLE_addFail h) h))
      (failsLE_ite _ (failsLE_addFail h) h))))

theorem failsLE_endDownEmitOn {a b : Fretless_context} (f : ℤ) (h : failsLE a b) :
    failsLE a (Fretless_endDownEmitOn b f) := by
  simp only [Fretless_endDownEmitOn]
  exact failsLE_ite _ (failsLE_addLog (failsLE_addRawBalance _ _ _ (failsLE_emitList _ h)))
    (failsLE_addRawBalance _ _ _ (failsLE_emitList _ h))

theorem failsLE_endDownBody {a b : Fretless_context} (f : ℤ) (fnote : ℚ) (pg : ℤ) (v : ℚ)
    (lg : ℤ) (h : failsLE a b) : failsLE a (Fretless_endDownBody b f fnote pg v lg) := by
  simp only [Fretless_endDownBody]
  exact failsLE_endDownEmitOn _ (failsLE_endDownTurnOff _ _ (failsLE_ite _
    (failsLE_addFail (failsLE_setCurrentBend _ (failsLE_link _ (failsLE_endDownPreemptOff _
      (failsLE_endDownSetup _ _ _ _ h)))))
    (failsLE_setCurrentBend _ (failsLE_link _ (failsLE_endDownPreemptOff _
      (failsLE_endDownSetup _ _ _ _ h))))))

/-! ## Claim C1 — channel allocation and the span -/

set_option maxHeartbeats 4000000 in
/-- C1.  The claim says every channel returned by `Fretless_allocChannel` on a
booted context lies in `[channelBase, channelBase + channelSpan)`.  The code
computes `(last+1+s - base) % span + base` with C's truncating `%`, so right
after boot (`lastAllocatedChannel = 0`) with `channelBase = 2`,
`channelSpan = 2`, the first `beginDown` allocates channel
`(-1) % 2 + 2 = 1`, below the span — contradicting the function's own
documentation ("allocs in the least used channel that is in the span"). -/
theorem claim_C1_alloc_out_of_span :
    c1Boot.fails = 0 ∧ c1Boot.channelBase = 2 ∧ c1Boot.channelSpan = 2 ∧
      c1Boot.lastAllocatedChannel = 0 ∧
      ((Fretless_beginDown c1Boot 0).fingers 0).channel = 1 ∧
      ¬ c1Boot.channelBase ≤ ((Fretless_beginDown c1Boot 0).fingers 0).channel ∧
      (Fretless_beginDown c1Boot 0).fails = 0 := by
  decide

/-! ## Claim C2 — scenario S1 -/

set_option maxHeartbeats 4000000 in
/-- C2, counterexample.  With hints base=0, span=2, semis=2, suppressBends
off, the bytes emitted after the boot RPN bytes by
`beginDown(0); endDown(0, 60.0, 0, 1.0, 0)` are not `0x90 0x3C 0x7F`. -/
theorem claim_C2_counterexample :
    let st0 := Fretless_boot (Fretless_setMidiHintChannelSpan (Fretless_init garbage0) 2)
    ¬ ((Fretless_endDown (Fretless_beginDown st0 0) 0 60 0 1 0).emitted.drop
        st0.emitted.length = [0x90, 0x3C, 0x7F]) := by
  decide

set_option maxHeartbeats 4000000 in
/-- C2, amended.  The scenario emits exactly `0x91 0x3C 0x7F`: the Note-On
goes to channel 1, because allocation starts scanning at
`lastAllocatedChannel + 1 = 1`. -/
theorem claim_C2_amended :
    c2Boot.fails = 0 ∧
      (Fretless_endDown (Fretless_beginDown c2Boot 0) 0 60 0 1 0).emitted.drop
        c2Boot.emitted.length = [0x91, 0x3C, 0x7F] ∧
      (Fretless_endDown (Fretless_beginDown c2Boot 0) 0 60 0 1 0).fails = 0 := by
  decide

/-! ## Claim C5 — calling before boot -/

set_option maxHeartbeats 4000000 in
/-- C5, counterexample.  `Fretless_up` performs no boot-state check: on a
context that is still `INIT`, with indeterminate malloc'd memory reading as
`preBootGarbage`, `Fretless_up` runs to completion without ever invoking the
`fail` callback (it emits a note-off for the garbage finger instead). -/
theorem claim_C5_counterexample :
    (Fretless_init preBootGarbage).ctxState = CTXSTATE_INIT ∧
    (Fretless_up (Fretless_init preBootGarbage) 0 0).fails = 0 := by
  decide

set_option maxHeartbeats 4000000 in
/-- C5, amended.  Only `Fretless_beginDown` and `Fretless_endDown` carry the
`STATECHECK` macro, so those two always route to `fail` when called before
`Fretless_boot`, whatever the memory contents; `Fretless_up`,
`Fretless_move` and `Fretless_express` check only the finger range and
`isOn`, and on indeterminate pre-boot memory may complete without any `fail`
(witnessed by `preBootGarbage`). -/
theorem claim_C5_amended :
    (∀ (g : Fretless_context) (f : ℤ), 0 < (Fretless_beginDown (Fretless_init g) f).fails) ∧
    (∀ (g : Fretless_context) (f : ℤ) (fnote : ℚ) (pg : ℤ) (v : ℚ) (lg : ℤ),
      0 < (Fretless_endDown (Fretless_init g) f fnote pg v lg).fails) ∧
    (Fretless_up (Fretless_init preBootGarbage) 0 0).fails = 0 ∧
    ((Fretless_move (Fretless_init preBootGarbage) 0 60 1 2).2).fails = 0 ∧
    (Fretless_express (Fretless_init preBootGarbage) 0 11 1).fails = 0 := by
  refine ⟨?_, ?_, by decide, by decide, by decide⟩
  · intro g f
    have h1 : (STATECHECK (Fretless_init g)).fails = 1 := by
      simp [STATECHECK, addFail, Fretless_init, CTXSTATE_INIT, CTXSTATE_BOOTED]
    have h2 : failsLE (STATECHECK (Fretless_init g)) (Fretless_beginDown (Fretless_init g) f) := by
      simp only [Fretless_beginDown]
      exact failsLE_beginDownBody _ (failsLE_FINGERCHECK _ (failsLE_refl _))
    simp only [failsLE, h1] at h2
    omega
  · intro g f fnote pg v lg
    have h1 : (STATECHECK (Fretless_init g)).fails = 1 := by
      simp [STATECHECK, addFail, Fretless_init, CTXSTATE_INIT, CTXSTATE_BOOTED]
    have h2 : failsLE (STATECHECK (Fretless_init g))
        (Fretless_endDown (Fretless_init g) f fnote pg v lg) := by
      simp only [Fretless_endDown]
      exact failsLE_endDownBody _ _ _ _ _ (failsLE_FNOTECHECK _ (failsLE_POLYCHECK _
        (failsLE_FINGERCHECK _ (failsLE_refl _))))
    simp only [failsLE, h1] at h2
    omega

/-! ## Claim C6 — decoder scenario S6 -/

set_option maxHeartbeats 4000000 in
/-- C6.  Feeding `0x90 0x3C 0x64, 0xE0 0x00 0x50, 0x80 0x3C 0x00` to the
decoder invokes the engine callback twice — once at pitch 60 when the note-on
completes, once at pitch 60.5 when the bend arrives — and never with volume 0:
the note-off handler sets `expectState = S_OFF_BYTE_NOTE` instead of
`S_OFF_BYTE_VOL` (the typo the spec itself flags in §9), so the off's volume
byte is parsed as another note byte and the vol-0 callback never fires. -/
theorem claim_C6_decoder_drops_note_off :
    c6Decoded.calls
        = [⟨0, 0, 60, mkRat 100 127, 0, 0⟩, ⟨0, 0, mkRat 121 2, mkRat 100 127, 0, 0⟩] ∧
      (c6Decoded.calls.map EngineCall.volVal).count 0 = 0 ∧
      c6Decoded.expectState = S_OFF_BYTE_NOTE ∧ c6Decoded.midiNote 0 = 0 := by
  decide

/-! ## Claim C7 — boot on valid hints -/

set_option maxHeartbeats 4000000 in
/-- C7.  The hint setters accept `channelSpan = 16` with `channelBase = 0`
(they clamp the span so that `base + span ≤ 16` exactly), yet `Fretless_boot`
rejects this very configuration: its check uses `>= CHANNELMAX` where the
setters' own clamp allows equality, so `boot` invokes `fail` although
`base + span = 16 ≤ 16`. -/
theorem claim_C7_boot_fails_at_full_span :
    c7Hinted.fails = 0 ∧ c7Hinted.channelBase = 0 ∧ c7Hinted.channelSpan = 16 ∧
      c7Hinted.channelBase + c7Hinted.channelSpan ≤ 16 ∧ 1 ≤ c7Hinted.channelSpan ∧
      1 ≤ c7Hinted.channelBendSemis ∧ c7Hinted.channelBendSemis ≤ 24 ∧
      (Fretless_boot c7Hinted).fails = 1 := by
  decide

/-! ## Claim C9 — move returns its fnote argument -/

/-- C9.  `Fretless_move` returns its `fnote` argument unchanged for every on
finger and in-range `fnote`, in both the bend-update path and the
saturation re-voice path: the C function's single `return fnote` is the last
statement, outside both branches. -/
theorem claim_C9_move_returns_fnote (st : Fretless_context) (f : ℤ) (fnote v : ℚ) (pg : ℤ)
    (hon : (st.fingers f).isOn = 1) (h1 : mkRat (-1) 2 ≤ fnote) (h2 : fnote < mkRat 255 2) :
    (Fretless_move st f fnote v pg).1 = fnote := rfl

set_option maxHeartbeats 4000000 in
theorem claim_C9_witness :
    (Fretless_move (Fretless_beginDown (Fretless_boot (Fretless_init garbage0)) 0) 0 60 1 0).1
      = 60 :=
  claim_C9_move_returns_fnote _ 0 60 1 0 (by decide) (by decide) (by decide)

/-! ## Claim C10 — the channel-base hint setter -/

/-- C10.  For `base ∈ [0,15]`, `Fretless_setMidiHintChannelBase` records the
base, clamps `channelSpan` to `16 - base` exactly when `base + span > 16`
(`FINGERMAX = 16` is the bound the source uses), and leaves the other two
hints untouched. -/
theorem claim_C10_setChannelBase (st : Fretless_context) (base : ℤ) (h1 : 0 ≤ base)
    (h2 : base ≤ 15) :
    (Fretless_setMidiHintChannelBase st base).channelBase = base ∧
    (Fretless_setMidiHintChannelBase st base).channelSpan =
      (if base + st.channelSpan > 16 then 16 - base else st.channelSpan) ∧
    (Fretless_setMidiHintChannelBase st base).channelBendSemis = st.channelBendSemis ∧
    (Fretless_setMidiHintChannelBase st base).supressBends = st.supressBends ∧
    (Fretless_setMidiHintChannelBase st base).fails = st.fails := by
  have hc : ¬ (base < 0 ∨ base ≥ CHANNELMAX) := by
    simp only [CHANNELMAX]
    omega
  simp only [Fretless_setMidiHintChannelBase, hc, if_false, FINGERMAX]
  split <;> simp_all

theorem claim_C10_witness :
    (Fretless_setMidiHintChannelBase garbage0 10).channelBase = 10 ∧
    (Fretless_setMidiHintChannelBase garbage0 10).channelSpan =
      (if 10 + garbage0.channelSpan > 16 then 16 - 10 else garbage0.channelSpan) ∧
    (Fretless_setMidiHintChannelBase garbage0 10).channelBendSemis =
      garbage0.channelBendSemis ∧
    (Fretless_setMidiHintChannelBase garbage0 10).supressBends = garbage0.supressBends ∧
    (Fretless_setMidiHintChannelBase garbage0 10).fails = garbage0.fails :=
  claim_C10_setChannelBase garbage0 10 (by decide) (by decide)

/-! ## Claim C3 — counterexample -/

set_option maxHeartbeats 8000000 in
/-- C3, counterexample.  In a legal gesture sequence (span 1, two fingers in
the same poly group), the second `endDown` suppresses finger 0, but
`noteChannelDownCount[60][0]` still counts it: the table counts suppressed
fingers too, so the claim's equation with "not suppressed" fails right after
a public call returns. -/
theorem claim_C3_counterexample :
    let st := Fretless_endDown (Fretless_beginDown (Fretless_endDown (Fretless_beginDown
      (Fretless_boot (withHints (Fretless_init garbage0) 0 1 2 0)) 0) 0 60 5 1 0) 1)
      1 62 5 1 0
    Fretless_Reachable st ∧ st.noteChannelDownCount 60 0 = 1 ∧ claimDownCount st 60 0 = 0 := by
  refine ⟨?_, by decide, by decide⟩
  exact Fretless_Reachable.endDown _ 1 62 5 1 0
    (Fretless_Reachable.beginDown _ 1
      (Fretless_Reachable.endDown _ 0 60 5 1 0
        (Fretless_Reachable.beginDown _ 0
          (Fretless_Reachable.boot garbage0 0 1 2 0 (by decide) (by decide) (by decide)
            (by decide) (by decide))
          (by decide) (by decide))
        (by decide) (by decide) (by decide) (by decide))
      (by decide) (by decide))
    (by decide) (by decide) (by decide) (by decide)

/-! ## Projection lemmas for the state helpers

One `@[simp]` lemma per helper per context field; together they let `simp`
evaluate any field of any state built from the helpers. -/

@[simp] theorem addFail_fingers (st : Fretless_context) :
    (addFail st).fingers = st.fingers := rfl

@[simp] theorem addFail_channels (st : Fretless_context) :
    (addFail st).channels = st.channels := rfl

@[simp] theorem addFail_polys (st : Fretless_context) :
    (addFail st).polys = st.polys := rfl

@[simp] theorem addFail_ctxState (st : Fretless_context) :
    (addFail st).ctxState = st.ctxState := rfl

@[simp] theorem addFail_lastAllocatedChannel (st : Fretless_context) :
    (addFail st).lastAllocatedChannel = st.lastAllocatedChannel := rfl

@[simp] theorem addFail_fingersDownCount (st : Fretless_context) :
    (addFail st).fingersDownCount = st.fingersDownCount := rfl

@[simp] theorem addFail_noteChannelDownCount (st : Fretless_context) :
    (addFail st).noteChannelDownCount = st.noteChannelDownCount := rfl

@[simp] theorem addFail_noteChannelDownRawBalance (st : Fretless_context) :
    (addFail st).noteChannelDownRawBalance = st.noteChannelDownRawBalance := rfl

@[simp] theorem addFail_channelBase (st : Fretless_context) :
    (addFail st).channelBase = st.channelBase := rfl

@[simp] theorem addFail_channelSpan (st : Fretless_context) :
    (addFail st).channelSpan = st.channelSpan := rfl

@[simp] theorem addFail_channelBendSemis (st : Fretless_context) :
    (addFail st).channelBendSemis = st.channelBendSemis := rfl

@[simp] theorem addFail_supressBends (st : Fretless_context) :
    (addFail st).supressBends = st.supressBends := rfl

@[simp] theorem addFail_emitted (st : Fretless_context) :
    (addFail st).emitted = st.emitted := rfl

@[simp] theorem addFail_fails (st : Fretless_context) :
    (addFail st).fails = st.fails + 1 := rfl

@[simp] theorem addFail_flushes (st : Fretless_context) :
    (addFail st).flushes = st.flushes := rfl

@[simp] theorem addFail_passedCount (st : Fretless_context) :
    (addFail st).passedCount = st.passedCount := rfl

@[simp] theorem addFail_logs (st : Fretless_context) :
    (addFail st).logs = st.logs := rfl

@[simp] theorem addLog_fingers (st : Fretless_context) :
    (addLog st).fingers = st.fingers := rfl

@[simp] theorem addLog_channels (st : Fretless_context) :
    (addLog st).channels = st.channels := rfl

@[simp] theorem addLog_polys (st : Fretless_context) :
    (addLog st).polys = st.polys := rfl

@[simp] theorem addLog_ctxState (st : Fretless_context) :
    (addLog st).ctxState = st.ctxState := rfl

@[simp] theorem addLog_lastAllocatedChannel (st : Fretless_context) :
    (addLog st).lastAllocatedChannel = st.lastAllocatedChannel := rfl

@[simp] theorem addLog_fingersDownCount (st : Fretless_context) :
    (addLog st).fingersDownCount = st.fingersDownCount := rfl

@[simp] theorem addLog_noteChannelDownCount (st : Fretless_context) :
    (addLog st).noteChannelDownCount = st.noteChannelDownCount := rfl

@[simp] theorem addLog_noteChannelDownRawBalance (st : Fretless_context) :
    (addLog st).noteChannelDownRawBalance = st.noteChannelDownRawBalance := rfl

@[simp] theorem addLog_channelBase (st : Fretless_context) :
    (addLog st).channelBase = st.channelBase := rfl

@[simp] theorem addLog_channelSpan (st : Fretless_context) :
    (addLog st).channelSpan = st.channelSpan := rfl

@[simp] theorem addLog_channelBendSemis (st : Fretless_context) :
    (addLog st).channelBendSemis = st.channelBendSemis := rfl

@[simp] theorem addLog_supressBends (st : Fretless_context) :
    (addLog st).supressBends = st.supressBends := rfl

@[simp] theorem addLog_emitted (st : Fretless_context) :
    (addLog st).emitted = st.emitted := rfl

@[simp] theorem addLog_fails (st : Fretless_context) :
    (addLog st).fails = st.fails := rfl

@[simp] theorem addLog_flushes (st : Fretless_context) :
    (addLog st).flushes = st.flushes := rfl

@[simp] theorem addLog_passedCount (st : Fretless_context) :
    (addLog st).passedCount = st.passedCount := rfl

@[simp] theorem addLog_logs (st : Fretless_context) :
    (addLog st).logs = st.logs + 1 := rfl

@[simp] theorem addPassed_fingers (st : Fretless_context) :
    (addPassed st).fingers = st.fingers := rfl

@[simp] theorem addPassed_channels (st : Fretless_context) :
    (addPassed st).channels = st.channels := rfl

@[simp] theorem addPassed_polys (st : Fretless_context) :
    (addPassed st).polys = st.polys := rfl

@[simp] theorem addPassed_ctxState (st : Fretless_context) :
    (addPassed st).ctxState = st.ctxState := rfl

@[simp] theorem addPassed_lastAllocatedChannel (st : Fretless_context) :
    (addPassed st).lastAllocatedChannel = st.lastAllocatedChannel := rfl

@[simp] theorem addPassed_fingersDownCount (st : Fretless_context) :
    (addPassed st).fingersDownCount = st.fingersDownCount := rfl

@[simp] theorem addPassed_noteChannelDownCount (st : Fretless_context) :
    (addPassed st).noteChannelDownCount = st.noteChannelDownCount := rfl

@[simp] theorem addPassed_noteChannelDownRawBalance (st : Fretless_context) :
    (addPassed st).noteChannelDownRawBalance = st.noteChannelDownRawBalance := rfl

@[simp] theorem addPassed_channelBase (st : Fretless_context) :
    (addPassed st).channelBase = st.channelBase := rfl

@[simp] theorem addPassed_channelSpan (st : Fretless_context) :
    (addPassed st).channelSpan = st.channelSpan := rfl

@[simp] theorem addPassed_channelBendSemis (st : Fretless_context) :
    (addPassed st).channelBendSemis = st.channelBendSemis := rfl

@[simp] theorem addPassed_supressBends (st : Fretless_context) :
    (addPassed st).supressBends = st.supressBends := rfl

@[simp] theorem addPassed_emitted (st : Fretless_context) :
    (addPassed st).emitted = st.emitted := rfl

@[simp] theorem addPassed_fails (st : Fretless_context) :
    (addPassed st).fails = st.fails := rfl

@[simp] theorem addPassed_flushes (st : Fretless_context) :
    (addPassed st).flushes = st.flushes := rfl

@[simp] theorem addPassed_passedCount (st : Fretless_context) :
    (addPassed st).passedCount = st.passedCount + 1 := rfl

@[simp] theorem addPassed_logs (st : Fretless_context) :
    (addPassed st).logs = st.logs := rfl

@[simp] theorem flush_fingers (st : Fretless_context) :
    (Fretless_flush st).fingers = st.fingers := rfl

@[simp] theorem flush_channels (st : Fretless_context) :
    (Fretless_flush st).channels = st.channels := rfl

@[simp] theorem flush_polys (st : Fretless_context) :
    (Fretless_flush st).polys = st.polys := rfl

@[simp] theorem flush_ctxState (st : Fretless_context) :
    (Fretless_flush st).ctxState = st.ctxState := rfl

@[simp] theorem flush_lastAllocatedChannel (st : Fretless_context) :
    (Fretless_flush st).lastAllocatedChannel = st.lastAllocatedChannel := rfl

@[simp] theorem flush_fingersDownCount (st : Fretless_context) :
    (Fretless_flush st).fingersDownCount = st.fingersDownCount := rfl

@[simp] theorem flush_noteChannelDownCount (st : Fretless_context) :
    (Fretless_flush st).noteChannelDownCount = st.noteChannelDownCount := rfl

@[simp] theorem flush_noteChannelDownRawBalance (st : Fretless_context) :
    (Fretless_flush st).noteChannelDownRawBalance = st.noteChannelDownRawBalance := rfl

@[simp] theorem flush_channelBase (st : Fretless_context) :
    (Fretless_flush st).channelBase = st.channelBase := rfl

@[simp] theorem flush_channelSpan (st : Fretless_context) :
    (Fretless_flush st).channelSpan = st.channelSpan := rfl

@[simp] theorem flush_channelBendSemis (st : Fretless_context) :
    (Fretless_flush st).channelBendSemis = st.channelBendSemis := rfl

@[simp] theorem flush_supressBends (st : Fretless_context) :
    (Fretless_flush st).supressBends = st.supressBends := rfl

@[simp] theorem flush_emitted (st : Fretless_context) :
    (Fretless_flush st).emitted = st.emitted := rfl

@[simp] theorem flush_fails (st : Fretless_context) :
    (Fretless_flush st).fails = st.fails := rfl

@[simp] theorem flush_flushes (st : Fretless_context) :
    (Fretless_flush st).flushes = st.flushes + 1 := rfl

@[simp] theorem flush_passedCount (st : Fretless_context) :
    (Fretless_flush st).passedCount = st.passedCount := rfl

@[simp] theorem flush_logs (st : Fretless_context) :
    (Fretless_flush st).logs = st.logs := rfl

@[simp] theorem emitList_fingers (st : Fretless_context) (bs : List ℤ) :
    (emitList st bs).fingers = st.fingers := rfl

@[simp] theorem emitList_channels (st : Fretless_context) (bs : List ℤ) :
    (emitList st bs).channels = st.channels := rfl

@[simp] theorem emitList_polys (st : Fretless_context) (bs : List ℤ) :
    (emitList st bs).polys = st.polys := rfl

@[simp] theorem emitList_ctxState (st : Fretless_context) (bs : List ℤ) :
    (emitList st bs).ctxState = st.ctxState := rfl

@[simp] theorem emitList_lastAllocatedChannel (st : Fretless_context) (bs : List ℤ) :
    (emitList st bs).lastAllocatedChannel = st.lastAllocatedChannel := rfl

@[simp] theorem emitList_fingersDownCount (st : Fretless_context) (bs : List ℤ) :
    (emitList st bs).fingersDownCount = st.fingersDownCount := rfl

@[simp] theorem emitList_noteChannelDownCount (st : Fretless_context) (bs : List ℤ) :
    (emitList st bs).noteChannelDownCount = st.noteChannelDownCount := rfl

@[simp] theorem emitList_noteChannelDownRawBalance (st : Fretless_context) (bs : List ℤ) :
    (emitList st bs).noteChannelDownRawBalance = st.noteChannelDownRawBalance := rfl

@[simp] theorem emitList_channelBase (st : Fretless_context) (bs : List ℤ) :
    (emitList st bs).channelBase = st.channelBase := rfl

@[simp] theorem emitList_channelSpan (st : Fretless_context) (bs : List ℤ) :
    (emitList st bs).channelSpan = st.channelSpan := rfl

@[simp] theorem emitList_channelBendSemis (st : Fretless_context) (bs : List ℤ) :
    (emitList st bs).channelBendSemis = st.channelBendSemis := rfl

@[simp] theorem emitList_supressBends (st : Fretless_context) (bs : List ℤ) :
    (emitList st bs).supressBends = st.supressBends := rfl

@[simp] theorem emitList_emitted (st : Fretless_context) (bs : List ℤ) :
    (emitList st bs).emitted = st.emitted ++ bs := rfl

@[simp] theorem emitList_fails (st : Fretless_context) (bs : List ℤ) :
    (emitList st bs).fails = st.fails := rfl

@[simp] theorem emitList_flushes (st : Fretless_context) (bs : List ℤ) :
    (emitList st bs).flushes = st.flushes := rfl

@[simp] theorem emitList_passedCount (st : Fretless_context) (bs : List ℤ) :
    (emitList st bs).passedCount = st.passedCount := rfl

@[simp] theorem emitList_logs (st : Fretless_context) (bs : List ℤ) :
    (emitList st bs).logs = st.logs := rfl

@[simp] theorem updFinger_fingers (st : Fretless_context) (f : ℤ) (g : Fretless_fingerState → Fretless_fingerState) :
    (updFinger st f g).fingers = Function.update st.fingers f (g (st.fingers f)) := rfl

@[simp] theorem updFinger_channels (st : Fretless_context) (f : ℤ) (g : Fretless_fingerState → Fretless_fingerState) :
    (updFinger st f g).channels = st.channels := rfl

@[simp] theorem updFinger_polys (st : Fretless_context) (f : ℤ) (g : Fretless_fingerState → Fretless_fingerState) :
    (updFinger st f g).polys = st.polys := rfl

@[simp] theorem updFinger_ctxState (st : Fretless_context) (f : ℤ) (g : Fretless_fingerState → Fretless_fingerState) :
    (updFinger st f g).ctxState = st.ctxState := rfl

@[simp] theorem updFinger_lastAllocatedChannel (st : Fretless_context) (f : ℤ) (g : Fretless_fingerState → Fretless_fingerState) :
    (updFinger st f g).lastAllocatedChannel = st.lastAllocatedChannel := rfl

@[simp] theorem updFinger_fingersDownCount (st : Fretless_context) (f : ℤ) (g : Fretless_fingerState → Fretless_fingerState) :
    (updFinger st f g).fingersDownCount = st.fingersDownCount := rfl

@[simp] theorem updFinger_noteChannelDownCount (st : Fretless_context) (f : ℤ) (g : Fretless_fingerState → Fretless_fingerState) :
    (updFinger st f g).noteChannelDownCount = st.noteChannelDownCount := rfl

@[simp] theorem updFinger_noteChannelDownRawBalance (st : Fretless_context) (f : ℤ) (g : Fretless_fingerState → Fretless_fingerState) :
    (updFinger st f g).noteChannelDownRawBalance = st.noteChannelDownRawBalance := rfl

@[simp] theorem updFinger_channelBase (st : Fretless_context) (f : ℤ) (g : Fretless_fingerState → Fretless_fingerState) :
    (updFinger st f g).channelBase = st.channelBase := rfl

@[simp] theorem updFinger_channelSpan (st : Fretless_context) (f : ℤ) (g : Fretless_fingerState → Fretless_fingerState) :
    (updFinger st f g).channelSpan = st.channelSpan := rfl

@[simp] theorem updFinger_channelBendSemis (st : Fretless_context) (f : ℤ) (g : Fretless_fingerState → Fretless_fingerState) :
    (updFinger st f g).channelBendSemis = st.channelBendSemis := rfl

@[simp] theorem updFinger_supressBends (st : Fretless_context) (f : ℤ) (g : Fretless_fingerState → Fretless_fingerState) :
    (updFinger st f g).supressBends = st.supressBends := rfl

@[simp] theorem updFinger_emitted (st : Fretless_context) (f : ℤ) (g : Fretless_fingerState → Fretless_fingerState) :
    (updFinger st f g).emitted = st.emitted := rfl

@[simp] theorem updFinger_fails (st : Fretless_context) (f : ℤ) (g : Fretless_fingerState → Fretless_fingerState) :
    (updFinger st f g).fails = st.fails := rfl

@[simp] theorem updFinger_flushes (st : Fretless_context) (f : ℤ) (g : Fretless_fingerState → Fretless_fingerState) :
    (updFinger st f g).flushes = st.flushes := rfl

@[simp] theorem updFinger_passedCount (st : Fretless_context) (f : ℤ) (g : Fretless_fingerState → Fretless_fingerState) :
    (updFinger st f g).passedCount = st.passedCount := rfl

@[simp] theorem updFinger_logs (st : Fretless_context) (f : ℤ) (g : Fretless_fingerState → Fretless_fingerState) :
    (updFinger st f g).logs = st.logs := rfl

@[simp] theorem updChannel_fingers (st : Fretless_context) (c : ℤ) (g : Fretless_channelState → Fretless_channelState) :
    (updChannel st c g).fingers = st.fingers := rfl

@[simp] theorem updChannel_channels (st : Fretless_context) (c : ℤ) (g : Fretless_channelState → Fretless_channelState) :
    (updChannel st c g).channels = Function.update st.channels c (g (st.channels c)) := rfl

@[simp] theorem updChannel_polys (st : Fretless_context) (c : ℤ) (g : Fretless_channelState → Fretless_channelState) :
    (updChannel st c g).polys = st.polys := rfl

@[simp] theorem updChannel_ctxState (st : Fretless_context) (c : ℤ) (g : Fretless_channelState → Fretless_channelState) :
    (updChannel st c g).ctxState = st.ctxState := rfl

@[simp] theorem updChannel_lastAllocatedChannel (st : Fretless_context) (c : ℤ) (g : Fretless_channelState → Fretless_channelState) :
    (updChannel st c g).lastAllocatedChannel = st.lastAllocatedChannel := rfl

@[simp] theorem updChannel_fingersDownCount (st : Fretless_context) (c : ℤ) (g : Fretless_channelState → Fretless_channelState) :
    (updChannel st c g).fingersDownCount = st.fingersDownCount := rfl

@[simp] theorem updChannel_noteChannelDownCount (st : Fretless_context) (c : ℤ) (g : Fretless_channelState → Fretless_channelState) :
    (updChannel st c g).noteChannelDownCount = st.noteChannelDownCount := rfl

@[simp] theorem updChannel_noteChannelDownRawBalance (st : Fretless_context) (c : ℤ) (g : Fretless_channelState → Fretless_channelState) :
    (updChannel st c g).noteChannelDownRawBalance = st.noteChannelDownRawBalance := rfl

@[simp] theorem updChannel_channelBase (st : Fretless_context) (c : ℤ) (g : Fretless_channelState → Fretless_channelState) :
    (updChannel st c g).channelBase = st.channelBase := rfl

@[simp] theorem updChannel_channelSpan (st : Fretless_context) (c : ℤ) (g : Fretless_channelState → Fretless_channelState) :
    (updChannel st c g).channelSpan = st.channelSpan := rfl

@[simp] theorem updChannel_channelBendSemis (st : Fretless_context) (c : ℤ) (g : Fretless_channelState → Fretless_channelState) :
    (updChannel st c g).channelBendSemis = st.channelBendSemis := rfl

@[simp] theorem updChannel_supressBends (st : Fretless_context) (c : ℤ) (g : Fretless_channelState → Fretless_channelState) :
    (updChannel st c g).supressBends = st.supressBends := rfl

@[simp] theorem updChannel_emitted (st : Fretless_context) (c : ℤ) (g : Fretless_channelState → Fretless_channelState) :
    (updChannel st c g).emitted = st.emitted := rfl

@[simp] theorem updChannel_fails (st : Fretless_context) (c : ℤ) (g : Fretless_channelState → Fretless_channelState) :
    (updChannel st c g).fails = st.fails := rfl

@[simp] theorem updChannel_flushes (st : Fretless_context) (c : ℤ) (g : Fretless_channelState → Fretless_channelState) :
    (updChannel st c g).flushes = st.flushes := rfl

@[simp] theorem updChannel_passedCount (st : Fretless_context) (c : ℤ) (g : Fretless_channelState → Fretless_channelState) :
    (updChannel st c g).passedCount = st.passedCount := rfl

@[simp] theorem updChannel_logs (st : Fretless_context) (c : ℤ) (g : Fretless_channelState → Fretless_channelState) :
    (updChannel st c g).logs = st.logs := rfl

@[simp] theorem updPoly_fingers (st : Fretless_context) (p v : ℤ) :
    (updPoly st p v).fingers = st.fingers := rfl

@[simp] theorem updPoly_channels (st : Fretless_context) (p v : ℤ) :
    (updPoly st p v).channels = st.channels := rfl

@[simp] theorem updPoly_polys (st : Fretless_context) (p v : ℤ) :
    (updPoly st p v).polys = Function.update st.polys p v := rfl

@[simp] theorem updPoly_ctxState (st : Fretless_context) (p v : ℤ) :
    (updPoly st p v).ctxState = st.ctxState := rfl

@[simp] theorem updPoly_lastAllocatedChannel (st : Fretless_context) (p v : ℤ) :
    (updPoly st p v).lastAllocatedChannel = st.lastAllocatedChannel := rfl

@[simp] theorem updPoly_fingersDownCount (st : Fretless_context) (p v : ℤ) :
    (updPoly st p v).fingersDownCount = st.fingersDownCount := rfl

@[simp] theorem updPoly_noteChannelDownCount (st : Fretless_context) (p v : ℤ) :
    (updPoly st p v).noteChannelDownCount = st.noteChannelDownCount := rfl

@[simp] theorem updPoly_noteChannelDownRawBalance (st : Fretless_context) (p v : ℤ) :
    (updPoly st p v).noteChannelDownRawBalance = st.noteChannelDownRawBalance := rfl

@[simp] theorem updPoly_channelBase (st : Fretless_context) (p v : ℤ) :
    (updPoly st p v).channelBase = st.channelBase := rfl

@[simp] theorem updPoly_channelSpan (st : Fretless_context) (p v : ℤ) :
    (updPoly st p v).channelSpan = st.channelSpan := rfl

@[simp] theorem updPoly_channelBendSemis (st : Fretless_context) (p v : ℤ) :
    (updPoly st p v).channelBendSemis = st.channelBendSemis := rfl

@[simp] theorem updPoly_supressBends (st : Fretless_context) (p v : ℤ) :
    (updPoly st p v).supressBends = st.supressBends := rfl

@[simp] theorem updPoly_emitted (st : Fretless_context) (p v : ℤ) :
    (updPoly st p v).emitted = st.emitted := rfl

@[simp] theorem updPoly_fails (st : Fretless_context) (p v : ℤ) :
    (updPoly st p v).fails = st.fails := rfl

@[simp] theorem updPoly_flushes (st : Fretless_context) (p v : ℤ) :
    (updPoly st p v).flushes = st.flushes := rfl

@[simp] theorem updPoly_passedCount (st : Fretless_context) (p v : ℤ) :
    (updPoly st p v).passedCount = st.passedCount := rfl

@[simp] theorem updPoly_logs (st : Fretless_context) (p v : ℤ) :
    (updPoly st p v).logs = st.logs := rfl

@[simp] theorem addDownCount_fingers (st : Fretless_context) (n c d : ℤ) :
    (addDownCount st n c d).fingers = st.fingers := rfl

@[simp] theorem addDownCount_channels (st : Fretless_context) (n c d : ℤ) :
    (addDownCount st n c d).channels = st.channels := rfl

@[simp] theorem addDownCount_polys (st : Fretless_context) (n c d : ℤ) :
    (addDownCount st n c d).polys = st.polys := rfl

@[simp] theorem addDownCount_ctxState (st : Fretless_context) (n c d : ℤ) :
    (addDownCount st n c d).ctxState = st.ctxState := rfl

@[simp] theorem addDownCount_lastAllocatedChannel (st : Fretless_context) (n c d : ℤ) :
    (addDownCount st n c d).lastAllocatedChannel = st.lastAllocatedChannel := rfl

@[simp] theorem addDownCount_fingersDownCount (st : Fretless_context) (n c d : ℤ) :
    (addDownCount st n c d).fingersDownCount = st.fingersDownCount := rfl

@[simp] theorem addDownCount_noteChannelDownCount (st : Fretless_context) (n c d : ℤ) :
    (addDownCount st n c d).noteChannelDownCount = upd2 st.noteChannelDownCount n c (st.noteChannelDownCount n c + d) := rfl

@[simp] theorem addDownCount_noteChannelDownRawBalance (st : Fretless_context) (n c d : ℤ) :
    (addDownCount st n c d).noteChannelDownRawBalance = st.noteChannelDownRawBalance := rfl

@[simp] theorem addDownCount_channelBase (st : Fretless_context) (n c d : ℤ) :
    (addDownCount st n c d).channelBase = st.channelBase := rfl

@[simp] theorem addDownCount_channelSpan (st : Fretless_context) (n c d : ℤ) :
    (addDownCount st n c d).channelSpan = st.channelSpan := rfl

@[simp] theorem addDownCount_channelBendSemis (st : Fretless_context) (n c d : ℤ) :
    (addDownCount st n c d).channelBendSemis = st.channelBendSemis := rfl

@[simp] theorem addDownCount_supressBends (st : Fretless_context) (n c d : ℤ) :
    (addDownCount st n c d).supressBends = st.supressBends := rfl

@[simp] theorem addDownCount_emitted (st : Fretless_context) (n c d : ℤ) :
    (addDownCount st n c d).emitted = st.emitted := rfl

@[simp] theorem addDownCount_fails (st : Fretless_context) (n c d : ℤ) :
    (addDownCount st n c d).fails = st.fails := rfl

@[simp] theorem addDownCount_flushes (st : Fretless_context) (n c d : ℤ) :
    (addDownCount st n c d).flushes = st.flushes := rfl

@[simp] theorem addDownCount_passedCount (st : Fretless_context) (n c d : ℤ) :
    (addDownCount st n c d).passedCount = st.passedCount := rfl

@[simp] theorem addDownCount_logs (st : Fretless_context) (n c d : ℤ) :
    (addDownCount st n c d).logs = st.logs := rfl

@[simp] theorem addRawBalance_fingers (st : Fretless_context) (n c d : ℤ) :
    (addRawBalance st n c d).fingers = st.fingers := rfl

@[simp] theorem addRawBalance_channels (st : Fretless_context) (n c d : ℤ) :
    (addRawBalance st n c d).channels = st.channels := rfl

@[simp] theorem addRawBalance_polys (st : Fretless_context) (n c d : ℤ) :
    (addRawBalance st n c d).polys = st.polys := rfl

@[simp] theorem addRawBalance_ctxState (st : Fretless_context) (n c d : ℤ) :
    (addRawBalance st n c d).ctxState = st.ctxState := rfl

@[simp] theorem addRawBalance_lastAllocatedChannel (st : Fretless_context) (n c d : ℤ) :
    (addRawBalance st n c d).lastAllocatedChannel = st.lastAllocatedChannel := rfl

@[simp] theorem addRawBalance_fingersDownCount (st : Fretless_context) (n c d : ℤ) :
    (addRawBalance st n c d).fingersDownCount = st.fingersDownCount := rfl

@[simp] theorem addRawBalance_noteChannelDownCount (st : Fretless_context) (n c d : ℤ) :
    (addRawBalance st n c d).noteChannelDownCount = st.noteChannelDownCount := rfl

@[simp] theorem addRawBalance_noteChannelDownRawBalance (st : Fretless_context) (n c d : ℤ) :
    (addRawBalance st n c d).noteChannelDownRawBalance = upd2 st.noteChannelDownRawBalance n c (st.noteChannelDownRawBalance n c + d) := rfl

@[simp] theorem addRawBalance_channelBase (st : Fretless_context) (n c d : ℤ) :
    (addRawBalance st n c d).channelBase = st.channelBase := rfl

@[simp] theorem addRawBalance_channelSpan (st : Fretless_context) (n c d : ℤ) :
    (addRawBalance st n c d).channelSpan = st.channelSpan := rfl

@[simp] theorem addRawBalance_channelBendSemis (st : Fretless_context) (n c d : ℤ) :
    (addRawBalance st n c d).channelBendSemis = st.channelBendSemis := rfl

@[simp] theorem addRawBalance_supressBends (st : Fretless_context) (n c d : ℤ) :
    (addRawBalance st n c d).supressBends = st.supressBends := rfl

@[simp] theorem addRawBalance_emitted (st : Fretless_context) (n c d : ℤ) :
    (addRawBalance st n c d).emitted = st.emitted := rfl

@[simp] theorem addRawBalance_fails (st : Fretless_context) (n c d : ℤ) :
    (addRawBalance st n c d).fails = st.fails := rfl

@[simp] theorem addRawBalance_flushes (st : Fretless_context) (n c d : ℤ) :
    (addRawBalance st n c d).flushes = st.flushes := rfl

@[simp] theorem addRawBalance_passedCount (st : Fretless_context) (n c d : ℤ) :
    (addRawBalance st n c d).passedCount = st.passedCount := rfl

@[simp] theorem addRawBalance_logs (st : Fretless_context) (n c d : ℤ) :
    (addRawBalance st n c d).logs = st.logs := rfl

@[simp] theorem clampRawBalance_fingers (st : Fretless_context) (n c : ℤ) :
    (clampRawBalance st n c).fingers = st.fingers := rfl

@[simp] theorem clampRawBalance_channels (st : Fretless_context) (n c : ℤ) :
    (clampRawBalance st n c).channels = st.channels := rfl

@[simp] theorem clampRawBalance_polys (st : Fretless_context) (n c : ℤ) :
    (clampRawBalance st n c).polys = st.polys := rfl

@[simp] theorem clampRawBalance_ctxState (st : Fretless_context) (n c : ℤ) :
    (clampRawBalance st n c).ctxState = st.ctxState := rfl

@[simp] theorem clampRawBalance_lastAllocatedChannel (st : Fretless_context) (n c : ℤ) :
    (clampRawBalance st n c).lastAllocatedChannel = st.lastAllocatedChannel := rfl

@[simp] theorem clampRawBalance_fingersDownCount (st : Fretless_context) (n c : ℤ) :
    (clampRawBalance st n c).fingersDownCount = st.fingersDownCount := rfl

@[simp] theorem clampRawBalance_noteChannelDownCount (st : Fretless_context) (n c : ℤ) :
    (clampRawBalance st n c).noteChannelDownCount = st.noteChannelDownCount := rfl

@[simp] theorem clampRawBalance_noteChannelDownRawBalance (st : Fretless_context) (n c : ℤ) :
    (clampRawBalance st n c).noteChannelDownRawBalance = upd2 st.noteChannelDownRawBalance n c 0 := rfl

@[simp] theorem clampRawBalance_channelBase (st : Fretless_context) (n c : ℤ) :
    (clampRawBalance st n c).channelBase = st.channelBase := rfl

@[simp] theorem clampRawBalance_channelSpan (st : Fretless_context) (n c : ℤ) :
    (clampRawBalance st n c).channelSpan = st.channelSpan := rfl

@[simp] theorem clampRawBalance_channelBendSemis (st : Fretless_context) (n c : ℤ) :
    (clampRawBalance st n c).channelBendSemis = st.channelBendSemis := rfl

@[simp] theorem clampRawBalance_supressBends (st : Fretless_context) (n c : ℤ) :
    (clampRawBalance st n c).supressBends = st.supressBends := rfl

@[simp] theorem clampRawBalance_emitted (st : Fretless_context) (n c : ℤ) :
    (clampRawBalance st n c).emitted = st.emitted := rfl

@[simp] theorem clampRawBalance_fails (st : Fretless_context) (n c : ℤ) :
    (clampRawBalance st n c).fails = st.fails := rfl

@[simp] theorem clampRawBalance_flushes (st : Fretless_context) (n c : ℤ) :
    (clampRawBalance st n c).flushes = st.flushes := rfl

@[simp] theorem clampRawBalance_passedCount (st : Fretless_context) (n c : ℤ) :
    (clampRawBalance st n c).passedCount = st.passedCount := rfl

@[simp] theorem clampRawBalance_logs (st : Fretless_context) (n c : ℤ) :
    (clampRawBalance st n c).logs = st.logs := rfl

@[simp] theorem bumpFDC_fingers (st : Fretless_context) (d : ℤ) :
    (bumpFingersDownCount st d).fingers = st.fingers := rfl

@[simp] theorem bumpFDC_channels (st : Fretless_context) (d : ℤ) :
    (bumpFingersDownCount st d).channels = st.channels := rfl

@[simp] theorem bumpFDC_polys (st : Fretless_context) (d : ℤ) :
    (bumpFingersDownCount st d).polys = st.polys := rfl

@[simp] theorem bumpFDC_ctxState (st : Fretless_context) (d : ℤ) :
    (bumpFingersDownCount st d).ctxState = st.ctxState := rfl

@[simp] theorem bumpFDC_lastAllocatedChannel (st : Fretless_context) (d : ℤ) :
    (bumpFingersDownCount st d).lastAllocatedChannel = st.lastAllocatedChannel := rfl

@[simp] theorem bumpFDC_fingersDownCount (st : Fretless_context) (d : ℤ) :
    (bumpFingersDownCount st d).fingersDownCount = st.fingersDownCount + d := rfl

@[simp] theorem bumpFDC_noteChannelDownCount (st : Fretless_context) (d : ℤ) :
    (bumpFingersDownCount st d).noteChannelDownCount = st.noteChannelDownCount := rfl

@[simp] theorem bumpFDC_noteChannelDownRawBalance (st : Fretless_context) (d : ℤ) :
    (bumpFingersDownCount st d).noteChannelDownRawBalance = st.noteChannelDownRawBalance := rfl

@[simp] theorem bumpFDC_channelBase (st : Fretless_context) (d : ℤ) :
    (bumpFingersDownCount st d).channelBase = st.channelBase := rfl

@[simp] theorem bumpFDC_channelSpan (st : Fretless_context) (d : ℤ) :
    (bumpFingersDownCount st d).channelSpan = st.channelSpan := rfl

@[simp] theorem bumpFDC_channelBendSemis (st : Fretless_context) (d : ℤ) :
    (bumpFingersDownCount st d).channelBendSemis = st.channelBendSemis := rfl

@[simp] theorem bumpFDC_supressBends (st : Fretless_context) (d : ℤ) :
    (bumpFingersDownCount st d).supressBends = st.supressBends := rfl

@[simp] theorem bumpFDC_emitted (st : Fretless_context) (d : ℤ) :
    (bumpFingersDownCount st d).emitted = st.emitted := rfl

@[simp] theorem bumpFDC_fails (st : Fretless_context) (d : ℤ) :
    (bumpFingersDownCount st d).fails = st.fails := rfl

@[simp] theorem bumpFDC_flushes (st : Fretless_context) (d : ℤ) :
    (bumpFingersDownCount st d).flushes = st.flushes := rfl

@[simp] theorem bumpFDC_passedCount (st : Fretless_context) (d : ℤ) :
    (bumpFingersDownCount st d).passedCount = st.passedCount := rfl

@[simp] theorem bumpFDC_logs (st : Fretless_context) (d : ℤ) :
    (bumpFingersDownCount st d).logs = st.logs := rfl

@[simp] theorem setLastAlloc_fingers (st : Fretless_context) (c : ℤ) :
    (setLastAllocatedChannel st c).fingers = st.fingers := rfl

@[simp] theorem setLastAlloc_channels (st : Fretless_context) (c : ℤ) :
    (setLastAllocatedChannel st c).channels = st.channels := rfl

@[simp] theorem setLastAlloc_polys (st : Fretless_context) (c : ℤ) :
    (setLastAllocatedChannel st c).polys = st.polys := rfl

@[simp] theorem setLastAlloc_ctxState (st : Fretless_context) (c : ℤ) :
    (setLastAllocatedChannel st c).ctxState = st.ctxState := rfl

@[simp] theorem setLastAlloc_lastAllocatedChannel (st : Fretless_context) (c : ℤ) :
    (setLastAllocatedChannel st c).lastAllocatedChannel = c := rfl

@[simp] theorem setLastAlloc_fingersDownCount (st : Fretless_context) (c : ℤ) :
    (setLastAllocatedChannel st c).fingersDownCount = st.fingersDownCount := rfl

@[simp] theorem setLastAlloc_noteChannelDownCount (st : Fretless_context) (c : ℤ) :
    (setLastAllocatedChannel st c).noteChannelDownCount = st.noteChannelDownCount := rfl

@[simp] theorem setLastAlloc_noteChannelDownRawBalance (st : Fretless_context) (c : ℤ) :
    (setLastAllocatedChannel st c).noteChannelDownRawBalance = st.noteChannelDownRawBalance := rfl

@[simp] theorem setLastAlloc_channelBase (st : Fretless_context) (c : ℤ) :
    (setLastAllocatedChannel st c).channelBase = st.channelBase := rfl

@[simp] theorem setLastAlloc_channelSpan (st : Fretless_context) (c : ℤ) :
    (setLastAllocatedChannel st c).channelSpan = st.channelSpan := rfl

@[simp] theorem setLastAlloc_channelBendSemis (st : Fretless_context) (c : ℤ) :
    (setLastAllocatedChannel st c).channelBendSemis = st.channelBendSemis := rfl

@[simp] theorem setLastAlloc_supressBends (st : Fretless_context) (c : ℤ) :
    (setLastAllocatedChannel st c).supressBends = st.supressBends := rfl

@[simp] theorem setLastAlloc_emitted (st : Fretless_context) (c : ℤ) :
    (setLastAllocatedChannel st c).emitted = st.emitted := rfl

@[simp] theorem setLastAlloc_fails (st : Fretless_context) (c : ℤ) :
    (setLastAllocatedChannel st c).fails = st.fails := rfl

@[simp] theorem setLastAlloc_flushes (st : Fretless_context) (c : ℤ) :
    (setLastAllocatedChannel st c).flushes = st.flushes := rfl

@[simp] theorem setLastAlloc_passedCount (st : Fretless_context) (c : ℤ) :
    (setLastAllocatedChannel st c).passedCount = st.passedCount := rfl

@[simp] theorem setLastAlloc_logs (st : Fretless_context) (c : ℤ) :
    (setLastAllocatedChannel st c).logs = st.logs := rfl

@[simp] theorem setBooted_fingers (st : Fretless_context) :
    (setCtxStateBooted st).fingers = st.fingers := rfl

@[simp] theorem setBooted_channels (st : Fretless_context) :
    (setCtxStateBooted st).channels = st.channels := rfl

@[simp] theorem setBooted_polys (st : Fretless_context) :
    (setCtxStateBooted st).polys = st.polys := rfl

@[simp] theorem setBooted_ctxState (st : Fretless_context) :
    (setCtxStateBooted st).ctxState = CTXSTATE_BOOTED := rfl

@[simp] theorem setBooted_lastAllocatedChannel (st : Fretless_context) :
    (setCtxStateBooted st).lastAllocatedChannel = st.lastAllocatedChannel := rfl

@[simp] theorem setBooted_fingersDownCount (st : Fretless_context) :
    (setCtxStateBooted st).fingersDownCount = st.fingersDownCount := rfl

@[simp] theorem setBooted_noteChannelDownCount (st : Fretless_context) :
    (setCtxStateBooted st).noteChannelDownCount = st.noteChannelDownCount := rfl

@[simp] theorem setBooted_noteChannelDownRawBalance (st : Fretless_context) :
    (setCtxStateBooted st).noteChannelDownRawBalance = st.noteChannelDownRawBalance := rfl

@[simp] theorem setBooted_channelBase (st : Fretless_context) :
    (setCtxStateBooted st).channelBase = st.channelBase := rfl

@[simp] theorem setBooted_channelSpan (st : Fretless_context) :
    (setCtxStateBooted st).channelSpan = st.channelSpan := rfl

@[simp] theorem setBooted_channelBendSemis (st : Fretless_context) :
    (setCtxStateBooted st).channelBendSemis = st.channelBendSemis := rfl

@[simp] theorem setBooted_supressBends (st : Fretless_context) :
    (setCtxStateBooted st).supressBends = st.supressBends := rfl

@[simp] theorem setBooted_emitted (st : Fretless_context) :
    (setCtxStateBooted st).emitted = st.emitted := rfl

@[simp] theorem setBooted_fails (st : Fretless_context) :
    (setCtxStateBooted st).fails = st.fails := rfl

@[simp] theorem setBooted_flushes (st : Fretless_context) :
    (setCtxStateBooted st).flushes = st.flushes := rfl

@[simp] theorem setBooted_passedCount (st : Fretless_context) :
    (setCtxStateBooted st).passedCount = st.passedCount := rfl

@[simp] theorem setBooted_logs (st : Fretless_context) :
    (setCtxStateBooted st).logs = st.logs := rfl

@[simp] theorem setSemisField_fingers (st : Fretless_context) (v : ℤ) :
    (setBendSemisField st v).fingers = st.fingers := rfl

@[simp] theorem setSemisField_channels (st : Fretless_context) (v : ℤ) :
    (setBendSemisField st v).channels = st.channels := rfl

@[simp] theorem setSemisField_polys (st : Fretless_context) (v : ℤ) :
    (setBendSemisField st v).polys = st.polys := rfl

@[simp] theorem setSemisField_ctxState (st : Fretless_context) (v : ℤ) :
    (setBendSemisField st v).ctxState = st.ctxState := rfl

@[simp] theorem setSemisField_lastAllocatedChannel (st : Fretless_context) (v : ℤ) :
    (setBendSemisField st v).lastAllocatedChannel = st.lastAllocatedChannel := rfl

@[simp] theorem setSemisField_fingersDownCount (st : Fretless_context) (v : ℤ) :
    (setBendSemisField st v).fingersDownCount = st.fingersDownCount := rfl

@[simp] theorem setSemisField_noteChannelDownCount (st : Fretless_context) (v : ℤ) :
    (setBendSemisField st v).noteChannelDownCount = st.noteChannelDownCount := rfl

@[simp] theorem setSemisField_noteChannelDownRawBalance (st : Fretless_context) (v : ℤ) :
    (setBendSemisField st v).noteChannelDownRawBalance = st.noteChannelDownRawBalance := rfl

@[simp] theorem setSemisField_channelBase (st : Fretless_context) (v : ℤ) :
    (setBendSemisField st v).channelBase = st.channelBase := rfl

@[simp] theorem setSemisField_channelSpan (st : Fretless_context) (v : ℤ) :
    (setBendSemisField st v).channelSpan = st.channelSpan := rfl

@[simp] theorem setSemisField_channelBendSemis (st : Fretless_context) (v : ℤ) :
    (setBendSemisField st v).channelBendSemis = v := rfl

@[simp] theorem setSemisField_supressBends (st : Fretless_context) (v : ℤ) :
    (setBendSemisField st v).supressBends = st.supressBends := rfl

@[simp] theorem setSemisField_emitted (st : Fretless_context) (v : ℤ) :
    (setBendSemisField st v).emitted = st.emitted := rfl

@[simp] theorem setSemisField_fails (st : Fretless_context) (v : ℤ) :
    (setBendSemisField st v).fails = st.fails := rfl

@[simp] theorem setSemisField_flushes (st : Fretless_context) (v : ℤ) :
    (setBendSemisField st v).flushes = st.flushes := rfl

@[simp] theorem setSemisField_passedCount (st : Fretless_context) (v : ℤ) :
    (setBendSemisField st v).passedCount = st.passedCount := rfl

@[simp] theorem setSemisField_logs (st : Fretless_context) (v : ℤ) :
    (setBendSemisField st v).logs = st.logs := rfl

@[simp] theorem updFinger_fingers_apply (st : Fretless_context) (f : ℤ)
    (g : Fretless_fingerState → Fretless_fingerState) (x : ℤ) :
    (updFinger st f g).fingers x = if x = f then g (st.fingers f) else st.fingers x := by
  simp [updFinger, Function.update_apply]

@[simp] theorem updChannel_channels_apply (st : Fretless_context) (c : ℤ)
    (g : Fretless_channelState → Fretless_channelState) (x : ℤ) :
    (updChannel st c g).channels x = if x = c then g (st.channels c) else st.channels x := by
  simp [updChannel, Function.update_apply]

@[simp] theorem updPoly_polys_apply (st : Fretless_context) (p v x : ℤ) :
    (updPoly st p v).polys x = if x = p then v else st.polys x := by
  simp [updPoly, Function.update_apply]

@[simp] theorem upd2_apply (g : ℤ → ℤ → ℤ) (n c v n' c' : ℤ) :
    upd2 g n c v n' c' = if n' = n ∧ c' = c then v else g n' c' := rfl

/-! ## The check macros change nothing but the fail counter -/

@[simp] theorem STATECHECK_fingers (st : Fretless_context) :
    (STATECHECK st).fingers = st.fingers := by
  simp only [STATECHECK]
  split <;> rfl

@[simp] theorem STATECHECK_channels (st : Fretless_context) :
    (STATECHECK st).channels = st.channels := by
  simp only [STATECHECK]
  split <;> rfl

@[simp] theorem STATECHECK_polys (st : Fretless_context) :
    (STATECHECK st).polys = st.polys := by
  simp only [STATECHECK]
  split <;> rfl

@[simp] theorem STATECHECK_ctxState (st : Fretless_context) :
    (STATECHECK st).ctxState = st.ctxState := by
  simp only [STATECHECK]
  split <;> rfl

@[simp] theorem STATECHECK_lastAllocatedChannel (st : Fretless_context) :
    (STATECHECK st).lastAllocatedChannel = st.lastAllocatedChannel := by
  simp only [STATECHECK]
  split <;> rfl

@[simp] theorem STATECHECK_fingersDownCount (st : Fretless_context) :
    (STATECHECK st).fingersDownCount = st.fingersDownCount := by
  simp only [STATECHECK]
  split <;> rfl

@[simp] theorem STATECHECK_noteChannelDownCount (st : Fretless_context) :
    (STATECHECK st).noteChannelDownCount = st.noteChannelDownCount := by
  simp only [STATECHECK]
  split <;> rfl

@[simp] theorem STATECHECK_noteChannelDownRawBalance (st : Fretless_context) :
    (STATECHECK st).noteChannelDownRawBalance = st.noteChannelDownRawBalance := by
  simp only [STATECHECK]
  split <;> rfl

@[simp] theorem STATECHECK_channelBase (st : Fretless_context) :
    (STATECHECK st).channelBase = st.channelBase := by
  simp only [STATECHECK]
  split <;> rfl

@[simp] theorem STATECHECK_channelSpan (st : Fretless_context) :
    (STATECHECK st).channelSpan = st.channelSpan := by
  simp only [STATECHECK]
  split <;> rfl

@[simp] theorem STATECHECK_channelBendSemis (st : Fretless_context) :
    (STATECHECK st).channelBendSemis = st.channelBendSemis := by
  simp only [STATECHECK]
  split <;> rfl

@[simp] theorem STATECHECK_supressBends (st : Fretless_context) :
    (STATECHECK st).supressBends = st.supressBends := by
  simp only [STATECHECK]
  split <;> rfl

@[simp] theorem STATECHECK_emitted (st : Fretless_context) :
    (STATECHECK st).emitted = st.emitted := by
  simp only [STATECHECK]
  split <;> rfl

@[simp] theorem STATECHECK_flushes (st : Fretless_context) :
    (STATECHECK st).flushes = st.flushes := by
  simp only [STATECHECK]
  split <;> rfl

@[simp] theorem STATECHECK_passedCount (st : Fretless_context) :
    (STATECHECK st).passedCount = st.passedCount := by
  simp only [STATECHECK]
  split <;> rfl

@[simp] theorem STATECHECK_logs (st : Fretless_context) :
    (STATECHECK st).logs = st.logs := by
  simp only [STATECHECK]
  split <;> rfl

@[simp] theorem FINGERCHECK_fingers (st : Fretless_context) (f : ℤ) :
    (FINGERCHECK st f).fingers = st.fingers := by
  simp only [FINGERCHECK]
  split <;> rfl

@[simp] theorem FINGERCHECK_channels (st : Fretless_context) (f : ℤ) :
    (FINGERCHECK st f).channels = st.channels := by
  simp only [FINGERCHECK]
  split <;> rfl

@[simp] theorem FINGERCHECK_polys (st : Fretless_context) (f : ℤ) :
    (FINGERCHECK st f).polys = st.polys := by
  simp only [FINGERCHECK]
  split <;> rfl

@[simp] theorem FINGERCHECK_ctxState (st : Fretless_context) (f : ℤ) :
    (FINGERCHECK st f).ctxState = st.ctxState := by
  simp only [FINGERCHECK]
  split <;> rfl

@[simp] theorem FINGERCHECK_lastAllocatedChannel (st : Fretless_context) (f : ℤ) :
    (FINGERCHECK st f).lastAllocatedChannel = st.lastAllocatedChannel := by
  simp only [FINGERCHECK]
  split <;> rfl

@[simp] theorem FINGERCHECK_fingersDownCount (st : Fretless_context) (f : ℤ) :
    (FINGERCHECK st f).fingersDownCount = st.fingersDownCount := by
  simp only [FINGERCHECK]
  split <;> rfl

@[simp] theorem FINGERCHECK_noteChannelDownCount (st : Fretless_context) (f : ℤ) :
    (FINGERCHECK st f).noteChannelDownCount = st.noteChannelDownCount := by
  simp only [FINGERCHECK]
  split <;> rfl

@[simp] theorem FINGERCHECK_noteChannelDownRawBalance (st : Fretless_context) (f : ℤ) :
    (FINGERCHECK st f).noteChannelDownRawBalance = st.noteChannelDownRawBalance := by
  simp only [FINGERCHECK]
  split <;> rfl

@[simp] theorem FINGERCHECK_channelBase (st : Fretless_context) (f : ℤ) :
    (FINGERCHECK st f).channelBase = st.channelBase := by
  simp only [FINGERCHECK]
  split <;> rfl

@[simp] theorem FINGERCHECK_channelSpan (st : Fretless_context) (f : ℤ) :
    (FINGERCHECK st f).channelSpan = st.channelSpan := by
  simp only [FINGERCHECK]
  split <;> rfl

@[simp] theorem FINGERCHECK_channelBendSemis (st : Fretless_context) (f : ℤ) :
    (FINGERCHECK st f).channelBendSemis = st.channelBendSemis := by
  simp only [FINGERCHECK]
  split <;> rfl

@[simp] theorem FINGERCHECK_supressBends (st : Fretless_context) (f : ℤ) :
    (FINGERCHECK st f).supressBends = st.supressBends := by
  simp only [FINGERCHECK]
  split <;> rfl

@[simp] theorem FINGERCHECK_emitted (st : Fretless_context) (f : ℤ) :
    (FINGERCHECK st f).emitted = st.emitted := by
  simp only [FINGERCHECK]
  split <;> rfl

@[simp] theorem FINGERCHECK_flushes (st : Fretless_context) (f : ℤ) :
    (FINGERCHECK st f).flushes = st.flushes := by
  simp only [FINGERCHECK]
  split <;> rfl

@[simp] theorem FINGERCHECK_passedCount (st : Fretless_context) (f : ℤ) :
    (FINGERCHECK st f).passedCount = st.passedCount := by
  simp only [FINGERCHECK]
  split <;> rfl

@[simp] theorem FINGERCHECK_logs (st : Fretless_context) (f : ℤ) :
    (FINGERCHECK st f).logs = st.logs := by
  simp only [FINGERCHECK]
  split <;> rfl

@[simp] theorem POLYCHECK_fingers (st : Fretless_context) (pg : ℤ) :
    (POLYCHECK st pg).fingers = st.fingers := by
  simp only [POLYCHECK]
  split <;> rfl

@[simp] theorem POLYCHECK_channels (st : Fretless_context) (pg : ℤ) :
    (POLYCHECK st pg).channels = st.channels := by
  simp only [POLYCHECK]
  split <;> rfl

@[simp] theorem POLYCHECK_polys (st : Fretless_context) (pg : ℤ) :
    (POLYCHECK st pg).polys = st.polys := by
  simp only [POLYCHECK]
  split <;> rfl

@[simp] theorem POLYCHECK_ctxState (st : Fretless_context) (pg : ℤ) :
    (POLYCHECK st pg).ctxState = st.ctxState := by
  simp only [POLYCHECK]
  split <;> rfl

@[simp] theorem POLYCHECK_lastAllocatedChannel (st : Fretless_context) (pg : ℤ) :
    (POLYCHECK st pg).lastAllocatedChannel = st.lastAllocatedChannel := by
  simp only [POLYCHECK]
  split <;> rfl

@[simp] theorem POLYCHECK_fingersDownCount (st : Fretless_context) (pg : ℤ) :
    (POLYCHECK st pg).fingersDownCount = st.fingersDownCount := by
  simp only [POLYCHECK]
  split <;> rfl

@[simp] theorem POLYCHECK_noteChannelDownCount (st : Fretless_context) (pg : ℤ) :
    (POLYCHECK st pg).noteChannelDownCount = st.noteChannelDownCount := by
  simp only [POLYCHECK]
  split <;> rfl

@[simp] theorem POLYCHECK_noteChannelDownRawBalance (st : Fretless_context) (pg : ℤ) :
    (POLYCHECK st pg).noteChannelDownRawBalance = st.noteChannelDownRawBalance := by
  simp only [POLYCHECK]
  split <;> rfl

@[simp] theorem POLYCHECK_channelBase (st : Fretless_context) (pg : ℤ) :
    (POLYCHECK st pg).channelBase = st.channelBase := by
  simp only [POLYCHECK]
  split <;> rfl

@[simp] theorem POLYCHECK_channelSpan (st : Fretless_context) (pg : ℤ) :
    (POLYCHECK st pg).channelSpan = st.channelSpan := by
  simp only [POLYCHECK]
  split <;> rfl

@[simp] theorem POLYCHECK_channelBendSemis (st : Fretless_context) (pg : ℤ) :
    (POLYCHECK st pg).channelBendSemis = st.channelBendSemis := by
  simp only [POLYCHECK]
  split <;> rfl

@[simp] theorem POLYCHECK_supressBends (st : Fretless_context) (pg : ℤ) :
    (POLYCHECK st pg).supressBends = st.supressBends := by
  simp only [POLYCHECK]
  split <;> rfl

@[simp] theorem POLYCHECK_emitted (st : Fretless_context) (pg : ℤ) :
    (POLYCHECK st pg).emitted = st.emitted := by
  simp only [POLYCHECK]
  split <;> rfl

@[simp] theorem POLYCHECK_flushes (st : Fretless_context) (pg : ℤ) :
    (POLYCHECK st pg).flushes = st.flushes := by
  simp only [POLYCHECK]
  split <;> rfl

@[simp] theorem POLYCHECK_passedCount (st : Fretless_context) (pg : ℤ) :
    (POLYCHECK st pg).passedCount = st.passedCount := by
  simp only [POLYCHECK]
  split <;> rfl

@[simp] theorem POLYCHECK_logs (st : Fretless_context) (pg : ℤ) :
    (POLYCHECK st pg).logs = st.logs := by
  simp only [POLYCHECK]
  split <;> rfl

@[simp] theorem FNOTECHECK_fingers (st : Fretless_context) (q : ℚ) :
    (FNOTECHECK st q).fingers = st.fingers := by
  simp only [FNOTECHECK]
  split <;> rfl

@[simp] theorem FNOTECHECK_channels (st : Fretless_context) (q : ℚ) :
    (FNOTECHECK st q).channels = st.channels := by
  simp only [FNOTECHECK]
  split <;> rfl

@[simp] theorem FNOTECHECK_polys (st : Fretless_context) (q : ℚ) :
    (FNOTECHECK st q).polys = st.polys := by
  simp only [FNOTECHECK]
  split <;> rfl

@[simp] theorem FNOTECHECK_ctxState (st : Fretless_context) (q : ℚ) :
    (FNOTECHECK st q).ctxState = st.ctxState := by
  simp only [FNOTECHECK]
  split <;> rfl

@[simp] theorem FNOTECHECK_lastAllocatedChannel (st : Fretless_context) (q : ℚ) :
    (FNOTECHECK st q).lastAllocatedChannel = st.lastAllocatedChannel := by
  simp only [FNOTECHECK]
  split <;> rfl

@[simp] theorem FNOTECHECK_fingersDownCount (st : Fretless_context) (q : ℚ) :
    (FNOTECHECK st q).fingersDownCount = st.fingersDownCount := by
  simp only [FNOTECHECK]
  split <;> rfl

@[simp] theorem FNOTECHECK_noteChannelDownCount (st : Fretless_context) (q : ℚ) :
    (FNOTECHECK st q).noteChannelDownCount = st.noteChannelDownCount := by
  simp only [FNOTECHECK]
  split <;> rfl

@[simp] theorem FNOTECHECK_noteChannelDownRawBalance (st : Fretless_context) (q : ℚ) :
    (FNOTECHECK st q).noteChannelDownRawBalance = st.noteChannelDownRawBalance := by
  simp only [FNOTECHECK]
  split <;> rfl

@[simp] theorem FNOTECHECK_channelBase (st : Fretless_context) (q : ℚ) :
    (FNOTECHECK st q).channelBase = st.channelBase := by
  simp only [FNOTECHECK]
  split <;> rfl

@[simp] theorem FNOTECHECK_channelSpan (st : Fretless_context) (q : ℚ) :
    (FNOTECHECK st q).channelSpan = st.channelSpan := by
  simp only [FNOTECHECK]
  split <;> rfl

@[simp] theorem FNOTECHECK_channelBendSemis (st : Fretless_context) (q : ℚ) :
    (FNOTECHECK st q).channelBendSemis = st.channelBendSemis := by
  simp only [FNOTECHECK]
  split <;> rfl

@[simp] theorem FNOTECHECK_supressBends (st : Fretless_context) (q : ℚ) :
    (FNOTECHECK st q).supressBends = st.supressBends := by
  simp only [FNOTECHECK]
  split <;> rfl

@[simp] theorem FNOTECHECK_emitted (st : Fretless_context) (q : ℚ) :
    (FNOTECHECK st q).emitted = st.emitted := by
  simp only [FNOTECHECK]
  split <;> rfl

@[simp] theorem FNOTECHECK_flushes (st : Fretless_context) (q : ℚ) :
    (FNOTECHECK st q).flushes = st.flushes := by
  simp only [FNOTECHECK]
  split <;> rfl

@[simp] theorem FNOTECHECK_passedCount (st : Fretless_context) (q : ℚ) :
    (FNOTECHECK st q).passedCount = st.passedCount := by
  simp only [FNOTECHECK]
  split <;> rfl

@[simp] theorem FNOTECHECK_logs (st : Fretless_context) (q : ℚ) :
    (FNOTECHECK st q).logs = st.logs := by
  simp only [FNOTECHECK]
  split <;> rfl

/-! ## Range of the scanned channel

C's `%` is `Int.tmod`; the two lemmas below re-express it through the
Euclidean `emod` so that `omega` can finish range arguments. -/

theorem tmod_neg_left (a b : ℤ) : Int.tmod (-a) b = -Int.tmod a b := by
  rw [Int.tmod_def, Int.tmod_def, Int.neg_tdiv]
  ring

theorem tmod_cases (a b : ℤ) :
    (0 ≤ a → Int.tmod a b = a % b) ∧ (a < 0 → Int.tmod a b = -((-a) % b)) := by
  have key : ∀ c : ℤ, 0 ≤ c → Int.tmod c b = c % b := by
    intro c hc
    rcases le_or_lt 0 b with hb | hb
    · exact Int.tmod_eq_emod hc hb
    · rw [← Int.tmod_neg c b, Int.tmod_eq_emod hc (by omega), Int.emod_neg]
  constructor
  · intro ha
    exact key a ha
  · intro ha
    rw [show a = -(-a) by ring, tmod_neg_left, neg_inj, neg_neg]
    exact key (-a) (by omega)

/-- On a state with in-range hints and a nonnegative `lastAllocatedChannel`,
every channel the allocator scans lies in `[0, 16)`. -/
theorem allocScanChannel_range (st : Fretless_context) (s : ℤ) (hs : 0 ≤ s)
    (hlast : 0 ≤ st.lastAllocatedChannel) (hb : 0 ≤ st.channelBase)
    (hsp : 1 ≤ st.channelSpan) (hsum : st.channelBase + st.channelSpan ≤ 16) :
    0 ≤ allocScanChannel st s ∧ allocScanChannel st s < 16 := by
  unfold allocScanChannel
  set m := st.lastAllocatedChannel + 1 + s - st.channelBase with hm
  rcases le_or_lt 0 m with h0 | h0
  · rw [(tmod_cases m st.channelSpan).1 h0]
    have h1 : 0 ≤ m % st.channelSpan := Int.emod_nonneg m (by omega)
    have h2 : m % st.channelSpan < st.channelSpan := Int.emod_lt_of_pos m (by omega)
    omega
  · rw [(tmod_cases m st.channelSpan).2 h0]
    have h1 : 0 ≤ (-m) % st.channelSpan := Int.emod_nonneg (-m) (by omega)
    have h2 : (-m) % st.channelSpan < st.channelSpan := Int.emod_lt_of_pos (-m) (by omega)
    have h3 : (-m) % st.channelSpan ≤ -m := by
      have h4 : 0 ≤ (-m) / st.channelSpan := Int.ediv_nonneg (by omega) (by omega)
      have h5 : st.channelSpan * ((-m) / st.channelSpan) + (-m) % st.channelSpan = -m :=
        Int.ediv_add_emod (-m) st.channelSpan
      nlinarith
    omega

/-! ## What the allocator does not touch

`Fretless_allocChannel` writes only `useCount`/`currentFingerInChannel` of the
chosen channel, the channel-list pointers of the affected fingers,
`lastAllocatedChannel` and possibly the fail counter. -/

theorem allocChannel_fingers_isOn (st : Fretless_context) (f g : ℤ) :
    (((Fretless_allocChannel st f).1).fingers g).isOn = (st.fingers g).isOn := by
  unfold Fretless_allocChannel
  cases Fretless_allocLoop st 0 (allocFuel st) with
  | none => simp
  | some hit =>
    cases hit with
    | negFail c => simp
    | found c =>
      simp only [setLastAlloc_fingers, updChannel_fingers,
        apply_ite Fretless_context.fingers, addFail_fingers, updFinger_fingers]
      split_ifs <;> simp_all [Function.update_apply] <;> split_ifs <;> simp_all

theorem allocChannel_fingers_isSupressed (st : Fretless_context) (f g : ℤ) :
    (((Fretless_allocChannel st f).1).fingers g).isSupressed = (st.fingers g).isSupressed := by
  unfold Fretless_allocChannel
  cases Fretless_allocLoop st 0 (allocFuel st) with
  | none => simp
  | some hit =>
    cases hit with
    | negFail c => simp
    | found c =>
      simp only [setLastAlloc_fingers, updChannel_fingers,
        apply_ite Fretless_context.fingers, addFail_fingers, updFinger_fingers]
      split_ifs <;> simp_all [Function.update_apply] <;> split_ifs <;> simp_all

theorem allocChannel_fingers_samplePhase (st : Fretless_context) (f g : ℤ) :
    (((Fretless_allocChannel st f).1).fingers g).samplePhase = (st.fingers g).samplePhase := by
  unfold Fretless_allocChannel
  cases Fretless_allocLoop st 0 (allocFuel st) with
  | none => simp
  | some hit =>
    cases hit with
    | negFail c => simp
    | found c =>
      simp only [setLastAlloc_fingers, updChannel_fingers,
        apply_ite Fretless_context.fingers, addFail_fingers, updFinger_fingers]
      split_ifs <;> simp_all [Function.update_apply] <;> split_ifs <;> simp_all

theorem allocChannel_fingers_channel (st : Fretless_context) (f g : ℤ) :
    (((Fretless_allocChannel st f).1).fingers g).channel = (st.fingers g).channel := by
  unfold Fretless_allocChannel
  cases Fretless_allocLoop st 0 (allocFuel st) with
  | none => simp
  | some hit =>
    cases hit with
    | negFail c => simp
    | found c =>
      simp only [setLastAlloc_fingers, updChannel_fingers,
        apply_ite Fretless_context.fingers, addFail_fingers, updFinger_fingers]
      split_ifs <;> simp_all [Function.update_apply] <;> split_ifs <;> simp_all

theorem allocChannel_fingers_note (st : Fretless_context) (f g : ℤ) :
    (((Fretless_allocChannel st f).1).fingers g).note = (st.fingers g).note := by
  unfold Fretless_allocChannel
  cases Fretless_allocLoop st 0 (allocFuel st) with
  | none => simp
  | some hit =>
    cases hit with
    | negFail c => simp
    | found c =>
      simp only [setLastAlloc_fingers, updChannel_fingers,
        apply_ite Fretless_context.fingers, addFail_fingers, updFinger_fingers]
      split_ifs <;> simp_all [Function.update_apply] <;> split_ifs <;> simp_all

theorem allocChannel_fingers_bend (st : Fretless_context) (f g : ℤ) :
    (((Fretless_allocChannel st f).1).fingers g).bend = (st.fingers g).bend := by
  unfold Fretless_allocChannel
  cases Fretless_allocLoop st 0 (allocFuel st) with
  | none => simp
  | some hit =>
    cases hit with
    | negFail c => simp
    | found c =>
      simp only [setLastAlloc_fingers, updChannel_fingers,
        apply_ite Fretless_context.fingers, addFail_fingers, updFinger_fingers]
      split_ifs <;> simp_all [Function.update_apply] <;> split_ifs <;> simp_all

theorem allocChannel_fingers_velocity (st : Fretless_context) (f g : ℤ) :
    (((Fretless_allocChannel st f).1).fingers g).velocity = (st.fingers g).velocity := by
  unfold Fretless_allocChannel
  cases Fretless_allocLoop st 0 (allocFuel st) with
  | none => simp
  | some hit =>
    cases hit with
    | negFail c => simp
    | found c =>
      simp only [setLastAlloc_fingers, updChannel_fingers,
        apply_ite Fretless_context.fingers, addFail_fingers, updFinger_fingers]
      split_ifs <;> simp_all [Function.update_apply] <;> split_ifs <;> simp_all

theorem allocChannel_fingers_polyGroup (st : Fretless_context) (f g : ℤ) :
    (((Fretless_allocChannel st f).1).fingers g).polyGroup = (st.fingers g).polyGroup := by
  unfold Fretless_allocChannel
  cases Fretless_allocLoop st 0 (allocFuel st) with
  | none => simp
  | some hit =>
    cases hit with
    | negFail c => simp
    | found c =>
      simp only [setLastAlloc_fingers, updChannel_fingers,
        apply_ite Fretless_context.fingers, addFail_fingers, updFinger_fingers]
      split_ifs <;> simp_all [Function.update_apply] <;> split_ifs <;> simp_all

theorem allocChannel_fingers_nextFingerInPolyGroup (st : Fretless_context) (f g : ℤ) :
    (((Fretless_allocChannel st f).1).fingers g).nextFingerInPolyGroup = (st.fingers g).nextFingerInPolyGroup := by
  unfold Fretless_allocChannel
  cases Fretless_allocLoop st 0 (allocFuel st) with
  | none => simp
  | some hit =>
    cases hit with
    | negFail c => simp
    | found c =>
      simp only [setLastAlloc_fingers, updChannel_fingers,
        apply_ite Fretless_context.fingers, addFail_fingers, updFinger_fingers]
      split_ifs <;> simp_all [Function.update_apply] <;> split_ifs <;> simp_all

theorem allocChannel_fingers_prevFingerInPolyGroup (st : Fretless_context) (f g : ℤ) :
    (((Fretless_allocChannel st f).1).fingers g).prevFingerInPolyGroup = (st.fingers g).prevFingerInPolyGroup := by
  unfold Fretless_allocChannel
  cases Fretless_allocLoop st 0 (allocFuel st) with
  | none => simp
  | some hit =>
    cases hit with
    | negFail c => simp
    | found c =>
      simp only [setLastAlloc_fingers, updChannel_fingers,
        apply_ite Fretless_context.fingers, addFail_fingers, updFinger_fingers]
      split_ifs <;> simp_all [Function.update_apply] <;> split_ifs <;> simp_all

theorem allocChannel_fingers_visitingPolyGroup (st : Fretless_context) (f g : ℤ) :
    (((Fretless_allocChannel st f).1).fingers g).visitingPolyGroup = (st.fingers g).visitingPolyGroup := by
  unfold Fretless_allocChannel
  cases Fretless_allocLoop st 0 (allocFuel st) with
  | none => simp
  | some hit =>
    cases hit with
    | negFail c => simp
    | found c =>
      simp only [setLastAlloc_fingers, updChannel_fingers,
        apply_ite Fretless_context.fingers, addFail_fingers, updFinger_fingers]
      split_ifs <;> simp_all [Function.update_apply] <;> split_ifs <;> simp_all

theorem allocChannel_polys (st : Fretless_context) (f : ℤ) :
    ((Fretless_allocChannel st f).1).polys = st.polys := by
  unfold Fretless_allocChannel
  cases Fretless_allocLoop st 0 (allocFuel st) with
  | none => simp
  | some hit =>
    cases hit with
    | negFail c => simp
    | found c =>
      simp only [setLastAlloc_polys, updChannel_polys,
        apply_ite Fretless_context.polys, addFail_polys, updFinger_polys]
      split_ifs <;> rfl

theorem allocChannel_ctxState (st : Fretless_context) (f : ℤ) :
    ((Fretless_allocChannel st f).1).ctxState = st.ctxState := by
  unfold Fretless_allocChannel
  cases Fretless_allocLoop st 0 (allocFuel st) with
  | none => simp
  | some hit =>
    cases hit with
    | negFail c => simp
    | found c =>
      simp only [setLastAlloc_ctxState, updChannel_ctxState,
        apply_ite Fretless_context.ctxState, addFail_ctxState, updFinger_ctxState]
      split_ifs <;> rfl

theorem allocChannel_fingersDownCount (st : Fretless_context) (f : ℤ) :
    ((Fretless_allocChannel st f).1).fingersDownCount = st.fingersDownCount := by
  unfold Fretless_allocChannel
  cases Fretless_allocLoop st 0 (allocFuel st) with
  | none => simp
  | some hit =>
    cases hit with
    | negFail c => simp
    | found c =>
      simp only [setLastAlloc_fingersDownCount, updChannel_fingersDownCount,
        apply_ite Fretless_context.fingersDownCount, addFail_fingersDownCount, updFinger_fingersDownCount]
      split_ifs <;> rfl

theorem allocChannel_noteChannelDownCount (st : Fretless_context) (f : ℤ) :
    ((Fretless_allocChannel st f).1).noteChannelDownCount = st.noteChannelDownCount := by
  unfold Fretless_allocChannel
  cases Fretless_allocLoop st 0 (allocFuel st) with
  | none => simp
  | some hit =>
    cases hit with
    | negFail c => simp
    | found c =>
      simp only [setLastAlloc_noteChannelDownCount, updChannel_noteChannelDownCount,
        apply_ite Fretless_context.noteChannelDownCount, addFail_noteChannelDownCount, updFinger_noteChannelDownCount]
      split_ifs <;> rfl

theorem allocChannel_noteChannelDownRawBalance (st : Fretless_context) (f : ℤ) :
    ((Fretless_allocChannel st f).1).noteChannelDownRawBalance = st.noteChannelDownRawBalance := by
  unfold Fretless_allocChannel
  cases Fretless_allocLoop st 0 (allocFuel st) with
  | none => simp
  | some hit =>
    cases hit with
    | negFail c => simp
    | found c =>
      simp only [setLastAlloc_noteChannelDownRawBalance, updChannel_noteChannelDownRawBalance,
        apply_ite Fretless_context.noteChannelDownRawBalance, addFail_noteChannelDownRawBalance, updFinger_noteChannelDownRawBalance]
      split_ifs <;> rfl

theorem allocChannel_channelBase (st : Fretless_context) (f : ℤ) :
    ((Fretless_allocChannel st f).1).channelBase = st.channelBase := by
  unfold Fretless_allocChannel
  cases Fretless_allocLoop st 0 (allocFuel st) with
  | none => simp
  | some hit =>
    cases hit with
    | negFail c => simp
    | found c =>
      simp only [setLastAlloc_channelBase, updChannel_channelBase,
        apply_ite Fretless_context.channelBase, addFail_channelBase, updFinger_channelBase]
      split_ifs <;> rfl

theorem allocChannel_channelSpan (st : Fretless_context) (f : ℤ) :
    ((Fretless_allocChannel st f).1).channelSpan = st.channelSpan := by
  unfold Fretless_allocChannel
  cases Fretless_allocLoop st 0 (allocFuel st) with
  | none => simp
  | some hit =>
    cases hit with
    | negFail c => simp
    | found c =>
      simp only [setLastAlloc_channelSpan, updChannel_channelSpan,
        apply_ite Fretless_context.channelSpan, addFail_channelSpan, updFinger_channelSpan]
      split_ifs <;> rfl

theorem allocChannel_channelBendSemis (st : Fretless_context) (f : ℤ) :
    ((Fretless_allocChannel st f).1).channelBendSemis = st.channelBendSemis := by
  unfold Fretless_allocChannel
  cases Fretless_allocLoop st 0 (allocFuel st) with
  | none => simp
  | some hit =>
    cases hit with
    | negFail c => simp
    | found c =>
      simp only [setLastAlloc_channelBendSemis, updChannel_channelBendSemis,
        apply_ite Fretless_context.channelBendSemis, addFail_channelBendSemis, updFinger_channelBendSemis]
      split_ifs <;> rfl

theorem allocChannel_supressBends (st : Fretless_context) (f : ℤ) :
    ((Fretless_allocChannel st f).1).supressBends = st.supressBends := by
  unfold Fretless_allocChannel
  cases Fretless_allocLoop st 0 (allocFuel st) with
  | none => simp
  | some hit =>
    cases hit with
    | negFail c => simp
    | found c =>
      simp only [setLastAlloc_supressBends, updChannel_supressBends,
        apply_ite Fretless_context.supressBends, addFail_supressBends, updFinger_supressBends]
      split_ifs <;> rfl

theorem allocChannel_emitted (st : Fretless_context) (f : ℤ) :
    ((Fretless_allocChannel st f).1).emitted = st.emitted := by
  unfold Fretless_allocChannel
  cases Fretless_allocLoop st 0 (allocFuel st) with
  | none => simp
  | some hit =>
    cases hit with
    | negFail c => simp
    | found c =>
      simp only [setLastAlloc_emitted, updChannel_emitted,
        apply_ite Fretless_context.emitted, addFail_emitted, updFinger_emitted]
      split_ifs <;> rfl

theorem allocChannel_flushes (st : Fretless_context) (f : ℤ) :
    ((Fretless_allocChannel st f).1).flushes = st.flushes := by
  unfold Fretless_allocChannel
  cases Fretless_allocLoop st 0 (allocFuel st) with
  | none => simp
  | some hit =>
    cases hit with
    | negFail c => simp
    | found c =>
      simp only [setLastAlloc_flushes, updChannel_flushes,
        apply_ite Fretless_context.flushes, addFail_flushes, updFinger_flushes]
      split_ifs <;> rfl

theorem allocChannel_passedCount (st : Fretless_context) (f : ℤ) :
    ((Fretless_allocChannel st f).1).passedCount = st.passedCount := by
  unfold Fretless_allocChannel
  cases Fretless_allocLoop st 0 (allocFuel st) with
  | none => simp
  | some hit =>
    cases hit with
    | negFail c => simp
    | found c =>
      simp only [setLastAlloc_passedCount, updChannel_passedCount,
        apply_ite Fretless_context.passedCount, addFail_passedCount, updFinger_passedCount]
      split_ifs <;> rfl

theorem allocChannel_logs (st : Fretless_context) (f : ℤ) :
    ((Fretless_allocChannel st f).1).logs = st.logs := by
  unfold Fretless_allocChannel
  cases Fretless_allocLoop st 0 (allocFuel st) with
  | none => simp
  | some hit =>
    cases hit with
    | negFail c => simp
    | found c =>
      simp only [setLastAlloc_logs, updChannel_logs,
        apply_ite Fretless_context.logs, addFail_logs, updFinger_logs]
      split_ifs <;> rfl

theorem allocChannel_channels_lastBend (st : Fretless_context) (f x : ℤ) :
    (((Fretless_allocChannel st f).1).channels x).lastBend = (st.channels x).lastBend := by
  unfold Fretless_allocChannel
  cases Fretless_allocLoop st 0 (allocFuel st) with
  | none => simp
  | some hit =>
    cases hit with
    | negFail c => simp
    | found c =>
      simp only [setLastAlloc_channels, updFinger_channels,
        apply_ite Fretless_context.channels, addFail_channels, updChannel_channels]
      split_ifs <;> simp_all [Function.update_apply] <;> split_ifs <;> simp_all

theorem allocChannel_channels_lastAftertouch (st : Fretless_context) (f x : ℤ) :
    (((Fretless_allocChannel st f).1).channels x).lastAftertouch = (st.channels x).lastAftertouch := by
  unfold Fretless_allocChannel
  cases Fretless_allocLoop st 0 (allocFuel st) with
  | none => simp
  | some hit =>
    cases hit with
    | negFail c => simp
    | found c =>
      simp only [setLastAlloc_channels, updFinger_channels,
        apply_ite Fretless_context.channels, addFail_channels, updChannel_channels]
      split_ifs <;> simp_all [Function.update_apply] <;> split_ifs <;> simp_all


/-! ## Where the allocator's channel comes from -/

theorem allocScan_found_mem (st : Fretless_context) (L : ℤ) :
    ∀ (l : List ℤ) (c : ℤ), Fretless_allocScan st L l = some (AllocHit.found c) →
      ∃ s ∈ l, c = allocScanChannel st s := by
  intro l
  induction l with
  | nil => intro c h; simp [Fretless_allocScan] at h
  | cons s rest ih =>
    intro c h
    simp only [Fretless_allocScan] at h
    split_ifs at h
    · simp at h
    · simp only [Option.some.injEq, AllocHit.found.injEq] at h
      exact ⟨s, by simp, h.symm⟩
    · obtain ⟨s', hs', hc⟩ := ih c h
      exact ⟨s', by simp [hs'], hc⟩

theorem allocLoop_found_mem (st : Fretless_context) :
    ∀ (fuel : ℕ) (L c : ℤ), Fretless_allocLoop st L fuel = some (AllocHit.found c) →
      ∃ s ∈ spanIdxList st, c = allocScanChannel st s := by
  intro fuel
  induction fuel with
  | zero => intro L c h; simp [Fretless_allocLoop] at h
  | succ n ih =>
    intro L c h
    simp only [Fretless_allocLoop] at h
    cases hs : Fretless_allocScan st L (spanIdxList st) with
    | none => rw [hs] at h; exact ih _ _ h
    | some hit =>
      rw [hs] at h
      cases hit with
      | negFail d => simp at h
      | found d =>
        simp only [Option.some.injEq, AllocHit.found.injEq] at h
        subst h
        exact allocScan_found_mem st L _ _ hs

theorem spanIdxList_nonneg (st : Fretless_context) (s : ℤ) (h : s ∈ spanIdxList st) : 0 ≤ s := by
  simp only [spanIdxList, intRange] at h
  obtain ⟨i, _, rfl⟩ := List.exists_of_mem_map h
  exact Int.ofNat_nonneg i

/-- Under in-range hints and a nonnegative `lastAllocatedChannel`, the channel
returned by `Fretless_allocChannel` lies in `[0, 16)` (the fail paths return
channel 0). -/
theorem allocChannel_snd_range (st : Fretless_context) (f : ℤ)
    (hlast : 0 ≤ st.lastAllocatedChannel) (hb : 0 ≤ st.channelBase)
    (hsp : 1 ≤ st.channelSpan) (hsum : st.channelBase + st.channelSpan ≤ 16) :
    0 ≤ (Fretless_allocChannel st f).2 ∧ (Fretless_allocChannel st f).2 < 16 := by
  unfold Fretless_allocChannel
  cases hl : Fretless_allocLoop st 0 (allocFuel st) with
  | none => simp
  | some hit =>
    cases hit with
    | negFail c => simp
    | found c =>
      obtain ⟨s, hs, rfl⟩ := allocLoop_found_mem st _ _ _ hl
      have := allocScanChannel_range st s (spanIdxList_nonneg st s hs) hlast hb hsp hsum
      simpa using this

/-- When the allocator succeeds, the allocated finger becomes the
`currentFingerInChannel` of the returned channel; on the fail paths it
returns `(addFail st, 0)` with no other state change. -/
theorem allocChannel_spec (st : Fretless_context) (f : ℤ) :
    Fretless_allocChannel st f = (addFail st, 0) ∨
    (((Fretless_allocChannel st f).1).channels ((Fretless_allocChannel st f).2)).currentFingerInChannel = f := by
  unfold Fretless_allocChannel
  cases Fretless_allocLoop st 0 (allocFuel st) with
  | none => exact Or.inl rfl
  | some hit =>
    cases hit with
    | negFail c => exact Or.inl rfl
    | found c =>
      right
      simp only [setLastAlloc_channels, updChannel_channels_apply, if_pos]

/-! ## Claim C8 groundwork: byte counting and the pitch mapper -/

theorem bendStatusCount_append (a b : List ℤ) :
    bendStatusCount (a ++ b) = bendStatusCount a + bendStatusCount b := by
  simp [bendStatusCount, List.countP_append]

theorem bendStatusCount_pair_zero (a b : ℤ) (ha : a < 0xE0) (hb : b < 0xE0) :
    bendStatusCount [a, b] = 0 := by
  have h1 : ¬ (MIDI_BEND ≤ a ∧ a < 0xF0) := by simp only [MIDI_BEND]; omega
  have h2 : ¬ (MIDI_BEND ≤ b ∧ b < 0xF0) := by simp only [MIDI_BEND]; omega
  simp [bendStatusCount, List.countP_cons, h1, h2]

theorem fnoteToNoteBendPair_eq (st : Fretless_context) (fnote : ℚ) :
    Fretless_fnoteToNoteBendPair st fnote =
      (cTrunc (qadd fnote (mkRat 1 2)),
       bendCandidate st fnote (cTrunc (qadd fnote (mkRat 1 2)))) := rfl

theorem fnoteBendFromExisting_eq (st : Fretless_context) (fnote : ℚ)
    (fs : Fretless_fingerState) :
    Fretless_fnoteBendFromExisting st fnote fs =
      if bendCandidate st fnote fs.note < 0 ∨ bendCandidate st fnote fs.note ≥ 2 * BENDCENTER
      then Fretless_fnoteToNoteBendPair st fnote
      else (fs.note, bendCandidate st fnote fs.note) := rfl

theorem bendCandidate_congr (st st' : Fretless_context) (fnote : ℚ) (note : ℤ)
    (h : st'.channelBendSemis = st.channelBendSemis) :
    bendCandidate st' fnote note = bendCandidate st fnote note := by
  simp [bendCandidate, h]

theorem fnoteToNoteBendPair_congr (st st' : Fretless_context) (fnote : ℚ)
    (h : st'.channelBendSemis = st.channelBendSemis) :
    Fretless_fnoteToNoteBendPair st' fnote = Fretless_fnoteToNoteBendPair st fnote := by
  rw [fnoteToNoteBendPair_eq, fnoteToNoteBendPair_eq, bendCandidate_congr st st' fnote _ h]

theorem fnoteBendFromExisting_congr (st st' : Fretless_context) (fnote : ℚ)
    (fs : Fretless_fingerState) (h : st'.channelBendSemis = st.channelBendSemis) :
    Fretless_fnoteBendFromExisting st' fnote fs = Fretless_fnoteBendFromExisting st fnote fs := by
  rw [fnoteBendFromExisting_eq, fnoteBendFromExisting_eq, bendCandidate_congr st st' fnote _ h,
    fnoteToNoteBendPair_congr st st' fnote h]

theorem fnoteBendFromExisting_stable (st st' : Fretless_context) (fnote : ℚ)
    (fs fs' : Fretless_fingerState)
    (hsem : st'.channelBendSemis = st.channelBendSemis)
    (hnote : fs'.note = (Fretless_fnoteBendFromExisting st fnote fs).1)
    (hbend : fs'.bend = (Fretless_fnoteBendFromExisting st fnote fs).2)
    (hdisp : (Fretless_fnoteBendFromExisting st fnote fs).1 = fs.note) :
    Fretless_fnoteBendFromExisting st' fnote fs' = (fs'.note, fs'.bend) := by
  by_cases h : bendCandidate st fnote fs.note < 0 ∨ bendCandidate st fnote fs.note ≥ 2 * BENDCENTER
  · simp only [fnoteBendFromExisting_eq, if_pos h, fnoteToNoteBendPair_eq] at hnote hbend hdisp
    have hfn : fs'.note = fs.note := hnote.trans hdisp
    rw [fnoteBendFromExisting_eq, bendCandidate_congr st st' fnote fs'.note hsem, hfn, if_pos h,
      fnoteToNoteBendPair_congr st st' fnote hsem, fnoteToNoteBendPair_eq, Prod.mk.injEq]
    exact ⟨hdisp, hbend.symm⟩
  · simp only [fnoteBendFromExisting_eq, if_neg h] at hnote hbend
    rw [fnoteBendFromExisting_eq, bendCandidate_congr st st' fnote fs'.note hsem, hnote, if_neg h,
      Prod.mk.injEq]
    exact ⟨rfl, hbend.symm⟩

theorem fnoteBendFromExisting_after_pair (st st' : Fretless_context) (fnote : ℚ)
    (fs' : Fretless_fingerState)
    (hsem : st'.channelBendSemis = st.channelBendSemis)
    (hnote : fs'.note = (Fretless_fnoteToNoteBendPair st fnote).1)
    (hbend : fs'.bend = (Fretless_fnoteToNoteBendPair st fnote).2) :
    Fretless_fnoteBendFromExisting st' fnote fs' = (fs'.note, fs'.bend) := by
  simp only [fnoteToNoteBendPair_eq] at hnote hbend
  have hc : bendCandidate st' fnote fs'.note = fs'.bend := by
    rw [bendCandidate_congr st st' fnote fs'.note hsem, hnote]
    exact hbend.symm
  rw [fnoteBendFromExisting_eq]
  by_cases h : bendCandidate st' fnote fs'.note < 0 ∨ bendCandidate st' fnote fs'.note ≥ 2 * BENDCENTER
  · rw [if_pos h, fnoteToNoteBendPair_congr st st' fnote hsem, fnoteToNoteBendPair_eq,
      Prod.mk.injEq]
    exact ⟨hnote.symm, hbend.symm⟩
  · rw [if_neg h, Prod.mk.injEq]
    exact ⟨rfl, hc⟩

theorem limitVal_bounds (v : ℤ) :
    1 ≤ Fretless_limitVal 1 v 127 ∧ Fretless_limitVal 1 v 127 ≤ 127 := by
  unfold Fretless_limitVal
  split_ifs <;> omega

theorem ite_addFail_fingers (p : Prop) [Decidable p] (st : Fretless_context) :
    (if p then addFail st else st).fingers = st.fingers := by
  split <;> rfl

theorem ite_addFail_channels (p : Prop) [Decidable p] (st : Fretless_context) :
    (if p then addFail st else st).channels = st.channels := by
  split <;> rfl

theorem ite_addFail_channelBendSemis (p : Prop) [Decidable p] (st : Fretless_context) :
    (if p then addFail st else st).channelBendSemis = st.channelBendSemis := by
  split <;> rfl

theorem ite_addFail_supressBends (p : Prop) [Decidable p] (st : Fretless_context) :
    (if p then addFail st else st).supressBends = st.supressBends := by
  split <;> rfl

theorem ite_addFail_emitted (p : Prop) [Decidable p] (st : Fretless_context) :
    (if p then addFail st else st).emitted = st.emitted := by
  split <;> rfl

theorem ite_addFail_channelBase (p : Prop) [Decidable p] (st : Fretless_context) :
    (if p then addFail st else st).channelBase = st.channelBase := by
  split <;> rfl

theorem ite_addFail_channelSpan (p : Prop) [Decidable p] (st : Fretless_context) :
    (if p then addFail st else st).channelSpan = st.channelSpan := by
  split <;> rfl

theorem ite_addFail_lastAllocatedChannel (p : Prop) [Decidable p] (st : Fretless_context) :
    (if p then addFail st else st).lastAllocatedChannel = st.lastAllocatedChannel := by
  split <;> rfl

theorem setCurrentBend_fingers (st : Fretless_context) (f : ℤ) :
    (Fretless_setCurrentBend st f).fingers = st.fingers := by
  simp only [Fretless_setCurrentBend]
  split <;> simp

theorem setCurrentBend_channelBendSemis (st : Fretless_context) (f : ℤ) :
    (Fretless_setCurrentBend st f).channelBendSemis = st.channelBendSemis := by
  simp only [Fretless_setCurrentBend]
  split <;> simp

theorem setCurrentBend_supressBends (st : Fretless_context) (f : ℤ) :
    (Fretless_setCurrentBend st f).supressBends = st.supressBends := by
  simp only [Fretless_setCurrentBend]
  split <;> simp

theorem setCurrentBend_post (st : Fretless_context) (f : ℤ) :
    bendGuardOff (Fretless_setCurrentBend st f) f := by
  simp only [bendGuardOff, Fretless_setCurrentBend]
  split
  case isTrue h => left; simp
  case isFalse h => tauto

theorem bendGuardOff_congr (a b : Fretless_context) (f : ℤ)
    (hf : b.fingers = a.fingers) (hc : b.channels = a.channels)
    (hs : b.supressBends = a.supressBends) (h : bendGuardOff a f) : bendGuardOff b f := by
  unfold bendGuardOff at *
  rw [hf, hc, hs]
  exact h

theorem bendGuardOff_of_fields (a b : Fretless_context) (f : ℤ)
    (h1 : (b.fingers f).channel = (a.fingers f).channel)
    (h2 : (b.fingers f).bend = (a.fingers f).bend)
    (h3 : (b.fingers f).isOn = (a.fingers f).isOn)
    (h4 : (b.channels ((a.fingers f).channel)).lastBend
        = (a.channels ((a.fingers f).channel)).lastBend)
    (h5 : (b.channels ((a.fingers f).channel)).currentFingerInChannel
        = (a.channels ((a.fingers f).channel)).currentFingerInChannel)
    (h6 : b.supressBends = a.supressBends)
    (h : bendGuardOff a f) : bendGuardOff b f := by
  unfold bendGuardOff at *
  rw [h1, h2, h3, h4, h5, h6]
  exact h

/-! ## Hint preservation through the `up` call tree

Every helper that does not branch preserves the four hint fields and
`lastAllocatedChannel` definitionally, so after resolving the branches each
goal closes by the input hypothesis; only `Fretless_bootReset` (which zeroes
`lastAllocatedChannel`) and the bend-semis setter (which rewrites
`channelBendSemis` with its argument) need one-step arguments, and the
self-test loops go by induction on their index lists. -/

theorem hintsSame_refl (a : Fretless_context) : hintsSame a a := ⟨rfl, rfl, rfl, rfl, id⟩

theorem hintsSame_ite (p : Prop) [Decidable p] {a b c : Fretless_context}
    (hb : hintsSame a b) (hc : hintsSame a c) : hintsSame a (if p then b else c) := by
  split <;> assumption

theorem hintsSame_ite_pairI {β : Type} (p : Prop) [Decidable p] {a : Fretless_context}
    {x y : Fretless_context × β} (hx : hintsSame a x.1) (hy : hintsSame a y.1) :
    hintsSame a (if p then x else y).1 := by
  split <;> assumption

theorem hintsSame_addFail {a b : Fretless_context} (h : hintsSame a b) :
    hintsSame a (addFail b) := h

theorem hintsSame_addPassed {a b : Fretless_context} (h : hintsSame a b) :
    hintsSame a (addPassed b) := h

theorem hintsSame_emitList {a b : Fretless_context} (bs : List ℤ) (h : hintsSame a b) :
    hintsSame a (emitList b bs) := h

theorem hintsSame_updFinger {a b : Fretless_context} (f g) (h : hintsSame a b) :
    hintsSame a (updFinger b f g) := h

theorem hintsSame_addDownCount {a b : Fretless_context} (n c d) (h : hintsSame a b) :
    hintsSame a (addDownCount b n c d) := h

theorem hintsSame_flush {a b : Fretless_context} (h : hintsSame a b) :
    hintsSame a (Fretless_flush b) := h

theorem hintsSame_setCtxStateBooted {a b : Fretless_context} (h : hintsSame a b) :
    hintsSame a (setCtxStateBooted b) := h

theorem hintsSame_bootReset {a b : Fretless_context} (h : hintsSame a b) :
    hintsSame a (Fretless_bootReset b) :=
  ⟨h.1, h.2.1, h.2.2.1, h.2.2.2.1, fun _ => le_refl 0⟩

theorem hintsSame_bootChecks {a b : Fretless_context} (h : hintsSame a b) :
    hintsSame a (Fretless_bootChecks b) := by
  simp only [Fretless_bootChecks]
  split_ifs <;> exact h

theorem hintsSame_rpnFold (a : Fretless_context) (semis : ℤ) :
    ∀ (l : List ℤ) (st : Fretless_context), hintsSame a st →
      hintsSame a (l.foldl (fun acc c => emitList acc (rpnBytes (acc.channelBase + c) semis)) st) := by
  intro l
  induction l with
  | nil => intro st h; exact h
  | cons x rest ih =>
    intro st h
    rw [List.foldl_cons]
    exact ih _ (hintsSame_emitList _ h)

theorem hintsSame_setSemisSame {a b : Fretless_context} (h : hintsSame a b) :
    hintsSame a (Fretless_setMidiHintChannelBendSemis b b.channelBendSemis) := by
  simp only [Fretless_setMidiHintChannelBendSemis]
  have h1 : hintsSame a (if b.channelBendSemis < 1 ∨ b.channelBendSemis > 24 then addFail b
      else b) := by
    split_ifs <;> exact h
  have h2 : hintsSame a (setBendSemisField
      (if b.channelBendSemis < 1 ∨ b.channelBendSemis > 24 then addFail b else b)
      b.channelBendSemis) :=
    ⟨h1.1, h1.2.1, h.2.2.1, h1.2.2.2.1, h1.2.2.2.2⟩
  exact hintsSame_ite _ (hintsSame_rpnFold a _ _ _ h2) h2

theorem hintsSame_boot {a b : Fretless_context} (h : hintsSame a b) :
    hintsSame a (Fretless_boot b) := by
  simp only [Fretless_boot]
  exact hintsSame_setSemisSame (hintsSame_setCtxStateBooted (hintsSame_bootChecks
    (hintsSame_bootReset h)))

theorem hintsSame_foldl_pair {β : Type} (a : Fretless_context)
    (g : Fretless_context × Bool → β → Fretless_context × Bool)
    (hg : ∀ (acc : Fretless_context × Bool) (x : β), hintsSame a acc.1 →
      hintsSame a (g acc x).1) :
    ∀ (l : List β) (acc : Fretless_context × Bool), hintsSame a acc.1 →
      hintsSame a (l.foldl g acc).1 := by
  intro l
  induction l with
  | nil => intro acc h; exact h
  | cons x rest ih =>
    intro acc h
    rw [List.foldl_cons]
    exact ih _ (hg _ _ h)

theorem hintsSame_foldl_state {β : Type} (a : Fretless_context)
    (g : Fretless_context → β → Fretless_context)
    (hg : ∀ (st : Fretless_context) (x : β), hintsSame a st → hintsSame a (g st x)) :
    ∀ (l : List β) (st : Fretless_context), hintsSame a st → hintsSame a (l.foldl g st) := by
  intro l
  induction l with
  | nil => intro st h; exact h
  | cons x rest ih =>
    intro st h
    rw [List.foldl_cons]
    exact ih _ (hg _ _ h)

theorem hintsSame_selfNoteLoop (a : Fretless_context) (c : ℤ) (l : List ℤ)
    (acc : Fretless_context × Bool) (h : hintsSame a acc.1) :
    hintsSame a (selfNoteLoop c acc l).1 := by
  simp only [selfNoteLoop]
  refine hintsSame_foldl_pair a _ ?_ l acc h
  intro acc x hx
  dsimp only
  split_ifs <;> exact hx

theorem hintsSame_selfChanLoop (a : Fretless_context) (l : List ℤ)
    (acc : Fretless_context × Bool) (h : hintsSame a acc.1) :
    hintsSame a (selfChanLoop acc l).1 := by
  simp only [selfChanLoop]
  refine hintsSame_foldl_pair a _ ?_ l acc h
  intro acc x hx
  dsimp only
  have h1 : hintsSame a
      (if (acc.1.channels x).useCount ≠ 0 then (addFail acc.1, false) else acc).1 :=
    hintsSame_ite_pairI _ (hintsSame_addFail hx) hx
  have h2 := hintsSame_selfNoteLoop a x (intRange 128) _ h1
  exact hintsSame_ite_pairI _ (hintsSame_addFail h2) h2

theorem hintsSame_selfPolyLoop (a : Fretless_context) (l : List ℤ)
    (acc : Fretless_context × Bool) (h : hintsSame a acc.1) :
    hintsSame a (selfPolyLoop acc l).1 := by
  simp only [selfPolyLoop]
  refine hintsSame_foldl_pair a _ ?_ l acc h
  intro acc x hx
  dsimp only
  split_ifs <;> exact hx

theorem hintsSame_selfFingerLoop (a : Fretless_context) (l : List ℤ)
    (acc : Fretless_context × Bool) (h : hintsSame a acc.1) :
    hintsSame a (selfFingerLoop acc l).1 := by
  simp only [selfFingerLoop]
  refine hintsSame_foldl_pair a _ ?_ l acc h
  intro acc x hx
  dsimp only
  split_ifs <;> exact hx

theorem hintsSame_recoveryChanLoop (a : Fretless_context) (n : ℤ) (l : List ℤ)
    (st : Fretless_context) (h : hintsSame a st) :
    hintsSame a (recoveryChanLoop n st l) := by
  simp only [recoveryChanLoop]
  refine hintsSame_foldl_state a _ ?_ l st h
  intro st x hx
  exact hintsSame_emitList _ hx

theorem hintsSame_recoveryNoteLoop (a : Fretless_context) (l : List ℤ)
    (st : Fretless_context) (h : hintsSame a st) :
    hintsSame a (recoveryNoteLoop st l) := by
  simp only [recoveryNoteLoop]
  refine hintsSame_foldl_state a _ ?_ l st h
  intro st x hx
  exact hintsSame_flush (hintsSame_recoveryChanLoop a x (intRange 16) st hx)

theorem hintsSame_selfTest {a b : Fretless_context} (h : hintsSame a b) :
    hintsSame a (Fretless_selfTest b) := by
  simp only [Fretless_selfTest]
  have h1 : hintsSame a ((if (b, true).1.fingersDownCount = 0 then
      selfFingerLoop (selfPolyLoop (selfChanLoop (b, true) (intRange 16)) (intRange 16))
        (intRange 16)
    else (b, true)).1) :=
    hintsSame_ite_pairI _
      (hintsSame_selfFingerLoop a _ _ (hintsSame_selfPolyLoop a _ _
        (hintsSame_selfChanLoop a _ _ h))) h
  refine hintsSame_ite _ (hintsSame_addPassed ?_)
    (hintsSame_boot (hintsSame_recoveryNoteLoop a _ _ ?_)) <;>
  · exact hintsSame_ite_pairI _ (hintsSame_addFail h1) h1

theorem hintsSame_unlink {a b : Fretless_context} (f) (h : hintsSame a b) :
    hintsSame a (Fretless_unlink b f).1 := by
  simp only [Fretless_unlink]
  split_ifs <;> exact h

theorem hintsSame_freeChannel {a b : Fretless_context} (f) (h : hintsSame a b) :
    hintsSame a (Fretless_freeChannel b f) := by
  simp only [Fretless_freeChannel]
  split_ifs <;> exact h

theorem hintsSame_upOffEmit {a b : Fretless_context} (f fws ftn lg) (h : hintsSame a b) :
    hintsSame a (Fretless_upOffEmit b f fws ftn lg) := by
  simp only [Fretless_upOffEmit, Fretless_noteTie]
  split_ifs <;> exact h

theorem hintsSame_upReveal {a b : Fretless_context} (f ftn ov) (h : hintsSame a b) :
    hintsSame a (Fretless_upReveal b f ftn ov) := by
  simp only [Fretless_upReveal, Fretless_setCurrentBend]
  split_ifs <;> exact h

theorem hintsSame_upFinish {a b : Fretless_context} (f) (h : hintsSame a b) :
    hintsSame a (Fretless_upFinish b f) := by
  simp only [Fretless_upFinish]
  refine hintsSame_ite _ (hintsSame_selfTest ?_) ?_ <;>
  · refine hintsSame_updFinger _ _ (hintsSame_freeChannel _ (hintsSame_updFinger _ _ ?_))
    split_ifs <;> exact h

theorem hintsSame_up {a b : Fretless_context} (f lg) (h : hintsSame a b) :
    hintsSame a (Fretless_up b f lg) := by
  simp only [Fretless_up, Fretless_upBody]
  have h0 : hintsSame a (if ((FINGERCHECK b f).fingers f).isOn = 0 then addFail (FINGERCHECK b f)
      else FINGERCHECK b f) := by
    simp only [FINGERCHECK]
    split_ifs <;> exact h
  exact hintsSame_upFinish _ (hintsSame_upReveal _ _ _ (hintsSame_upOffEmit _ _ _ _
    (hintsSame_addDownCount _ _ _ (hintsSame_unlink _ h0))))

/-! ## Stage projections of `Fretless_endDown` and the expression emitters -/

theorem preemptOff_fingers (st : Fretless_context) (f : ℤ) :
    (Fretless_endDownPreemptOff st f).fingers = st.fingers := by
  simp only [Fretless_endDownPreemptOff]
  split_ifs <;> rfl

theorem preemptOff_channels (st : Fretless_context) (f : ℤ) :
    (Fretless_endDownPreemptOff st f).channels = st.channels := by
  simp only [Fretless_endDownPreemptOff]
  split_ifs <;> rfl

theorem preemptOff_channelBendSemis (st : Fretless_context) (f : ℤ) :
    (Fretless_endDownPreemptOff st f).channelBendSemis = st.channelBendSemis := by
  simp only [Fretless_endDownPreemptOff]
  split_ifs <;> rfl

theorem preemptOff_supressBends (st : Fretless_context) (f : ℤ) :
    (Fretless_endDownPreemptOff st f).supressBends = st.supressBends := by
  simp only [Fretless_endDownPreemptOff]
  split_ifs <;> rfl

theorem turnOff_fingers (st : Fretless_context) (off lg : ℤ) :
    (Fretless_endDownTurnOff st off lg).fingers = st.fingers := by
  simp only [Fretless_endDownTurnOff, Fretless_noteTie]
  split_ifs <;> rfl

theorem turnOff_channels (st : Fretless_context) (off lg : ℤ) :
    (Fretless_endDownTurnOff st off lg).channels = st.channels := by
  simp only [Fretless_endDownTurnOff, Fretless_noteTie]
  split_ifs <;> rfl

theorem turnOff_channelBendSemis (st : Fretless_context) (off lg : ℤ) :
    (Fretless_endDownTurnOff st off lg).channelBendSemis = st.channelBendSemis := by
  simp only [Fretless_endDownTurnOff, Fretless_noteTie]
  split_ifs <;> rfl

theorem turnOff_supressBends (st : Fretless_context) (off lg : ℤ) :
    (Fretless_endDownTurnOff st off lg).supressBends = st.supressBends := by
  simp only [Fretless_endDownTurnOff, Fretless_noteTie]
  split_ifs <;> rfl

theorem emitOn_fingers (st : Fretless_context) (f : ℤ) :
    (Fretless_endDownEmitOn st f).fingers = st.fingers := by
  simp only [Fretless_endDownEmitOn]
  split_ifs <;> rfl

theorem emitOn_channels (st : Fretless_context) (f : ℤ) :
    (Fretless_endDownEmitOn st f).channels = st.channels := by
  simp only [Fretless_endDownEmitOn]
  split_ifs <;> rfl

theorem emitOn_channelBendSemis (st : Fretless_context) (f : ℤ) :
    (Fretless_endDownEmitOn st f).channelBendSemis = st.channelBendSemis := by
  simp only [Fretless_endDownEmitOn]
  split_ifs <;> rfl

theorem emitOn_supressBends (st : Fretless_context) (f : ℤ) :
    (Fretless_endDownEmitOn st f).supressBends = st.supressBends := by
  simp only [Fretless_endDownEmitOn]
  split_ifs <;> rfl

theorem updFinger_note_preserved (st : Fretless_context) (f : ℤ)
    (gf : Fretless_fingerState → Fretless_fingerState) (g : ℤ)
    (hg : ∀ fs, (gf fs).note = fs.note) :
    ((updFinger st f gf).fingers g).note = (st.fingers g).note := by
  simp only [updFinger_fingers_apply]
  split <;> simp_all [hg]

theorem updFinger_bend_preserved (st : Fretless_context) (f : ℤ)
    (gf : Fretless_fingerState → Fretless_fingerState) (g : ℤ)
    (hg : ∀ fs, (gf fs).bend = fs.bend) :
    ((updFinger st f gf).fingers g).bend = (st.fingers g).bend := by
  simp only [updFinger_fingers_apply]
  split <;> simp_all [hg]

theorem updFinger_channel_preserved (st : Fretless_context) (f : ℤ)
    (gf : Fretless_fingerState → Fretless_fingerState) (g : ℤ)
    (hg : ∀ fs, (gf fs).channel = fs.channel) :
    ((updFinger st f gf).fingers g).channel = (st.fingers g).channel := by
  simp only [updFinger_fingers_apply]
  split <;> simp_all [hg]

theorem updFinger_isOn_preserved (st : Fretless_context) (f : ℤ)
    (gf : Fretless_fingerState → Fretless_fingerState) (g : ℤ)
    (hg : ∀ fs, (gf fs).isOn = fs.isOn) :
    ((updFinger st f gf).fingers g).isOn = (st.fingers g).isOn := by
  simp only [updFinger_fingers_apply]
  split <;> simp_all [hg]

theorem updChannel_lastBend_preserved (st : Fretless_context) (c : ℤ)
    (gc : Fretless_channelState → Fretless_channelState) (x : ℤ)
    (hg : ∀ ch, (gc ch).lastBend = ch.lastBend) :
    ((updChannel st c gc).channels x).lastBend = (st.channels x).lastBend := by
  simp only [updChannel_channels_apply]
  split <;> simp_all [hg]

theorem updChannel_current_preserved (st : Fretless_context) (c : ℤ)
    (gc : Fretless_channelState → Fretless_channelState) (x : ℤ)
    (hg : ∀ ch, (gc ch).currentFingerInChannel = ch.currentFingerInChannel) :
    ((updChannel st c gc).channels x).currentFingerInChannel
      = (st.channels x).currentFingerInChannel := by
  simp only [updChannel_channels_apply]
  split <;> simp_all [hg]

theorem link_fingers_note (st : Fretless_context) (f g : ℤ) :
    (((Fretless_link st f).1).fingers g).note = (st.fingers g).note := by
  simp only [Fretless_link]
  split_ifs <;>
  · simp only [updPoly_fingers]
    repeat rw [updFinger_note_preserved]
    all_goals intro fs
    all_goals rfl

theorem link_fingers_bend (st : Fretless_context) (f g : ℤ) :
    (((Fretless_link st f).1).fingers g).bend = (st.fingers g).bend := by
  simp only [Fretless_link]
  split_ifs <;>
  · simp only [updPoly_fingers]
    repeat rw [updFinger_bend_preserved]
    all_goals intro fs
    all_goals rfl

theorem link_fingers_channel (st : Fretless_context) (f g : ℤ) :
    (((Fretless_link st f).1).fingers g).channel = (st.fingers g).channel := by
  simp only [Fretless_link]
  split_ifs <;>
  · simp only [updPoly_fingers]
    repeat rw [updFinger_channel_preserved]
    all_goals intro fs
    all_goals rfl

theorem link_channels (st : Fretless_context) (f : ℤ) :
    ((Fretless_link st f).1).channels = st.channels := by
  simp only [Fretless_link]
  split_ifs <;> rfl

theorem link_channelBendSemis (st : Fretless_context) (f : ℤ) :
    ((Fretless_link st f).1).channelBendSemis = st.channelBendSemis := by
  simp only [Fretless_link]
  split_ifs <;> rfl

theorem link_supressBends (st : Fretless_context) (f : ℤ) :
    ((Fretless_link st f).1).supressBends = st.supressBends := by
  simp only [Fretless_link]
  split_ifs <;> rfl

theorem aftertouch_fingers_note (st : Fretless_context) (f : ℤ) (v : ℚ) (g : ℤ) :
    ((Fretless_setCurrentAftertouch st f v).fingers g).note = (st.fingers g).note := by
  simp only [Fretless_setCurrentAftertouch]
  split_ifs with hg
  · simp only [updChannel_fingers, emitList_fingers]
    rw [updFinger_note_preserved]
    intro fs
    rfl
  · rw [updFinger_note_preserved]
    intro fs
    rfl

theorem aftertouch_fingers_bend (st : Fretless_context) (f : ℤ) (v : ℚ) (g : ℤ) :
    ((Fretless_setCurrentAftertouch st f v).fingers g).bend = (st.fingers g).bend := by
  simp only [Fretless_setCurrentAftertouch]
  split_ifs with hg
  · simp only [updChannel_fingers, emitList_fingers]
    rw [updFinger_bend_preserved]
    intro fs
    rfl
  · rw [updFinger_bend_preserved]
    intro fs
    rfl

theorem aftertouch_fingers_channel (st : Fretless_context) (f : ℤ) (v : ℚ) (g : ℤ) :
    ((Fretless_setCurrentAftertouch st f v).fingers g).channel = (st.fingers g).channel := by
  simp only [Fretless_setCurrentAftertouch]
  split_ifs with hg
  · simp only [updChannel_fingers, emitList_fingers]
    rw [updFinger_channel_preserved]
    intro fs
    rfl
  · rw [updFinger_channel_preserved]
    intro fs
    rfl

theorem aftertouch_fingers_isOn (st : Fretless_context) (f : ℤ) (v : ℚ) (g : ℤ) :
    ((Fretless_setCurrentAftertouch st f v).fingers g).isOn = (st.fingers g).isOn := by
  simp only [Fretless_setCurrentAftertouch]
  split_ifs with hg
  · simp only [updChannel_fingers, emitList_fingers]
    rw [updFinger_isOn_preserved]
    intro fs
    rfl
  · rw [updFinger_isOn_preserved]
    intro fs
    rfl

theorem aftertouch_channels_lastBend (st : Fretless_context) (f : ℤ) (v : ℚ) (x : ℤ) :
    ((Fretless_setCurrentAftertouch st f v).channels x).lastBend = (st.channels x).lastBend := by
  simp only [Fretless_setCurrentAftertouch]
  split_ifs with hg
  · simp only [emitList_channels]
    rw [updChannel_lastBend_preserved]
    · simp only [updFinger_channels]
    · intro ch
      rfl
  · simp only [updFinger_channels]

theorem aftertouch_channels_current (st : Fretless_context) (f : ℤ) (v : ℚ) (x : ℤ) :
    ((Fretless_setCurrentAftertouch st f v).channels x).currentFingerInChannel
      = (st.channels x).currentFingerInChannel := by
  simp only [Fretless_setCurrentAftertouch]
  split_ifs with hg
  · simp only [emitList_channels]
    rw [updChannel_current_preserved]
    · simp only [updFinger_channels]
    · intro ch
      rfl
  · simp only [updFinger_channels]

theorem aftertouch_channelBendSemis (st : Fretless_context) (f : ℤ) (v : ℚ) :
    (Fretless_setCurrentAftertouch st f v).channelBendSemis = st.channelBendSemis := by
  simp only [Fretless_setCurrentAftertouch]
  split_ifs <;> rfl

theorem aftertouch_supressBends (st : Fretless_context) (f : ℤ) (v : ℚ) :
    (Fretless_setCurrentAftertouch st f v).supressBends = st.supressBends := by
  simp only [Fretless_setCurrentAftertouch]
  split_ifs <;> rfl

theorem aftertouch_bendCount (st : Fretless_context) (f : ℤ) (v : ℚ)
    (h0 : 0 ≤ (st.fingers f).channel) (h1 : (st.fingers f).channel < 16) :
    bendStatusCount ((Fretless_setCurrentAftertouch st f v).emitted)
      = bendStatusCount st.emitted := by
  simp only [Fretless_setCurrentAftertouch]
  split_ifs with hg
  · simp only [emitList_emitted, updChannel_emitted, updFinger_emitted, updFinger_fingers_apply,
      bendStatusCount_append]
    rw [bendStatusCount_pair_zero]
    · omega
    · simp
      omega
    · simp
      have := limitVal_bounds (cTrunc (qmul v 127))
      omega
  · simp

theorem endDownSetup_fingers_note (st : Fretless_context) (f : ℤ) (fnote : ℚ) (pg : ℤ) (v : ℚ) :
    ((Fretless_endDownSetup st f fnote pg v).fingers f).note
      = (Fretless_fnoteToNoteBendPair st fnote).1 := by
  simp [Fretless_endDownSetup, fnoteToNoteBendPair_eq, bendCandidate, ite_addFail_channelBendSemis]

theorem endDownSetup_fingers_bend (st : Fretless_context) (f : ℤ) (fnote : ℚ) (pg : ℤ) (v : ℚ) :
    ((Fretless_endDownSetup st f fnote pg v).fingers f).bend
      = (Fretless_fnoteToNoteBendPair st fnote).2 := by
  simp [Fretless_endDownSetup, fnoteToNoteBendPair_eq, bendCandidate, ite_addFail_channelBendSemis]

theorem endDownSetup_fingers_channel (st : Fretless_context) (f : ℤ) (fnote : ℚ) (pg : ℤ)
    (v : ℚ) :
    ((Fretless_endDownSetup st f fnote pg v).fingers f).channel = (st.fingers f).channel := by
  simp [Fretless_endDownSetup, Function.update_apply, ite_addFail_fingers]

theorem endDownSetup_channels (st : Fretless_context) (f : ℤ) (fnote : ℚ) (pg : ℤ) (v : ℚ) :
    (Fretless_endDownSetup st f fnote pg v).channels = st.channels := by
  simp only [Fretless_endDownSetup]
  split_ifs <;> rfl

theorem endDownSetup_channelBendSemis (st : Fretless_context) (f : ℤ) (fnote : ℚ) (pg : ℤ)
    (v : ℚ) :
    (Fretless_endDownSetup st f fnote pg v).channelBendSemis = st.channelBendSemis := by
  simp only [Fretless_endDownSetup]
  split_ifs <;> rfl

theorem endDownSetup_supressBends (st : Fretless_context) (f : ℤ) (fnote : ℚ) (pg : ℤ) (v : ℚ) :
    (Fretless_endDownSetup st f fnote pg v).supressBends = st.supressBends := by
  simp only [Fretless_endDownSetup]
  split_ifs <;> rfl

/-! ## Post-state of `Fretless_endDown`, `Fretless_beginDown` and `Fretless_move` -/

theorem hintsSame_noteTie {a b : Fretless_context} (fs) (h : hintsSame a b) :
    hintsSame a (Fretless_noteTie b fs) := h

theorem endDown_post (st : Fretless_context) (f : ℤ) (fnote : ℚ) (pg : ℤ) (v : ℚ) (lg : ℤ) :
    ((Fretless_endDown st f fnote pg v lg).fingers f).note
        = (Fretless_fnoteToNoteBendPair st fnote).1 ∧
    ((Fretless_endDown st f fnote pg v lg).fingers f).bend
        = (Fretless_fnoteToNoteBendPair st fnote).2 ∧
    ((Fretless_endDown st f fnote pg v lg).fingers f).channel = (st.fingers f).channel ∧
    (Fretless_endDown st f fnote pg v lg).channelBendSemis = st.channelBendSemis ∧
    bendGuardOff (Fretless_endDown st f fnote pg v lg) f := by
  refine ⟨?_, ?_, ?_, ?_, ?_⟩
  · simp only [Fretless_endDown, Fretless_endDownBody, emitOn_fingers, turnOff_fingers,
      ite_addFail_fingers, setCurrentBend_fingers, link_fingers_note, preemptOff_fingers,
      endDownSetup_fingers_note]
    rw [fnoteToNoteBendPair_congr st
      (FNOTECHECK (POLYCHECK (FINGERCHECK (STATECHECK st) f) pg) fnote) fnote (by simp)]
  · simp only [Fretless_endDown, Fretless_endDownBody, emitOn_fingers, turnOff_fingers,
      ite_addFail_fingers, setCurrentBend_fingers, link_fingers_bend, preemptOff_fingers,
      endDownSetup_fingers_bend]
    rw [fnoteToNoteBendPair_congr st
      (FNOTECHECK (POLYCHECK (FINGERCHECK (STATECHECK st) f) pg) fnote) fnote (by simp)]
  · simp only [Fretless_endDown, Fretless_endDownBody, emitOn_fingers, turnOff_fingers,
      ite_addFail_fingers, setCurrentBend_fingers, link_fingers_channel, preemptOff_fingers,
      endDownSetup_fingers_channel]
    simp
  · simp only [Fretless_endDown, Fretless_endDownBody, emitOn_channelBendSemis,
      turnOff_channelBendSemis, ite_addFail_channelBendSemis, setCurrentBend_channelBendSemis,
      link_channelBendSemis, preemptOff_channelBendSemis, endDownSetup_channelBendSemis]
    simp
  · simp only [Fretless_endDown, Fretless_endDownBody]
    refine bendGuardOff_congr
      (Fretless_setCurrentBend ((Fretless_link (Fretless_endDownPreemptOff
        (Fretless_endDownSetup (FNOTECHECK (POLYCHECK (FINGERCHECK (STATECHECK st) f) pg)
          fnote) f fnote pg v) f) f).1) f)
      _ f ?_ ?_ ?_ (setCurrentBend_post _ f)
    · simp only [emitOn_fingers, turnOff_fingers, ite_addFail_fingers]
    · simp only [emitOn_channels, turnOff_channels, ite_addFail_channels]
    · simp only [emitOn_supressBends, turnOff_supressBends, ite_addFail_supressBends]

theorem beginDownBody_channel_range (st : Fretless_context) (f : ℤ)
    (hlast : 0 ≤ st.lastAllocatedChannel) (hb : 0 ≤ st.channelBase)
    (hsp : 1 ≤ st.channelSpan) (hsum : st.channelBase + st.channelSpan ≤ 16) :
    0 ≤ ((Fretless_beginDownBody st f).fingers f).channel ∧
      ((Fretless_beginDownBody st f).fingers f).channel < 16 := by
  simp only [Fretless_beginDownBody]
  have hr := allocChannel_snd_range
    (updFinger (if (st.fingers f).isOn = 1 then addFail st else st) f
      (fun fs => { fs with isOn := 1 })) f
    (by simpa [ite_addFail_lastAllocatedChannel] using hlast)
    (by simpa [ite_addFail_channelBase] using hb)
    (by simpa [ite_addFail_channelSpan] using hsp)
    (by simpa [ite_addFail_channelBase, ite_addFail_channelSpan] using hsum)
  simp only [updFinger_fingers_apply]
  simpa using hr

theorem beginDown_channel_range (st : Fretless_context) (f : ℤ)
    (hlast : 0 ≤ st.lastAllocatedChannel) (hb : 0 ≤ st.channelBase)
    (hsp : 1 ≤ st.channelSpan) (hsum : st.channelBase + st.channelSpan ≤ 16) :
    0 ≤ ((Fretless_beginDown st f).fingers f).channel ∧
      ((Fretless_beginDown st f).fingers f).channel < 16 := by
  simp only [Fretless_beginDown]
  exact beginDownBody_channel_range _ f (by simpa using hlast) (by simpa using hb)
    (by simpa using hsp) (by simpa using hsum)

theorem beginDown_channelBendSemis (st : Fretless_context) (f : ℤ) :
    (Fretless_beginDown st f).channelBendSemis = st.channelBendSemis := by
  simp [Fretless_beginDown, Fretless_beginDownBody, allocChannel_channelBendSemis,
    ite_addFail_channelBendSemis]

theorem moveA_post (s1 s2 : Fretless_context) (f : ℤ) (fnote v : ℚ) (R : Fretless_context)
    (hR : R = Fretless_setCurrentBend (Fretless_setCurrentAftertouch (updFinger s2 f
      (fun fs => { fs with
        bend := (Fretless_fnoteBendFromExisting s1 fnote (s1.fingers f)).2 })) f v) f)
    (hnote2 : (s2.fingers f).note = (s1.fingers f).note)
    (hsem2 : s2.channelBendSemis = s1.channelBendSemis)
    (hd : (Fretless_fnoteBendFromExisting s1 fnote (s1.fingers f)).1 = (s2.fingers f).note)
    (hc0 : 0 ≤ (s2.fingers f).channel) (hc1 : (s2.fingers f).channel < 16) :
    Fretless_fnoteBendFromExisting R fnote (R.fingers f)
        = ((R.fingers f).note, (R.fingers f).bend) ∧
    bendGuardOff R f ∧
    0 ≤ (R.fingers f).channel ∧ (R.fingers f).channel < 16 := by
  subst hR
  have hsem : (Fretless_setCurrentBend (Fretless_setCurrentAftertouch (updFinger s2 f
      (fun fs => { fs with
        bend := (Fretless_fnoteBendFromExisting s1 fnote (s1.fingers f)).2 })) f v)
      f).channelBendSemis = s1.channelBendSemis := by
    rw [setCurrentBend_channelBendSemis, aftertouch_channelBendSemis,
      updFinger_channelBendSemis, hsem2]
  have hnote : ((Fretless_setCurrentBend (Fretless_setCurrentAftertouch (updFinger s2 f
      (fun fs => { fs with
        bend := (Fretless_fnoteBendFromExisting s1 fnote (s1.fingers f)).2 })) f v)
      f).fingers f).note = (Fretless_fnoteBendFromExisting s1 fnote (s1.fingers f)).1 := by
    rw [setCurrentBend_fingers, aftertouch_fingers_note, updFinger_note_preserved]
    · exact hd.symm
    · intro fs
      rfl
  have hbend : ((Fretless_setCurrentBend (Fretless_setCurrentAftertouch (updFinger s2 f
      (fun fs => { fs with
        bend := (Fretless_fnoteBendFromExisting s1 fnote (s1.fingers f)).2 })) f v)
      f).fingers f).bend = (Fretless_fnoteBendFromExisting s1 fnote (s1.fingers f)).2 := by
    rw [setCurrentBend_fingers, aftertouch_fingers_bend]
    simp
  have hch : ((Fretless_setCurrentBend (Fretless_setCurrentAftertouch (updFinger s2 f
      (fun fs => { fs with
        bend := (Fretless_fnoteBendFromExisting s1 fnote (s1.fingers f)).2 })) f v)
      f).fingers f).channel = (s2.fingers f).channel := by
    rw [setCurrentBend_fingers, aftertouch_fingers_channel, updFinger_channel_preserved]
    intro fs
    rfl
  refine ⟨?_, setCurrentBend_post _ f, ?_, ?_⟩
  · exact fnoteBendFromExisting_stable s1 _ fnote (s1.fingers f) _ hsem hnote hbend
      (hd.trans hnote2)
  · rw [hch]
    exact hc0
  · rw [hch]
    exact hc1

theorem moveB_post (st2 s4 : Fretless_context) (f : ℤ) (fnote v : ℚ) (epg : ℤ)
    (R : Fretless_context)
    (hR : R = Fretless_endDown (Fretless_beginDown s4 f) f fnote epg v 1)
    (hs4 : hintsSame st2 s4)
    (hBase : 0 ≤ st2.channelBase) (hSpan : 1 ≤ st2.channelSpan)
    (hBS : st2.channelBase + st2.channelSpan ≤ 16)
    (hLast : 0 ≤ st2.lastAllocatedChannel) :
    Fretless_fnoteBendFromExisting R fnote (R.fingers f)
        = ((R.fingers f).note, (R.fingers f).bend) ∧
    bendGuardOff R f ∧
    0 ≤ (R.fingers f).channel ∧ (R.fingers f).channel < 16 := by
  subst hR
  have hb4 : 0 ≤ s4.channelBase := by rw [hs4.1]; exact hBase
  have hsp4 : 1 ≤ s4.channelSpan := by rw [hs4.2.1]; exact hSpan
  have hsum4 : s4.channelBase + s4.channelSpan ≤ 16 := by rw [hs4.1, hs4.2.1]; exact hBS
  have hl4 : 0 ≤ s4.lastAllocatedChannel := hs4.2.2.2.2 hLast
  have hrange := beginDown_channel_range s4 f hl4 hb4 hsp4 hsum4
  obtain ⟨hN, hB, hC, hS, hG⟩ := endDown_post (Fretless_beginDown s4 f) f fnote epg v 1
  refine ⟨?_, hG, ?_, ?_⟩
  · exact fnoteBendFromExisting_after_pair (Fretless_beginDown s4 f) _ fnote _ hS hN hB
  · rw [hC]
    exact hrange.1
  · rw [hC]
    exact hrange.2

/-! ## The two consecutive `move` calls of claim C8 -/

theorem ite_visiting_note (p : Prop) [Decidable p] (st : Fretless_context) (f pgv : ℤ) :
    (((if p then updFinger st f (fun fs => { fs with visitingPolyGroup := pgv })
      else st).fingers f).note) = (st.fingers f).note := by
  split
  · rw [updFinger_note_preserved]
    intro fs
    rfl
  · rfl

theorem ite_visiting_bend (p : Prop) [Decidable p] (st : Fretless_context) (f pgv : ℤ) :
    (((if p then updFinger st f (fun fs => { fs with visitingPolyGroup := pgv })
      else st).fingers f).bend) = (st.fingers f).bend := by
  split
  · rw [updFinger_bend_preserved]
    intro fs
    rfl
  · rfl

theorem ite_visiting_channel (p : Prop) [Decidable p] (st : Fretless_context) (f pgv : ℤ) :
    (((if p then updFinger st f (fun fs => { fs with visitingPolyGroup := pgv })
      else st).fingers f).channel) = (st.fingers f).channel := by
  split
  · rw [updFinger_channel_preserved]
    intro fs
    rfl
  · rfl

theorem ite_visiting_isOn (p : Prop) [Decidable p] (st : Fretless_context) (f pgv : ℤ) :
    (((if p then updFinger st f (fun fs => { fs with visitingPolyGroup := pgv })
      else st).fingers f).isOn) = (st.fingers f).isOn := by
  split
  · rw [updFinger_isOn_preserved]
    intro fs
    rfl
  · rfl

theorem ite_visiting_channels (p : Prop) [Decidable p] (st : Fretless_context) (f pgv : ℤ) :
    ((if p then updFinger st f (fun fs => { fs with visitingPolyGroup := pgv })
      else st).channels) = st.channels := by
  split <;> rfl

theorem ite_visiting_supressBends (p : Prop) [Decidable p] (st : Fretless_context) (f pgv : ℤ) :
    ((if p then updFinger st f (fun fs => { fs with visitingPolyGroup := pgv })
      else st).supressBends) = st.supressBends := by
  split <;> rfl

theorem ite_visiting_emitted (p : Prop) [Decidable p] (st : Fretless_context) (f pgv : ℤ) :
    ((if p then updFinger st f (fun fs => { fs with visitingPolyGroup := pgv })
      else st).emitted) = st.emitted := by
  split <;> rfl

theorem hintsSame_FINGERCHECK {a b : Fretless_context} (f) (h : hintsSame a b) :
    hintsSame a (FINGERCHECK b f) := by
  simp only [FINGERCHECK]
  split_ifs <;> exact h

theorem hintsSame_FNOTECHECK {a b : Fretless_context} (fnote) (h : hintsSame a b) :
    hintsSame a (FNOTECHECK b fnote) := by
  simp only [FNOTECHECK]
  split_ifs <;> exact h

theorem moveA_bendCount (s2 : Fretless_context) (f : ℤ) (v : ℚ) (b : ℤ)
    (hc0 : 0 ≤ (s2.fingers f).channel) (hc1 : (s2.fingers f).channel < 16)
    (hg : (s2.channels ((s2.fingers f).channel)).lastBend = b ∨
          (s2.channels ((s2.fingers f).channel)).currentFingerInChannel ≠ f ∨
          (s2.fingers f).isOn = 0 ∨ s2.supressBends ≠ 0) :
    bendStatusCount ((Fretless_setCurrentBend (Fretless_setCurrentAftertouch
      (updFinger s2 f (fun fs => { fs with bend := b })) f v) f).emitted)
      = bendStatusCount s2.emitted := by
  set A := Fretless_setCurrentAftertouch (updFinger s2 f (fun fs => { fs with bend := b })) f v
    with hA
  have hch : (A.fingers f).channel = (s2.fingers f).channel := by
    rw [hA, aftertouch_fingers_channel, updFinger_channel_preserved]
    intro fs
    rfl
  have hbend : (A.fingers f).bend = b := by
    rw [hA, aftertouch_fingers_bend]
    simp
  have hion : (A.fingers f).isOn = (s2.fingers f).isOn := by
    rw [hA, aftertouch_fingers_isOn, updFinger_isOn_preserved]
    intro fs
    rfl
  have hlb : (A.channels ((A.fingers f).channel)).lastBend
      = (s2.channels ((s2.fingers f).channel)).lastBend := by
    rw [hch, hA, aftertouch_channels_lastBend]
    simp
  have hcur : (A.channels ((A.fingers f).channel)).currentFingerInChannel
      = (s2.channels ((s2.fingers f).channel)).currentFingerInChannel := by
    rw [hch, hA, aftertouch_channels_current]
    simp
  have hsup : A.supressBends = s2.supressBends := by
    rw [hA, aftertouch_supressBends]
    simp
  have hguard : ¬ ((A.channels ((A.fingers f).channel)).lastBend ≠ (A.fingers f).bend ∧
      (A.channels ((A.fingers f).channel)).currentFingerInChannel = f ∧
      (A.fingers f).isOn ≠ 0 ∧ A.supressBends = 0) := by
    rintro ⟨g1, g2, g3, g4⟩
    rw [hlb, hbend] at g1
    rw [hcur] at g2
    rw [hion] at g3
    rw [hsup] at g4
    rcases hg with h | h | h | h
    · exact g1 h
    · exact h g2
    · exact g3 h
    · exact h g4
  have hnofire : Fretless_setCurrentBend A f = A := by
    simp only [Fretless_setCurrentBend]
    rw [if_neg hguard]
  rw [hnofire, hA, aftertouch_bendCount]
  · simp
  · simpa using hc0
  · simpa using hc1

theorem move_post (st : Fretless_context) (f : ℤ) (fnote v : ℚ) (pg : ℤ)
    (hCh0 : 0 ≤ (st.fingers f).channel) (hCh1 : (st.fingers f).channel < 16)
    (hBase : 0 ≤ st.channelBase) (hSpan : 1 ≤ st.channelSpan)
    (hBS : st.channelBase + st.channelSpan ≤ 16)
    (hLast : 0 ≤ st.lastAllocatedChannel) :
    Fretless_fnoteBendFromExisting (Fretless_move st f fnote v pg).2 fnote
        ((Fretless_move st f fnote v pg).2.fingers f)
      = (((Fretless_move st f fnote v pg).2.fingers f).note,
        ((Fretless_move st f fnote v pg).2.fingers f).bend) ∧
    bendGuardOff (Fretless_move st f fnote v pg).2 f ∧
    0 ≤ ((Fretless_move st f fnote v pg).2.fingers f).channel ∧
    ((Fretless_move st f fnote v pg).2.fingers f).channel < 16 := by
  simp only [Fretless_move, Fretless_moveBody]
  split_ifs <;>
    first
      | (refine moveA_post _ _ f fnote v _ rfl ?_ ?_ ?_ ?_ ?_
         · first
             | rfl
             | (rw [updFinger_note_preserved]
                intro fs
                rfl)
         · first
             | rfl
             | simp
         · assumption
         · simpa using hCh0
         · simpa using hCh1)
      | (refine moveB_post st _ f fnote v _ _ rfl ?_ hBase hSpan hBS hLast
         first
           | exact hintsSame_up _ _ (hintsSame_noteTie _ (hintsSame_updFinger _ _
               (hintsSame_addFail (hintsSame_FNOTECHECK _ (hintsSame_FINGERCHECK _
                 (hintsSame_refl st))))))
           | exact hintsSame_up _ _ (hintsSame_noteTie _ (hintsSame_updFinger _ _
               (hintsSame_FNOTECHECK _ (hintsSame_FINGERCHECK _ (hintsSame_refl st)))))
           | exact hintsSame_up _ _ (hintsSame_noteTie _ (hintsSame_addFail
               (hintsSame_FNOTECHECK _ (hintsSame_FINGERCHECK _ (hintsSame_refl st)))))
           | exact hintsSame_up _ _ (hintsSame_noteTie _ (hintsSame_FNOTECHECK _
               (hintsSame_FINGERCHECK _ (hintsSame_refl st)))))

/-! ## Claim C8 — bend monotonicity of consecutive moves -/

/-- C8.  For an on finger `f` that is the `currentFingerInChannel` of its
channel, two consecutive `Fretless_move` calls with the same `fnote` and the
same `velocity` (the visited poly groups may even differ) emit zero
pitch-bend status bytes on the second call: whatever the first call did —
a plain bend update or a bend-saturation re-voice through
`up`/`beginDown`/`endDown` (possibly passing through the self test's
recovery re-boot) — it leaves the finger's stored `note`/`bend` as the exact
fixed point of the bend computation and the channel's `lastBend` equal to
the finger's `bend` (or the `setCurrentBend` guard otherwise off), so the
second call takes the bend-only path and its `setCurrentBend` does not fire.
The state hypotheses are the in-range hints and the nonnegative
`lastAllocatedChannel` that every booted context satisfies. -/
theorem claim_C8 (st : Fretless_context) (f : ℤ) (fnote velocity : ℚ) (pg1 pg2 : ℤ)
    (hOn : (st.fingers f).isOn = 1)
    (hCur : (st.channels ((st.fingers f).channel)).currentFingerInChannel = f)
    (hCh0 : 0 ≤ (st.fingers f).channel) (hCh1 : (st.fingers f).channel < 16)
    (hBase : 0 ≤ st.channelBase) (hSpan : 1 ≤ st.channelSpan)
    (hBS : st.channelBase + st.channelSpan ≤ 16)
    (hLast : 0 ≤ st.lastAllocatedChannel) :
    bendStatusCount ((Fretless_move (Fretless_move st f fnote velocity pg1).2
        f fnote velocity pg2).2.emitted)
      = bendStatusCount ((Fretless_move st f fnote velocity pg1).2.emitted) := by
  obtain ⟨c1, c2, c3, c4⟩ := move_post st f fnote velocity pg1 hCh0 hCh1 hBase hSpan hBS hLast
  set st1 := (Fretless_move st f fnote velocity pg1).2 with hst1
  simp only [Fretless_move, Fretless_moveBody]
  simp only [ite_addFail_fingers, FNOTECHECK_fingers, FINGERCHECK_fingers]
  rw [fnoteBendFromExisting_congr st1
    (if (st1.fingers f).isOn = 0 then addFail (FNOTECHECK (FINGERCHECK st1 f) fnote)
     else FNOTECHECK (FINGERCHECK st1 f) fnote) fnote (st1.fingers f)
    (by simp [ite_addFail_channelBendSemis])]
  rw [c1]
  simp only [ite_visiting_note, ite_addFail_fingers, FNOTECHECK_fingers, FINGERCHECK_fingers]
  rw [if_pos trivial]
  rw [moveA_bendCount]
  · simp only [ite_visiting_emitted, ite_addFail_emitted, FNOTECHECK_emitted,
      FINGERCHECK_emitted]
  · simp only [ite_visiting_channel, ite_addFail_fingers, FNOTECHECK_fingers,
      FINGERCHECK_fingers]
    exact c3
  · simp only [ite_visiting_channel, ite_addFail_fingers, FNOTECHECK_fingers,
      FINGERCHECK_fingers]
    exact c4
  · simp only [ite_visiting_channels, ite_addFail_channels, FNOTECHECK_channels,
      FINGERCHECK_channels, ite_visiting_channel, ite_visiting_isOn, ite_visiting_bend,
      ite_addFail_fingers, FNOTECHECK_fingers, FINGERCHECK_fingers,
      ite_visiting_supressBends, ite_addFail_supressBends, FNOTECHECK_supressBends,
      FINGERCHECK_supressBends]
    exact c2

theorem claim_C8_witness :
    bendStatusCount ((Fretless_move (Fretless_move
        (updChannel (updFinger (Fretless_init garbage0) 0
          (fun fs => { fs with isOn := 1, channel := 3 })) 3
          (fun ch => { ch with currentFingerInChannel := 0 }))
        0 60 1 0).2 0 60 1 0).2.emitted)
      = bendStatusCount ((Fretless_move
        (updChannel (updFinger (Fretless_init garbage0) 0
          (fun fs => { fs with isOn := 1, channel := 3 })) 3
          (fun ch => { ch with currentFingerInChannel := 0 }))
        0 60 1 0).2.emitted) :=
  claim_C8 _ 0 60 1 0 0 (by decide) (by decide) (by decide) (by decide) (by decide)
    (by decide) (by decide) (by decide)

/-! ## Claim C3 — the ledger behaviour of `noteChannelDownCount` -/

theorem ite_addFail_noteChannelDownCount (p : Prop) [Decidable p] (st : Fretless_context) :
    (if p then addFail st else st).noteChannelDownCount = st.noteChannelDownCount := by
  split <;> rfl

theorem ite_addFail_fingersDownCount (p : Prop) [Decidable p] (st : Fretless_context) :
    (if p then addFail st else st).fingersDownCount = st.fingersDownCount := by
  split <;> rfl

theorem preemptOff_downCount (st : Fretless_context) (f : ℤ) :
    (Fretless_endDownPreemptOff st f).noteChannelDownCount = st.noteChannelDownCount := by
  simp only [Fretless_endDownPreemptOff]
  split_ifs <;> rfl

theorem turnOff_downCount (st : Fretless_context) (off lg : ℤ) :
    (Fretless_endDownTurnOff st off lg).noteChannelDownCount = st.noteChannelDownCount := by
  simp only [Fretless_endDownTurnOff, Fretless_noteTie]
  split_ifs <;> rfl

theorem emitOn_downCount (st : Fretless_context) (f : ℤ) :
    (Fretless_endDownEmitOn st f).noteChannelDownCount = st.noteChannelDownCount := by
  simp only [Fretless_endDownEmitOn]
  split_ifs <;> rfl

theorem link_downCount (st : Fretless_context) (f : ℤ) :
    ((Fretless_link st f).1).noteChannelDownCount = st.noteChannelDownCount := by
  simp only [Fretless_link]
  split_ifs <;> rfl

theorem setCurrentBend_downCount (st : Fretless_context) (f : ℤ) :
    (Fretless_setCurrentBend st f).noteChannelDownCount = st.noteChannelDownCount := by
  simp only [Fretless_setCurrentBend]
  split <;> rfl

theorem endDownSetup_downCount (st : Fretless_context) (f : ℤ) (fnote : ℚ) (pg : ℤ) (v : ℚ)
    (n c : ℤ) :
    (Fretless_endDownSetup st f fnote pg v).noteChannelDownCount n c
      = st.noteChannelDownCount n c +
        (if n = (Fretless_fnoteToNoteBendPair st fnote).1 ∧ c = (st.fingers f).channel
         then 1 else 0) := by
  simp [Fretless_endDownSetup, addDownCount, upd2, fnoteToNoteBendPair_eq, bendCandidate,
    ite_addFail_channelBendSemis, ite_addFail_fingers]
  split_ifs <;> simp_all

/-- C3, amended behaviour of `Fretless_endDown` on the ledger: the cell at
the rounded note and the finger's channel goes up by one, whether or not the
finger is suppressed. -/
theorem endDown_downCount (st : Fretless_context) (f : ℤ) (fnote : ℚ) (pg : ℤ) (v : ℚ)
    (lg n c : ℤ) :
    (Fretless_endDown st f fnote pg v lg).noteChannelDownCount n c
      = st.noteChannelDownCount n c +
        (if n = (Fretless_fnoteToNoteBendPair st fnote).1 ∧ c = (st.fingers f).channel
         then 1 else 0) := by
  simp only [Fretless_endDown, Fretless_endDownBody, emitOn_downCount, turnOff_downCount,
    ite_addFail_noteChannelDownCount, setCurrentBend_downCount, link_downCount,
    preemptOff_downCount, endDownSetup_downCount]
  rw [fnoteToNoteBendPair_congr st
    (FNOTECHECK (POLYCHECK (FINGERCHECK (STATECHECK st) f) pg) fnote) fnote (by simp)]
  simp

theorem unlink_fingers_note (st : Fretless_context) (f g : ℤ) :
    (((Fretless_unlink st f).1).fingers g).note = (st.fingers g).note := by
  simp only [Fretless_unlink]
  split_ifs
  all_goals try dsimp only
  all_goals
    repeat first
      | rw [updFinger_note_preserved]
      | simp only [updPoly_fingers]
  all_goals try intro fs
  all_goals first
    | rfl
    | trivial

theorem unlink_fingers_channel (st : Fretless_context) (f g : ℤ) :
    (((Fretless_unlink st f).1).fingers g).channel = (st.fingers g).channel := by
  simp only [Fretless_unlink]
  split_ifs
  all_goals try dsimp only
  all_goals
    repeat first
      | rw [updFinger_channel_preserved]
      | simp only [updPoly_fingers]
  all_goals try intro fs
  all_goals first
    | rfl
    | trivial

theorem unlink_downCount (st : Fretless_context) (f : ℤ) :
    ((Fretless_unlink st f).1).noteChannelDownCount = st.noteChannelDownCount := by
  simp only [Fretless_unlink]
  split_ifs <;> rfl

theorem unlink_fingersDownCount (st : Fretless_context) (f : ℤ) :
    ((Fretless_unlink st f).1).fingersDownCount = st.fingersDownCount := by
  simp only [Fretless_unlink]
  split_ifs <;> rfl

theorem upOffEmit_downCount (st : Fretless_context) (f fws ftn lg : ℤ) :
    (Fretless_upOffEmit st f fws ftn lg).noteChannelDownCount = st.noteChannelDownCount := by
  simp only [Fretless_upOffEmit, Fretless_noteTie]
  split_ifs <;> rfl

theorem upOffEmit_fingersDownCount (st : Fretless_context) (f fws ftn lg : ℤ) :
    (Fretless_upOffEmit st f fws ftn lg).fingersDownCount = st.fingersDownCount := by
  simp only [Fretless_upOffEmit, Fretless_noteTie]
  split_ifs <;> rfl

theorem upReveal_downCount (st : Fretless_context) (f ftn ov : ℤ) :
    (Fretless_upReveal st f ftn ov).noteChannelDownCount = st.noteChannelDownCount := by
  simp only [Fretless_upReveal, Fretless_setCurrentBend]
  split_ifs <;> rfl

theorem upReveal_fingersDownCount (st : Fretless_context) (f ftn ov : ℤ) :
    (Fretless_upReveal st f ftn ov).fingersDownCount = st.fingersDownCount := by
  simp only [Fretless_upReveal, Fretless_setCurrentBend]
  split_ifs <;> rfl

theorem freeChannel_downCount (st : Fretless_context) (f : ℤ) :
    (Fretless_freeChannel st f).noteChannelDownCount = st.noteChannelDownCount := by
  simp only [Fretless_freeChannel]
  split_ifs <;> rfl

theorem freeChannel_fingersDownCount (st : Fretless_context) (f : ℤ) :
    (Fretless_freeChannel st f).fingersDownCount = st.fingersDownCount := by
  simp only [Fretless_freeChannel]
  split_ifs <;> rfl

/-- When at least two fingers are down, the decrement inside
`Fretless_upFinish` cannot reach zero, so the self test does not run and the
ledger is untouched. -/
theorem upFinish_downCount (st : Fretless_context) (f : ℤ) (h : 2 ≤ st.fingersDownCount) :
    (Fretless_upFinish st f).noteChannelDownCount = st.noteChannelDownCount := by
  simp only [Fretless_upFinish]
  rw [if_neg]
  · simp only [updFinger_noteChannelDownCount, freeChannel_downCount,
      bumpFDC_noteChannelDownCount, ite_addFail_noteChannelDownCount]
  · simp only [updFinger_fingersDownCount, freeChannel_fingersDownCount,
      bumpFDC_fingersDownCount, ite_addFail_fingersDownCount]
    omega

/-- C3, amended behaviour of `Fretless_up` on the ledger while other fingers
stay down: exactly one is subtracted at the finger's (note, channel), whether
or not the finger was suppressed. -/
theorem up_downCount (st : Fretless_context) (f lg n c : ℤ) (h : 2 ≤ st.fingersDownCount) :
    (Fretless_up st f lg).noteChannelDownCount n c
      = st.noteChannelDownCount n c -
        (if n = (st.fingers f).note ∧ c = (st.fingers f).channel then 1 else 0) := by
  simp only [Fretless_up, Fretless_upBody]
  rw [upFinish_downCount]
  · rw [upReveal_downCount, upOffEmit_downCount]
    simp only [addDownCount, upd2, unlink_downCount, unlink_fingers_note,
      unlink_fingers_channel, ite_addFail_noteChannelDownCount, ite_addFail_fingers,
      FINGERCHECK_noteChannelDownCount, FINGERCHECK_fingers]
    split_ifs with hc
    · obtain ⟨h1, h2⟩ := hc
      subst h1
      subst h2
      omega
    · omega
  · simp only [upReveal_fingersDownCount, upOffEmit_fingersDownCount,
      addDownCount_fingersDownCount, unlink_fingersDownCount, ite_addFail_fingersDownCount,
      FINGERCHECK_fingersDownCount]
    exact h

/-- C3, corrected.  `noteChannelDownCount[n][c]` is not the number of on,
non-suppressed fingers at `(n, c)`: `Fretless_endDown` increments the cell
for suppressed fingers exactly as for audible ones, and an on finger between
`beginDown` and `endDown` is not counted at all.  What the counter actually
satisfies is a per-cell ledger law: every `Fretless_endDown` adds exactly one
at (rounded note of `fnote`, the finger's channel) whether or not the finger
is suppressed, and every `Fretless_up` taken with at least two fingers down
(so that the count-resetting self test cannot trigger) subtracts exactly one
at the finger's stored (note, channel). -/
theorem claim_C3_amended :
    (∀ (st : Fretless_context) (f : ℤ) (fnote : ℚ) (pg : ℤ) (v : ℚ) (lg n c : ℤ),
      (Fretless_endDown st f fnote pg v lg).noteChannelDownCount n c
        = st.noteChannelDownCount n c +
          (if n = (Fretless_fnoteToNoteBendPair st fnote).1 ∧ c = (st.fingers f).channel
           then 1 else 0)) ∧
    (∀ (st : Fretless_context) (f lg n c : ℤ), 2 ≤ st.fingersDownCount →
      (Fretless_up st f lg).noteChannelDownCount n c
        = st.noteChannelDownCount n c -
          (if n = (st.fingers f).note ∧ c = (st.fingers f).channel then 1 else 0)) :=
  ⟨fun st f fnote pg v lg n c => endDown_downCount st f fnote pg v lg n c,
   fun st f lg n c h => up_downCount st f lg n c h⟩

/-- The `Fretless_up` half of the amended C3 at a concrete state with two
fingers down: lifting finger 0 (note 60, channel 3) takes the cell (60, 3)
from 1 to 0. -/
theorem claim_C3_amended_witness :
    (Fretless_up preBootGarbage 0 0).noteChannelDownCount 60 3
      = preBootGarbage.noteChannelDownCount 60 3 -
        (if (60 : ℤ) = (preBootGarbage.fingers 0).note ∧
            (3 : ℤ) = (preBootGarbage.fingers 0).channel then 1 else 0) :=
  claim_C3_amended.2 preBootGarbage 0 0 60 3 (by decide)
